import Mathlib

/-!
Campus Event Reporting: registration, attendance and feedback core

A shallow embedding of the request handlers of `src/routes/events.js` and
`src/routes/admin.js` over an explicit relational store.

Modelling conventions.

* A table is the list of its rows in insertion order; `first()` of a knex query is
  `List.find?` on that list, `count('*')` is the length of the filtered list.
* Identifiers, names and statuses are strings, as in the schema
  (`scripts/migrate-mysql.js`).  Instants are natural numbers (milliseconds); a stored
  `DATETIME` keeps whole seconds only, which is what
  `toISOString().slice(0, 19)` retains.
* `uuidv4()` and `new Date()` are inputs of a handler: every handler takes the instant
  `now` of the request and the identifiers that `uuidv4()` hands out during it.
* A request body as a validator sees it classifies each member by how Joi reads it
  (a string or not, an integer, another number or no number, a date or none) and lists
  the names of the members that the schema does not know.
* The storage engine is the default one of `knexfile.js` (sqlite3).  The table
  constraints are those of the schema; whether the engine enforces the declared
  foreign keys is a parameter (`DbConfig.foreignKeys`), because the module that opens
  the connection is not part of the sources.
-/

namespace CampusEvents

/-! ## Data model -/

/-- Row of table `colleges`. -/
structure College where
  id : String
  name : String
  created_at : Nat
deriving DecidableEq, Repr

/-- Row of table `students`. -/
structure Student where
  id : String
  college_id : String
  roll_no : Option String
  name : String
  email : Option String
  phone : Option String
  created_at : Nat
deriving DecidableEq, Repr

/-- Row of table `events`. -/
structure Event where
  id : String
  college_id : String
  title : String
  type : String
  description : Option String
  start_time : Nat
  end_time : Nat
  capacity : Int
  status : String
  created_at : Nat
deriving DecidableEq, Repr

/-- Row of table `registrations`. -/
structure Registration where
  id : String
  event_id : String
  student_id : String
  registered_at : Nat
  status : String
deriving DecidableEq, Repr

/-- Row of table `attendance`; `present` is the INTEGER column (1 or 0). -/
structure Attendance where
  id : String
  registration_id : String
  checked_in_at : Nat
  present : Nat
deriving DecidableEq, Repr

/-- Row of table `feedback`. -/
structure Feedback where
  id : String
  registration_id : String
  rating : Int
  comment : Option String
  submitted_at : Nat
deriving DecidableEq, Repr

/-- The relational store: one list of rows per table. -/
structure Store where
  colleges : List College
  students : List Student
  events : List Event
  registrations : List Registration
  attendance : List Attendance
  feedback : List Feedback
deriving DecidableEq, Repr

/-- The store with no rows. -/
def Store.empty : Store :=
  { colleges := [], students := [], events := [], registrations := [],
    attendance := [], feedback := [] }

/-- Settings of the storage engine that the handlers do not decide themselves. -/
structure DbConfig where
  foreignKeys : Bool
deriving DecidableEq, Repr

/-- Failure of a single insert statement. -/
inductive DbError where
  | uniqueConstraint
  | foreignKeyConstraint
  | checkConstraint
deriving DecidableEq, Repr

/-- The test `dbError.message.includes('UNIQUE constraint failed')`: sqlite reports a
violated PRIMARY KEY or UNIQUE constraint with exactly this text, and no other
constraint failure contains it. -/
def DbError.isUniqueConstraintFailed : DbError → Bool
  | .uniqueConstraint => true
  | _ => false

/-- What `toISOString().slice(0, 19).replace('T', ' ')` keeps of an instant: the
millisecond part is dropped. -/
def sqlDateTime (t : Nat) : Nat := t / 1000 * 1000

/-- JavaScript `!x` for an optional string: `undefined` and the empty string are falsy. -/
def falsy (x : Option String) : Bool :=
  match x with
  | none => true
  | some v => decide (v = "")

/-! ## Queries -/

/-- The query `db('events').where('id', id).first()`. -/
def findEvent (s : Store) (id : String) : Option Event :=
  s.events.find? (fun e => decide (e.id = id))

/-- The query `db('registrations').where('id', id).first()`. -/
def findRegistration (s : Store) (id : String) : Option Registration :=
  s.registrations.find? (fun r => decide (r.id = id))

/-- The query `db('registrations').where('event_id', e).where('student_id', st).first()`. -/
def findRegistrationFor (s : Store) (eventId studentId : String) : Option Registration :=
  s.registrations.find? (fun r => decide (r.event_id = eventId) && decide (r.student_id = studentId))

/-- The query
`db('registrations').where('event_id', e).where('status', 'registered').count('* as count')`. -/
def registeredCount (s : Store) (eventId : String) : Nat :=
  (s.registrations.filter
    (fun r => decide (r.event_id = eventId) && decide (r.status = "registered"))).length

/-- The query `db('attendance').where('registration_id', id).first()`. -/
def findAttendance (s : Store) (registrationId : String) : Option Attendance :=
  s.attendance.find? (fun a => decide (a.registration_id = registrationId))

/-- The query `db('feedback').where('registration_id', id).first()`. -/
def findFeedback (s : Store) (registrationId : String) : Option Feedback :=
  s.feedback.find? (fun f => decide (f.registration_id = registrationId))

/-- The query `db('colleges').where('name', name).first()`. -/
def findCollegeByName (s : Store) (name : String) : Option College :=
  s.colleges.find? (fun c => decide (c.name = name))

/-! ## Insert statements and the constraints of the schema -/

/-- Insert into `colleges`: PRIMARY KEY (id). -/
def insertCollege (s : Store) (c : College) : Except DbError Store :=
  if s.colleges.any (fun x => decide (x.id = c.id)) then .error .uniqueConstraint
  else .ok { s with colleges := s.colleges ++ [c] }

/-- Insert into `students`: PRIMARY KEY (id), UNIQUE (email) where NULLs do not
collide, FOREIGN KEY (college_id) REFERENCES colleges(id). -/
def insertStudent (cfg : DbConfig) (s : Store) (st : Student) : Except DbError Store :=
  if s.students.any (fun x => decide (x.id = st.id)) then .error .uniqueConstraint
  else if st.email.isSome && s.students.any (fun x => decide (x.email = st.email)) then
    .error .uniqueConstraint
  else if cfg.foreignKeys && !s.colleges.any (fun c => decide (c.id = st.college_id)) then
    .error .foreignKeyConstraint
  else .ok { s with students := s.students ++ [st] }

/-- Insert into `events`: PRIMARY KEY (id), FOREIGN KEY (college_id) REFERENCES
colleges(id). -/
def insertEvent (cfg : DbConfig) (s : Store) (e : Event) : Except DbError Store :=
  if s.events.any (fun x => decide (x.id = e.id)) then .error .uniqueConstraint
  else if cfg.foreignKeys && !s.colleges.any (fun c => decide (c.id = e.college_id)) then
    .error .foreignKeyConstraint
  else .ok { s with events := s.events ++ [e] }

/-- Insert into `registrations`: PRIMARY KEY (id), UNIQUE (event_id, student_id),
FOREIGN KEY (event_id) REFERENCES events(id), FOREIGN KEY (student_id) REFERENCES
students(id). -/
def insertRegistration (cfg : DbConfig) (s : Store) (r : Registration) : Except DbError Store :=
  if s.registrations.any (fun x => decide (x.id = r.id)) then .error .uniqueConstraint
  else if s.registrations.any
      (fun x => decide (x.event_id = r.event_id) && decide (x.student_id = r.student_id)) then
    .error .uniqueConstraint
  else if cfg.foreignKeys &&
      !(s.events.any (fun e => decide (e.id = r.event_id)) &&
        s.students.any (fun st => decide (st.id = r.student_id))) then
    .error .foreignKeyConstraint
  else .ok { s with registrations := s.registrations ++ [r] }

/-- Insert into `attendance`: PRIMARY KEY (id), FOREIGN KEY (registration_id)
REFERENCES registrations(id). -/
def insertAttendance (cfg : DbConfig) (s : Store) (a : Attendance) : Except DbError Store :=
  if s.attendance.any (fun x => decide (x.id = a.id)) then .error .uniqueConstraint
  else if cfg.foreignKeys &&
      !s.registrations.any (fun r => decide (r.id = a.registration_id)) then
    .error .foreignKeyConstraint
  else .ok { s with attendance := s.attendance ++ [a] }

/-- Insert into `feedback`: PRIMARY KEY (id), CHECK (rating >= 1 AND rating <= 5),
FOREIGN KEY (registration_id) REFERENCES registrations(id). -/
def insertFeedback (cfg : DbConfig) (s : Store) (f : Feedback) : Except DbError Store :=
  if s.feedback.any (fun x => decide (x.id = f.id)) then .error .uniqueConstraint
  else if !(decide (1 ≤ f.rating) && decide (f.rating ≤ 5)) then .error .checkConstraint
  else if cfg.foreignKeys &&
      !s.registrations.any (fun r => decide (r.id = f.registration_id)) then
    .error .foreignKeyConstraint
  else .ok { s with feedback := s.feedback ++ [f] }

/-! ## Request bodies as the validators see them (`controllers/validators.js`) -/

/-- One entry of `error.details` of a Joi validation: the member it is about and the
code of the rule that failed (`detail.path`, `detail.type`); the message sent to the
client is derived from the two. -/
structure ValidationDetail where
  path : String
  type : String
deriving DecidableEq, Repr

/-- A body member where a string is expected: a string, or a value of another kind. -/
inductive TextInput where
  | text (value : String)
  | notString
deriving DecidableEq, Repr

/-- A body member where a number is expected, as `Joi.number()` reads it: an integer
(a number or a numeric string of that value), a number that is not an integer, lying
strictly between `floor` and `floor + 1`, or a value that is no number. -/
inductive NumberInput where
  | integer (value : Int)
  | fraction (floor : Int)
  | notNumber
deriving DecidableEq, Repr

/-- A body member where a date is expected, as `Joi.date()` reads it: a value that
denotes an instant, or a value that denotes none. -/
inductive DateInput where
  | instant (value : Nat)
  | invalid
deriving DecidableEq, Repr

/-- The `length` of a JavaScript string, which `Joi.string().min` and `.max` compare:
the number of UTF-16 code units. -/
def jsLength (s : String) : Nat :=
  (s.data.map (fun c => if c.toNat < 65536 then 1 else 2)).sum

/-! ## `POST /events/:eventId/register` -/

/-- The request body of a registration after `validateRegistration`. -/
structure RegistrationBody where
  student_id : Option String
  roll_no : Option String
  name : Option String
  email : Option String
  phone : Option String
deriving DecidableEq, Repr

/-- The JSON answer of the registration handler: HTTP status, `success`, the text of
`error` or `message`, and the `registration` member when there is one (with the
`event_title` that a 201 adds to it). -/
structure RegisterResponse where
  status : Nat
  success : Bool
  text : String
  registration : Option Registration
  event_title : Option String
deriving DecidableEq, Repr

/-- An answer `{ success: false, error }`. -/
def RegisterResponse.failure (status : Nat) (error : String) : RegisterResponse :=
  { status := status, success := false, text := error, registration := none,
    event_title := none }

/-- Lines 209-242 of `events.js`: the duplicate check, the insert of the registration
and the 201 answer.  An insert that throws ends in the outer `catch` (500). -/
def registerInsert (cfg : DbConfig) (s : Store) (now : Nat) (registrationId : String)
    (event : Event) (eventId studentId : String) : Store × RegisterResponse :=
  match findRegistrationFor s eventId studentId with
  | some existing =>
    (s, { status := 409, success := false, text := "Already registered for this event",
          registration := some existing, event_title := none })
  | none =>
    let registration : Registration :=
      { id := registrationId, event_id := eventId, student_id := studentId,
        registered_at := sqlDateTime now, status := "registered" }
    match insertRegistration cfg s registration with
    | .error _ => (s, RegisterResponse.failure 500 "Failed to register for event")
    | .ok s' =>
      (s', { status := 201, success := true, text := "Successfully registered for event",
             registration := some registration, event_title := some event.title })

/-- The handler of `POST /events/:eventId/register` (lines 130-250 of `events.js`).
`studentUuid` and `registrationUuid` are the results of the two `uuidv4()` calls. -/
def register (cfg : DbConfig) (s : Store) (now : Nat) (studentUuid registrationUuid : String)
    (eventId : String) (body : RegistrationBody) : Store × RegisterResponse :=
  match findEvent s eventId with
  | none => (s, RegisterResponse.failure 404 "Event not found")
  | some event =>
    if event.status = "cancelled" then
      (s, RegisterResponse.failure 400 "Event has been cancelled")
    else if event.start_time ≤ now then
      (s, RegisterResponse.failure 400 "Registration closed - event has started")
    else if 0 < event.capacity ∧ event.capacity ≤ (registeredCount s eventId : Int) then
      (s, RegisterResponse.failure 409 "Event is full")
    else if falsy body.student_id || decide (body.student_id = some "new") then
      if falsy body.name || falsy body.email then
        (s, RegisterResponse.failure 400 "Name and email are required for new students")
      else
        let student : Student :=
          { id := studentUuid, college_id := event.college_id, roll_no := body.roll_no,
            name := body.name.getD "", email := body.email, phone := body.phone,
            created_at := sqlDateTime now }
        match insertStudent cfg s student with
        | .error e =>
          if e.isUniqueConstraintFailed then
            (s, RegisterResponse.failure 409 "Email already exists")
          else (s, RegisterResponse.failure 500 "Failed to register for event")
        | .ok s1 => registerInsert cfg s1 now registrationUuid event eventId studentUuid
    else
      registerInsert cfg s now registrationUuid event eventId (body.student_id.getD "")

/-! ## `POST /registrations/:registrationId/checkin` -/

/-- The JSON answer of the two attendance handlers. -/
structure AttendanceResponse where
  status : Nat
  success : Bool
  text : String
  attendance : Option Attendance
deriving DecidableEq, Repr

/-- The self-service check-in handler (lines 253-305 of `events.js`); `attendanceUuid`
is the result of `uuidv4()`. -/
def checkIn (cfg : DbConfig) (s : Store) (now : Nat) (attendanceUuid : String)
    (registrationId : String) : Store × AttendanceResponse :=
  match findRegistration s registrationId with
  | none =>
    (s, { status := 404, success := false, text := "Registration not found",
          attendance := none })
  | some _ =>
    match findAttendance s registrationId with
    | some existingAttendance =>
      (s, { status := 200, success := true, text := "Already checked in",
            attendance := some existingAttendance })
    | none =>
      let attendance : Attendance :=
        { id := attendanceUuid, registration_id := registrationId,
          checked_in_at := sqlDateTime now, present := 1 }
      match insertAttendance cfg s attendance with
      | .error _ =>
        (s, { status := 500, success := false, text := "Failed to check in",
              attendance := none })
      | .ok s' =>
        (s', { status := 201, success := true, text := "Checked in successfully",
               attendance := some attendance })

/-! ## `POST /admin/registrations/:registrationId/attendance` -/

/-- The statement
`db('attendance').where('registration_id', id).update({ present, checked_in_at })`. -/
def updateAttendance (s : Store) (registrationId : String) (present checkedInAt : Nat) : Store :=
  { s with attendance := s.attendance.map (fun a =>
      if a.registration_id = registrationId then
        { a with present := present, checked_in_at := checkedInAt }
      else a) }

/-- The administrator's marking handler (lines 305-377 of `admin.js`).  `present` is
`none` when the body member is not a boolean. -/
def markAttendance (cfg : DbConfig) (s : Store) (now : Nat) (attendanceUuid : String)
    (registrationId : String) (present : Option Bool) : Store × AttendanceResponse :=
  match present with
  | none =>
    (s, { status := 400, success := false, text := "Present status must be true or false",
          attendance := none })
  | some p =>
    match findRegistration s registrationId with
    | none =>
      (s, { status := 404, success := false, text := "Registration not found",
            attendance := none })
    | some _ =>
      let presentValue : Nat := if p then 1 else 0
      let text : String := if p then "Student marked as present" else "Student marked as absent"
      match findAttendance s registrationId with
      | some existingAttendance =>
        (updateAttendance s registrationId presentValue (sqlDateTime now),
          { status := 200, success := true, text := text,
            attendance := some { id := existingAttendance.id,
                                 registration_id := registrationId,
                                 checked_in_at := sqlDateTime now,
                                 present := presentValue } })
      | none =>
        let attendanceRecord : Attendance :=
          { id := attendanceUuid, registration_id := registrationId,
            checked_in_at := sqlDateTime now, present := presentValue }
        match insertAttendance cfg s attendanceRecord with
        | .error _ =>
          (s, { status := 500, success := false, text := "Failed to mark attendance",
                attendance := none })
        | .ok s' =>
          (s', { status := 200, success := true, text := text,
                 attendance := some attendanceRecord })

/-! ## `POST /registrations/:registrationId/feedback` -/

/-- The JSON answer of the feedback handler. -/
structure FeedbackResponse where
  status : Nat
  success : Bool
  text : String
  feedback : Option Feedback
  details : List ValidationDetail := []
deriving DecidableEq, Repr

/-- The feedback handler (lines 308-361 of `events.js`), on a body that passed
`validateFeedback`; `comment || null` turns an empty comment into NULL. -/
def submitFeedback (cfg : DbConfig) (s : Store) (now : Nat) (feedbackUuid : String)
    (registrationId : String) (rating : Int) (comment : Option String) :
    Store × FeedbackResponse :=
  match findRegistration s registrationId with
  | none =>
    (s, { status := 404, success := false, text := "Registration not found",
          feedback := none })
  | some _ =>
    match findFeedback s registrationId with
    | some existingFeedback =>
      (s, { status := 409, success := false, text := "Feedback already submitted",
            feedback := some existingFeedback })
    | none =>
      let feedback : Feedback :=
        { id := feedbackUuid, registration_id := registrationId, rating := rating,
          comment := if falsy comment then none else comment,
          submitted_at := sqlDateTime now }
      match insertFeedback cfg s feedback with
      | .error _ =>
        (s, { status := 500, success := false, text := "Failed to submit feedback",
              feedback := none })
      | .ok s' =>
        (s', { status := 201, success := true, text := "Feedback submitted successfully",
               feedback := some feedback })

/-! ## Administrator's event handlers (`admin.js`) -/

/-- The request body of `POST /admin/events` and `PUT /admin/events/:id` after
`validateEvent`: the dates have been converted to instants. -/
structure EventBody where
  college_name : String
  title : String
  type : String
  description : Option String
  start_time : Nat
  end_time : Nat
  capacity : Option Int
  status : Option String
deriving DecidableEq, Repr

/-- The JSON answer of the event handlers. -/
structure EventResponse where
  status : Nat
  success : Bool
  text : String
  event : Option Event
  details : List ValidationDetail := []
deriving DecidableEq, Repr

/-- The expression `capacity || 100`: an absent capacity and the number 0 give 100. -/
def capacityOrDefault (capacity : Option Int) : Int :=
  match capacity with
  | none => 100
  | some c => if c = 0 then 100 else c

/-- Lines 33-56 of `admin.js`: build the event row for the resolved college, insert
it and answer 201. -/
def createEventInsert (cfg : DbConfig) (s : Store) (now : Nat) (eventUuid : String)
    (college : College) (body : EventBody) : Store × EventResponse :=
  let event : Event :=
    { id := eventUuid, college_id := college.id, title := body.title, type := body.type,
      description := body.description, start_time := sqlDateTime body.start_time,
      end_time := sqlDateTime body.end_time, capacity := capacityOrDefault body.capacity,
      status := "scheduled", created_at := sqlDateTime now }
  match insertEvent cfg s event with
  | .error _ =>
    (s, { status := 500, success := false, text := "Failed to create event", event := none })
  | .ok s' =>
    (s', { status := 201, success := true, text := "Event created successfully",
           event := some event })

/-- The handler of `POST /admin/events` (lines 12-71 of `admin.js`): find the college
by name or create it, then create the event. -/
def createEvent (cfg : DbConfig) (s : Store) (now : Nat) (collegeUuid eventUuid : String)
    (body : EventBody) : Store × EventResponse :=
  match findCollegeByName s body.college_name with
  | some college => createEventInsert cfg s now eventUuid college body
  | none =>
    let college : College :=
      { id := collegeUuid, name := body.college_name, created_at := sqlDateTime now }
    match insertCollege s college with
    | .error _ =>
      (s, { status := 500, success := false, text := "Failed to create event",
            event := none })
    | .ok s1 => createEventInsert cfg s1 now eventUuid college body

/-- The statement `db('events').where('id', id).update(updateData)` of the update
handler: members of `updateData` that are `undefined` leave their column as it is. -/
def updateEventRow (body : EventBody) (e : Event) : Event :=
  { e with
    title := body.title
    type := body.type
    description := match body.description with
      | some d => some d
      | none => e.description
    capacity := match body.capacity with
      | some c => c
      | none => e.capacity
    start_time := sqlDateTime body.start_time
    end_time := sqlDateTime body.end_time
    status := if falsy body.status then e.status else body.status.getD e.status }

/-- The handler of `PUT /admin/events/:id` (lines 74-114 of `admin.js`). -/
def updateEvent (s : Store) (id : String) (body : EventBody) : Store × EventResponse :=
  match findEvent s id with
  | none => (s, { status := 404, success := false, text := "Event not found", event := none })
  | some _ =>
    let s' : Store :=
      { s with events := s.events.map (fun e => if e.id = id then updateEventRow body e else e) }
    (s', { status := 200, success := true, text := "Event updated successfully",
           event := findEvent s' id })

/-- The handler of `DELETE /admin/events/:id` (lines 117-142 of `admin.js`): a soft
delete that sets the status to cancelled. -/
def cancelEvent (s : Store) (id : String) : Store × EventResponse :=
  match findEvent s id with
  | none => (s, { status := 404, success := false, text := "Event not found", event := none })
  | some _ =>
    let s' : Store :=
      { s with events := s.events.map (fun e =>
          if e.id = id then { e with status := "cancelled" } else e) }
    (s', { status := 200, success := true, text := "Event cancelled successfully",
           event := none })

/-! ## `validateFeedback` and the feedback route -/

/-- The body of `POST /registrations/:registrationId/feedback` as it arrives:
`unknownKeys` are the names of its members other than rating and comment. -/
structure FeedbackRequest where
  rating : Option NumberInput
  comment : Option TextInput
  unknownKeys : List String
deriving DecidableEq, Repr

/-- The body after `validateFeedback` (`req.body = value`). -/
structure FeedbackBody where
  rating : Int
  comment : Option String
deriving DecidableEq, Repr

/-- The rule `Joi.number().integer().min(lo).max(hi)` on a number member. -/
def integerRangeErrors (path : String) (lo hi : Int) : NumberInput → List ValidationDetail
  | .notNumber => [{ path := path, type := "number.base" }]
  | .integer n =>
    (if n < lo then [{ path := path, type := "number.min" }] else []) ++
    (if hi < n then [{ path := path, type := "number.max" }] else [])
  | .fraction fl =>
    [{ path := path, type := "number.integer" }] ++
    (if fl < lo then [{ path := path, type := "number.min" }] else []) ++
    (if hi ≤ fl then [{ path := path, type := "number.max" }] else [])

/-- The rule `Joi.string().min(lo).max(hi)` on a string member; `Joi.string()` does not
allow the empty string. -/
def stringErrors (path : String) (lo hi : Nat) : TextInput → List ValidationDetail
  | .notString => [{ path := path, type := "string.base" }]
  | .text v =>
    if v = "" then [{ path := path, type := "string.empty" }]
    else
      (if jsLength v < lo then [{ path := path, type := "string.min" }] else []) ++
      (if hi < jsLength v then [{ path := path, type := "string.max" }] else [])

/-- A rule followed by `.required()`. -/
def requiredErrors {α : Type} (path : String) (rule : α → List ValidationDetail) :
    Option α → List ValidationDetail
  | none => [{ path := path, type := "any.required" }]
  | some v => rule v

/-- A rule followed by `.optional()`. -/
def optionalErrors {α : Type} (rule : α → List ValidationDetail) :
    Option α → List ValidationDetail
  | none => []
  | some v => rule v

/-- Members that the schema does not name: `Joi.object` does not allow them. -/
def unknownKeyErrors (keys : List String) : List ValidationDetail :=
  keys.map (fun k => { path := k, type := "object.unknown" })

/-- All failures of `feedbackSchema` on a body (`abortEarly: false`): rating is a
required integer from 1 to 5, comment an optional string of at most 500 characters. -/
def feedbackErrors (req : FeedbackRequest) : List ValidationDetail :=
  requiredErrors "rating" (integerRangeErrors "rating" 1 5) req.rating ++
  optionalErrors (stringErrors "comment" 0 500) req.comment ++
  unknownKeyErrors req.unknownKeys

/-- The value of a number member that passed an integer rule. -/
def NumberInput.toInt : NumberInput → Int
  | .integer n => n
  | _ => 0

/-- The value of a string member that passed a string rule. -/
def TextInput.toString : TextInput → String
  | .text v => v
  | .notString => ""

/-- The validated value of a feedback body. -/
def feedbackValue (req : FeedbackRequest) : FeedbackBody :=
  { rating := (req.rating.map NumberInput.toInt).getD 0,
    comment := req.comment.map TextInput.toString }

/-- The middleware `validateFeedback`: the failures (answered with 400), or the value
that the handler receives. -/
def validateFeedback (req : FeedbackRequest) : Except (List ValidationDetail) FeedbackBody :=
  if feedbackErrors req = [] then .ok (feedbackValue req) else .error (feedbackErrors req)

/-- The route `POST /registrations/:registrationId/feedback`: `validateFeedback`, then
the handler. -/
def submitFeedbackRequest (cfg : DbConfig) (s : Store) (now : Nat) (feedbackUuid : String)
    (registrationId : String) (req : FeedbackRequest) : Store × FeedbackResponse :=
  match validateFeedback req with
  | .error details =>
    (s, { status := 400, success := false, text := "Validation failed", feedback := none,
          details := details })
  | .ok body => submitFeedback cfg s now feedbackUuid registrationId body.rating body.comment

/-! ## `validateEvent` and the routes that create and update events -/

/-- The body of `POST /admin/events` and `PUT /admin/events/:id` as it arrives;
`unknownKeys` are the names of its members that `eventSchema` does not name. -/
structure EventRequest where
  college_name : Option TextInput
  title : Option TextInput
  type : Option TextInput
  description : Option TextInput
  start_time : Option DateInput
  end_time : Option DateInput
  capacity : Option NumberInput
  status : Option TextInput
  unknownKeys : List String
deriving DecidableEq, Repr

/-- The values that `eventSchema` allows for the type of an event. -/
def eventTypes : List String :=
  ["Workshop", "Hackathon", "Seminar", "Fest", "Conference", "Competition"]

/-- The values that `eventSchema` allows for the status of an event. -/
def eventStatuses : List String := ["scheduled", "cancelled", "completed"]

/-- The rule `Joi.string().valid(...)`: the member is one of the listed strings. -/
def oneOfErrors (path : String) (allowed : List String) : TextInput → List ValidationDetail
  | .text v => if v ∈ allowed then [] else [{ path := path, type := "any.only" }]
  | .notString => [{ path := path, type := "any.only" }]

/-- The rule `Joi.date()`. -/
def dateErrors (path : String) : DateInput → List ValidationDetail
  | .instant _ => []
  | .invalid => [{ path := path, type := "date.base" }]

/-- The rule `Joi.date().min(Joi.ref('start_time'))` on end_time: the date must not be
before the start time (the bound itself is allowed). -/
def endTimeErrors (start : Option DateInput) : DateInput → List ValidationDetail
  | .invalid => [{ path := "end_time", type := "date.base" }]
  | .instant e =>
    match start with
    | some (.instant st) =>
      if e < st then [{ path := "end_time", type := "date.min" }] else []
    | _ => []

/-- All failures of `eventSchema` on a body (`abortEarly: false`). -/
def eventErrors (req : EventRequest) : List ValidationDetail :=
  requiredErrors "college_name" (stringErrors "college_name" 2 255) req.college_name ++
  requiredErrors "title" (stringErrors "title" 3 200) req.title ++
  requiredErrors "type" (oneOfErrors "type" eventTypes) req.type ++
  optionalErrors (stringErrors "description" 0 1000) req.description ++
  requiredErrors "start_time" (dateErrors "start_time") req.start_time ++
  requiredErrors "end_time" (endTimeErrors req.start_time) req.end_time ++
  optionalErrors (integerRangeErrors "capacity" 1 1000) req.capacity ++
  optionalErrors (oneOfErrors "status" eventStatuses) req.status ++
  unknownKeyErrors req.unknownKeys

/-- The instant of a date member that passed the date rule. -/
def DateInput.toInstant : DateInput → Nat
  | .instant t => t
  | .invalid => 0

/-- The validated value of an event body. -/
def eventValue (req : EventRequest) : EventBody :=
  { college_name := (req.college_name.map TextInput.toString).getD "",
    title := (req.title.map TextInput.toString).getD "",
    type := (req.type.map TextInput.toString).getD "",
    description := req.description.map TextInput.toString,
    start_time := (req.start_time.map DateInput.toInstant).getD 0,
    end_time := (req.end_time.map DateInput.toInstant).getD 0,
    capacity := req.capacity.map NumberInput.toInt,
    status := req.status.map TextInput.toString }

/-- The middleware `validateEvent`: the failures (answered with 400), or the value that
the handler receives. -/
def validateEvent (req : EventRequest) : Except (List ValidationDetail) EventBody :=
  if eventErrors req = [] then .ok (eventValue req) else .error (eventErrors req)

/-- The route `POST /admin/events` behind the admin token: `validateEvent`, then the
handler. -/
def createEventRequest (cfg : DbConfig) (s : Store) (now : Nat)
    (collegeUuid eventUuid : String) (req : EventRequest) : Store × EventResponse :=
  match validateEvent req with
  | .error details =>
    (s, { status := 400, success := false, text := "Validation failed", event := none,
          details := details })
  | .ok body => createEvent cfg s now collegeUuid eventUuid body

/-- The route `PUT /admin/events/:id` behind the admin token: `validateEvent`, then the
handler. -/
def updateEventRequest (s : Store) (id : String) (req : EventRequest) :
    Store × EventResponse :=
  match validateEvent req with
  | .error details =>
    (s, { status := 400, success := false, text := "Validation failed", event := none,
          details := details })
  | .ok body => updateEvent s id body

/-! ## `GET /events` and `GET /events/:id` -/

/-- An event as the two public routes report it: the row, the name of its college from
the left join, and the members that the handler adds (`attendance_count` only in the
single-event route). -/
structure EventView where
  event : Event
  college_name : Option String
  registrations_count : Nat
  attendance_count : Option Nat
  available_spots : Option Int
  is_full : Bool
deriving DecidableEq, Repr

/-- The column `colleges.name as college_name` of the left join on the college id. -/
def collegeNameOf (s : Store) (collegeId : String) : Option String :=
  (s.colleges.find? (fun c => decide (c.id = collegeId))).map (fun c => c.name)

/-- The expression `capacity > 0 ? Math.max(0, capacity - count) : null`. -/
def availableSpots (capacity : Int) (count : Nat) : Option Int :=
  if 0 < capacity then some (max 0 (capacity - count)) else none

/-- The expression `capacity > 0 && count >= capacity`. -/
def isFull (capacity : Int) (count : Nat) : Bool :=
  decide (0 < capacity) && decide (capacity ≤ (count : Int))

/-- The count of the join of `attendance` with `registrations` on the registration id,
restricted to the event and to `present = 1`. -/
def attendanceCount (s : Store) (eventId : String) : Nat :=
  (s.attendance.flatMap (fun a =>
    s.registrations.filter (fun r =>
      decide (a.registration_id = r.id) && decide (r.event_id = eventId) &&
        decide (a.present = 1)))).length

/-- Lines 46-58 of `events.js`: the members added to each event of the list. -/
def listView (s : Store) (e : Event) : EventView :=
  { event := e, college_name := collegeNameOf s e.college_id,
    registrations_count := registeredCount s e.id, attendance_count := none,
    available_spots := availableSpots e.capacity (registeredCount s e.id),
    is_full := isFull e.capacity (registeredCount s e.id) }

/-- Lines 95-114 of `events.js`: the members added to the single event. -/
def detailView (s : Store) (id : String) (e : Event) : EventView :=
  { event := e, college_name := collegeNameOf s e.college_id,
    registrations_count := registeredCount s id,
    attendance_count := some (attendanceCount s id),
    available_spots := availableSpots e.capacity (registeredCount s id),
    is_full := isFull e.capacity (registeredCount s id) }

/-- The JSON answer of `GET /events/:id`. -/
structure EventViewResponse where
  status : Nat
  success : Bool
  text : String
  event : Option EventView
deriving DecidableEq, Repr

/-- The handler of `GET /events/:id` (lines 78-127 of `events.js`). -/
def getEvent (s : Store) (id : String) : EventViewResponse :=
  match findEvent s id with
  | none => { status := 404, success := false, text := "Event not found", event := none }
  | some e => { status := 200, success := true, text := "", event := some (detailView s id e) }

/-- The query string of `GET /events`; `page` and `limit` are the numbers that their
strings denote. -/
structure EventsQuery where
  college_id : Option String
  type : Option String
  dateFrom : Option DateInput
  dateTo : Option DateInput
  q : Option String
  status : Option String
  page : Option Nat
  limit : Option Nat
deriving DecidableEq, Repr

/-- The JSON answer of `GET /events`. -/
structure EventListResponse where
  status : Nat
  success : Bool
  text : String
  events : List EventView
  page : Nat
  limit : Nat
deriving DecidableEq, Repr

/-- The WHERE clause of the list query.  `like text q` stands for the operator
`text LIKE '%q%'` of the engine; a NULL description matches nothing.  A filter whose
query member is absent or empty is not applied; the status defaults to scheduled. -/
def eventMatches (like : String → String → Bool) (query : EventsQuery) (e : Event) : Bool :=
  decide (e.status = query.status.getD "scheduled") &&
  (falsy query.college_id || decide (some e.college_id = query.college_id)) &&
  (falsy query.type || decide (some e.type = query.type)) &&
  (match query.dateFrom with
    | some (.instant t) => decide (sqlDateTime t ≤ e.start_time)
    | _ => true) &&
  (match query.dateTo with
    | some (.instant t) => decide (e.start_time ≤ sqlDateTime t)
    | _ => true) &&
  (falsy query.q ||
    (like e.title (query.q.getD "") ||
      (match e.description with
        | some d => like d (query.q.getD "")
        | none => false)))

/-- The handler of `GET /events` (lines 9-75 of `events.js`): filter, order by start
time, cut the page out, then add the counts to each event.  `new Date(x).toISOString()`
throws on a date that denotes no instant, and knex throws on a negative offset; both
end in the `catch` (500). -/
def getEvents (like : String → String → Bool) (s : Store) (query : EventsQuery) :
    EventListResponse :=
  let page := query.page.getD 1
  let limit := query.limit.getD 20
  if query.dateFrom = some .invalid ∨ query.dateTo = some .invalid ∨
      ((page : Int) - 1) * (limit : Int) < 0 then
    { status := 500, success := false, text := "Failed to fetch events", events := [],
      page := page, limit := limit }
  else
    let rows := (s.events.filter (eventMatches like query)).insertionSort
      (fun a b => a.start_time ≤ b.start_time)
    { status := 200, success := true, text := "",
      events := ((rows.drop ((page - 1) * limit)).take limit).map (listView s),
      page := page, limit := limit }

/-- The rule that relates the reported availability to capacity and count: with
capacity 0 there is no number of available spots and the event is not full; with a
positive capacity the spots are max(0, capacity - n), and the event is full exactly when
n >= capacity, which is exactly when no spot is available. -/
def AvailabilityRule (capacity : Int) (n : Nat) (spots : Option Int) (full : Bool) : Prop :=
  (capacity = 0 → spots = none ∧ full = false) ∧
  (0 < capacity →
    spots = some (max 0 (capacity - (n : Int))) ∧
    (full = true ↔ capacity ≤ (n : Int)) ∧
    (full = true ↔ spots = some 0))

/-! ## Sequences of API calls -/

/-- One call of the API, with the inputs of its handler. -/
inductive Call where
  | createEvent (now : Nat) (collegeUuid eventUuid : String) (body : EventBody)
  | updateEvent (id : String) (body : EventBody)
  | cancelEvent (id : String)
  | register (now : Nat) (studentUuid registrationUuid : String) (eventId : String)
      (body : RegistrationBody)
  | checkIn (now : Nat) (attendanceUuid : String) (registrationId : String)
  | markAttendance (now : Nat) (attendanceUuid : String) (registrationId : String)
      (present : Option Bool)
  | submitFeedback (now : Nat) (feedbackUuid : String) (registrationId : String)
      (rating : Int) (comment : Option String)
deriving DecidableEq, Repr

/-- The store after one call. -/
def Call.apply (cfg : DbConfig) (s : Store) : Call → Store
  | .createEvent now cu eu body => (CampusEvents.createEvent cfg s now cu eu body).1
  | .updateEvent id body => (CampusEvents.updateEvent s id body).1
  | .cancelEvent id => (CampusEvents.cancelEvent s id).1
  | .register now su ru eventId body => (CampusEvents.register cfg s now su ru eventId body).1
  | .checkIn now au registrationId => (CampusEvents.checkIn cfg s now au registrationId).1
  | .markAttendance now au registrationId present =>
    (CampusEvents.markAttendance cfg s now au registrationId present).1
  | .submitFeedback now fu registrationId rating comment =>
    (CampusEvents.submitFeedback cfg s now fu registrationId rating comment).1

/-- The store after a sequence of calls, in order. -/
def runCalls (cfg : DbConfig) (s : Store) (calls : List Call) : Store :=
  calls.foldl (Call.apply cfg) s

/-- One call of the registration endpoint. -/
structure RegisterCall where
  now : Nat
  studentUuid : String
  registrationUuid : String
  eventId : String
  body : RegistrationBody
deriving DecidableEq, Repr

/-- The store after a sequence of registration calls, in order. -/
def runRegisters (cfg : DbConfig) (s : Store) (calls : List RegisterCall) : Store :=
  calls.foldl
    (fun acc c => (register cfg acc c.now c.studentUuid c.registrationUuid c.eventId c.body).1) s

/-! ## Vocabulary of the statements -/

/-- The registration row that a successful call writes. -/
def newRegistration (now : Nat) (rid eventId studentId : String) : Registration :=
  { id := rid, event_id := eventId, student_id := studentId,
    registered_at := sqlDateTime now, status := "registered" }

/-- The student row that a call without a known student id writes. -/
def newStudent (now : Nat) (sid : String) (event : Event) (body : RegistrationBody) : Student :=
  { id := sid, college_id := event.college_id, roll_no := body.roll_no,
    name := body.name.getD "", email := body.email, phone := body.phone,
    created_at := sqlDateTime now }

/-- The request asks for a new student: `!student_id || student_id === 'new'`. -/
def wantsNewStudent (body : RegistrationBody) : Bool :=
  falsy body.student_id || decide (body.student_id = some "new")

/-- The event is open for the request: not cancelled, not started, not full. -/
def OpenFor (s : Store) (now : Nat) (eventId : String) (ev : Event) : Prop :=
  findEvent s eventId = some ev ∧ ev.status ≠ "cancelled" ∧ now < ev.start_time ∧
    ¬ (0 < ev.capacity ∧ ev.capacity ≤ (registeredCount s eventId : Int))

/-- No two registration rows have the same (event_id, student_id) pair. -/
def RegistrationPairsUnique (s : Store) : Prop :=
  s.registrations.Pairwise
    (fun a b => ¬ (a.event_id = b.event_id ∧ a.student_id = b.student_id))

/-! ## Sample data -/

/-- A seminar of capacity 1 that starts at instant 5000. -/
def sampleEvent : Event :=
  { id := "E1", college_id := "C1", title := "Talk", type := "Seminar",
    description := none, start_time := 5000, end_time := 9000, capacity := 1,
    status := "scheduled", created_at := 0 }

/-- A workshop of unlimited capacity (0) that starts at instant 5000. -/
def openEvent : Event :=
  { id := "E2", college_id := "C1", title := "Lab", type := "Workshop",
    description := none, start_time := 5000, end_time := 9000, capacity := 0,
    status := "scheduled", created_at := 0 }

/-- A store with one college, two students, the two sample events and no registration. -/
def sampleStore : Store :=
  { colleges := [{ id := "C1", name := "Uni", created_at := 0 }],
    students := [{ id := "S1", college_id := "C1", roll_no := none, name := "Ann",
                   email := some "ann@x.com", phone := none, created_at := 0 },
                 { id := "S2", college_id := "C1", roll_no := none, name := "Bob",
                   email := some "bob@x.com", phone := none, created_at := 0 }],
    events := [sampleEvent, openEvent],
    registrations := [],
    attendance := [],
    feedback := [] }

/-- A registration body that only names a student id. -/
def bodyFor (studentId : String) : RegistrationBody :=
  { student_id := some studentId, roll_no := none, name := none, email := none,
    phone := none }

/-- A registration body for a new student. -/
def bodyNew (name email : String) : RegistrationBody :=
  { student_id := some "new", roll_no := none, name := some name, email := some email,
    phone := none }

/-- A registration body without student id and without name: only an e-mail address. -/
def bodyEmailOnly (email : String) : RegistrationBody :=
  { student_id := none, roll_no := none, name := none, email := some email, phone := none }

/-- The number of student rows with the given e-mail address. -/
def studentsWithEmail (s : Store) (email : String) : Nat :=
  (s.students.filter (fun st => decide (st.email = some email))).length

/-- The attendance row that a first check-in writes. -/
def newAttendance (now : Nat) (aid registrationId : String) : Attendance :=
  { id := aid, registration_id := registrationId, checked_in_at := sqlDateTime now,
    present := 1 }

/-- The sample store after student S1 registered for the event of unlimited capacity. -/
def registeredStore : Store :=
  (register ⟨true⟩ sampleStore 1000 "u1" "R1" "E2" (bodyFor "S1")).1

/-- Two students ask for the single seat of the sample event, one after the other. -/
def sampleCalls : List RegisterCall :=
  [{ now := 1000, studentUuid := "u1", registrationUuid := "R1", eventId := "E1",
     body := bodyFor "S1" },
   { now := 1001, studentUuid := "u2", registrationUuid := "R2", eventId := "E1",
     body := bodyFor "S2" }]

/-! ## Vocabulary for attendance and feedback -/

/-- The attendance rows of a registration. -/
def attendanceRows (s : Store) (registrationId : String) : List Attendance :=
  s.attendance.filter (fun a => decide (a.registration_id = registrationId))

/-- Each registration has at most one attendance row. -/
def AttendanceAtMostOne (s : Store) : Prop :=
  ∀ r ∈ s.registrations, (attendanceRows s r.id).length ≤ 1

/-- One call of one of the two attendance endpoints. -/
inductive AttendanceCall where
  | checkIn (now : Nat) (attendanceUuid : String) (registrationId : String)
  | markAttendance (now : Nat) (attendanceUuid : String) (registrationId : String)
      (present : Option Bool)
deriving DecidableEq, Repr

/-- The store after one attendance call. -/
def AttendanceCall.apply (cfg : DbConfig) (s : Store) : AttendanceCall → Store
  | .checkIn now au registrationId => (CampusEvents.checkIn cfg s now au registrationId).1
  | .markAttendance now au registrationId present =>
    (CampusEvents.markAttendance cfg s now au registrationId present).1

/-- The store after a sequence of attendance calls, in order. -/
def runAttendanceCalls (cfg : DbConfig) (s : Store) (calls : List AttendanceCall) : Store :=
  calls.foldl (AttendanceCall.apply cfg) s

/-- The INTEGER that `present ? 1 : 0` stores. -/
def presentValue (p : Bool) : Nat := if p then 1 else 0

/-- The sample store after S1 registered for the open event and checked in. -/
def checkedInStore : Store :=
  (checkIn ⟨true⟩ registeredStore 2000 "A1" "R1").1

/-- The feedback rows of a registration. -/
def feedbackRows (s : Store) (registrationId : String) : List Feedback :=
  s.feedback.filter (fun f => decide (f.registration_id = registrationId))

/-- The sample store after S1 registered, checked in and rated the event with 5. -/
def feedbackStore : Store :=
  (submitFeedback ⟨true⟩ checkedInStore 4000 "F1" "R1" 5 (some "Great")).1

/-- The feedback row that S1 submitted in the sample. -/
def sampleFeedback : Feedback :=
  { id := "F1", registration_id := "R1", rating := 5, comment := some "Great",
    submitted_at := 4000 }

/-- A feedback body with an integer rating and a comment. -/
def feedbackRequest (rating : Int) (comment : String) : FeedbackRequest :=
  { rating := some (.integer rating), comment := some (.text comment), unknownKeys := [] }

/-- The feedback row that an accepted submission writes. -/
def newFeedback (now : Nat) (fid registrationId : String) (rating : Int)
    (comment : Option String) : Feedback :=
  { id := fid, registration_id := registrationId, rating := rating, comment := comment,
    submitted_at := sqlDateTime now }

/-- A comment of 501 characters. -/
def longComment : String := String.mk (List.replicate 501 'a')

/-- A valid event body for the college of the sample store, with the given start time,
end time and capacity. -/
def eventRequest (start finish : Nat) (capacity : Option NumberInput) : EventRequest :=
  { college_name := some (.text "Uni"), title := some (.text "Open day"),
    type := some (.text "Seminar"), description := none,
    start_time := some (.instant start), end_time := some (.instant finish),
    capacity := capacity, status := none, unknownKeys := [] }

/-- The event row that a create request writes for a resolved college. -/
def newEvent (now : Nat) (eid : String) (college : College) (body : EventBody) : Event :=
  { id := eid, college_id := college.id, title := body.title, type := body.type,
    description := body.description, start_time := sqlDateTime body.start_time,
    end_time := sqlDateTime body.end_time, capacity := capacityOrDefault body.capacity,
    status := "scheduled", created_at := sqlDateTime now }

/-! ## `validateAdminToken` and the routes behind it -/

/-- What a middleware does with a request: it hands it on (`next()`), or it answers
with a status and an error text. -/
inductive Gate where
  | next
  | reply (status : Nat) (error : String)
deriving DecidableEq, Repr

/-- The middleware `validateAdminToken` (lines 4-22 of `validators.js`).  `configured`
is `process.env.ADMIN_TOKEN`, `header` the value of the header `x-admin-token`; both may
be absent. -/
def validateAdminToken (configured header : Option String) : Gate :=
  if falsy header then .reply 401 "Admin token required. Include x-admin-token header."
  else if header ≠ configured ∧ header ≠ some "admin123456" then
    .reply 403 "Invalid admin token"
  else .next

/-- The route `POST /admin/events` as mounted: `router.use(validateAdminToken)`, then
`validateEvent`, then the handler. -/
def adminCreateEvent (configured header : Option String) (cfg : DbConfig) (s : Store)
    (now : Nat) (collegeUuid eventUuid : String) (req : EventRequest) :
    Store × EventResponse :=
  match validateAdminToken configured header with
  | .reply status error =>
    (s, { status := status, success := false, text := error, event := none })
  | .next => createEventRequest cfg s now collegeUuid eventUuid req

/-- The route `PUT /admin/events/:id` as mounted: the token check, `validateEvent`,
then the handler. -/
def adminUpdateEvent (configured header : Option String) (s : Store) (id : String)
    (req : EventRequest) : Store × EventResponse :=
  match validateAdminToken configured header with
  | .reply status error =>
    (s, { status := status, success := false, text := error, event := none })
  | .next => updateEventRequest s id req

/-- The college row that a create request writes for a name that no college has. -/
def newCollege (now : Nat) (cid name : String) : College :=
  { id := cid, name := name, created_at := sqlDateTime now }

/-- The body of the create test of `tests/api.test.js` (lines 57-65): it names the
college by `college_id`, a member that `eventSchema` does not know. -/
def testCreateRequest : EventRequest :=
  { college_name := none, title := some (.text "Test Workshop"),
    type := some (.text "Workshop"), description := some (.text "A test workshop event"),
    start_time := some (.instant 86400000), end_time := some (.instant 90000000),
    capacity := some (.integer 50), status := none, unknownKeys := ["college_id"] }

/-- The body of the update test of `tests/api.test.js` (lines 107-114): it names no
college at all. -/
def testUpdateRequest : EventRequest :=
  { college_name := none, title := some (.text "Updated Test Workshop"),
    type := some (.text "Workshop"), description := some (.text "Updated description"),
    start_time := some (.instant 86400000), end_time := some (.instant 90000000),
    capacity := some (.integer 75), status := none, unknownKeys := [] }

/-- No two college rows have the same name. -/
def CollegeNamesDistinct (s : Store) : Prop :=
  s.colleges.Pairwise (fun a b => a.name ≠ b.name)

/-- One call of the create handler. -/
structure CreateEventCall where
  now : Nat
  collegeUuid : String
  eventUuid : String
  body : EventBody
deriving DecidableEq, Repr

/-- The store after a sequence of create calls, in order. -/
def runCreateEvents (cfg : DbConfig) (s : Store) (calls : List CreateEventCall) : Store :=
  calls.foldl (fun acc c => (createEvent cfg acc c.now c.collegeUuid c.eventUuid c.body).1) s

/-- A valid event body for the handler, for the college of the given name. -/
def eventBodyFor (collegeName : String) : EventBody :=
  { college_name := collegeName, title := "Open day", type := "Seminar", description := none,
    start_time := 7000, end_time := 8000, capacity := some 50, status := none }

/-- Each event with a positive capacity has at most that many registered
registrations. -/
def CapacityInvariant (s : Store) : Prop :=
  ∀ e ∈ s.events, 0 < e.capacity → (registeredCount s e.id : Int) ≤ e.capacity

/-- The sample store after S1 and S2 registered for the event of unlimited capacity. -/
def twoRegisteredStore : Store :=
  (register ⟨true⟩ registeredStore 1001 "u2" "R2" "E2" (bodyFor "S2")).1

/-! ## Reports (`routes/reports.js`) -/

/-- How a `limit` query member reads: absent, a string from which `parseInt` takes a
number that is not negative, or a value that ends in no limit at all (empty, so that
`if (limit)` skips it; not a number, which knex ignores; negative, which the engine
takes as no limit). -/
inductive LimitInput where
  | absent
  | count (n : Nat)
  | unusable
deriving DecidableEq, Repr

/-- The clause `LIMIT` of a report whose `limit` defaults to `default`. -/
def applyLimit {α : Type} (default : Nat) (limit : LimitInput) (rows : List α) : List α :=
  match limit with
  | .absent => rows.take default
  | .count n => rows.take n
  | .unusable => rows

/-- The clause `ORDER BY key DESC`: rows with equal keys stay in table order. -/
def sortDesc {α : Type} (key : α → Nat) (rows : List α) : List α :=
  rows.insertionSort (fun a b => key b ≤ key a)

/-- The rows of `registrations` that the clause
`ON registrations.event_id = events.id AND registrations.status = 'registered'` joins to
an event. -/
def registeredRows (s : Store) (eventId : String) : List Registration :=
  s.registrations.filter
    (fun r => decide (r.event_id = eventId) && decide (r.status = "registered"))

/-- The rows of `events LEFT JOIN registrations (registered) LEFT JOIN attendance` for
one event: a registration with each of its attendance rows, or with NULL when it has
none; a single all-NULL row when the event has no registered registration. -/
def attendanceJoin (s : Store) (eventId : String) :
    List (Option Registration × Option Attendance) :=
  match registeredRows s eventId with
  | [] => [(none, none)]
  | regs => regs.flatMap (fun r =>
      match attendanceRows s r.id with
      | [] => [(some r, none)]
      | rows => rows.map (fun a => (some r, some a)))

/-- The aggregate `COUNT(registrations.id)` of the attendance reports. -/
def reportRegistrations (s : Store) (eventId : String) : Nat :=
  ((attendanceJoin s eventId).filter (fun row => row.1.isSome)).length

/-- The aggregate `COUNT(attendance.id)` of the attendance reports. -/
def reportAttended (s : Store) (eventId : String) : Nat :=
  ((attendanceJoin s eventId).filter (fun row => row.2.isSome)).length

/-- The expression `CASE WHEN COUNT(registrations.id) = 0 THEN 0 ELSE
(CAST(COUNT(attendance.id) AS FLOAT) / COUNT(registrations.id)) * 100 END`, with the
arithmetic taken as exact; the answer renders it with two decimals. -/
def attendancePercentage (registrations attended : Nat) : ℚ :=
  if registrations = 0 then 0 else (attended : ℚ) / (registrations : ℚ) * 100

/-- One event of an attendance report; the college name and the start time are part
of the aggregate form only. -/
structure AttendanceReportRow where
  id : String
  title : String
  college_name : Option String
  start_time : Option Nat
  registrations : Nat
  attended : Nat
  attendance_percentage : ℚ
deriving DecidableEq, Repr

/-- The row of the single-event attendance report for an event. -/
def singleAttendanceRow (s : Store) (e : Event) : AttendanceReportRow :=
  { id := e.id, title := e.title, college_name := none, start_time := none,
    registrations := reportRegistrations s e.id, attended := reportAttended s e.id,
    attendance_percentage :=
      attendancePercentage (reportRegistrations s e.id) (reportAttended s e.id) }

/-- The row of the aggregate attendance report for an event. -/
def aggregateAttendanceRow (s : Store) (e : Event) : AttendanceReportRow :=
  { id := e.id, title := e.title, college_name := collegeNameOf s e.college_id,
    start_time := some e.start_time,
    registrations := reportRegistrations s e.id, attended := reportAttended s e.id,
    attendance_percentage :=
      attendancePercentage (reportRegistrations s e.id) (reportAttended s e.id) }

/-- The JSON answer of `GET /reports/attendance`. -/
structure AttendanceReportResponse where
  status : Nat
  success : Bool
  text : String
  event : Option AttendanceReportRow
  events : List AttendanceReportRow
deriving DecidableEq, Repr

/-- The function `getSingleEventAttendanceReport` (lines 111-152 of `reports.js`). -/
def getSingleEventAttendanceReport (s : Store) (eventId : String) :
    AttendanceReportResponse :=
  match findEvent s eventId with
  | none =>
    { status := 404, success := false, text := "Event not found", event := none,
      events := [] }
  | some e =>
    { status := 200, success := true, text := "", event := some (singleAttendanceRow s e),
      events := [] }

/-- The handler of `GET /reports/attendance` (lines 56-108 of `reports.js`): the
single-event form when `event_id` is given, else one row per event, latest start
first, of the college when `college_id` is given. -/
def attendanceReport (s : Store) (eventId collegeId : Option String) :
    AttendanceReportResponse :=
  if falsy eventId then
    { status := 200, success := true, text := "", event := none,
      events := (sortDesc (fun e => e.start_time)
        (s.events.filter (fun e =>
          falsy collegeId || decide (some e.college_id = collegeId)))).map
        (aggregateAttendanceRow s) }
  else getSingleEventAttendanceReport s (eventId.getD "")

/-- One event of the popularity report. -/
structure PopularityRow where
  id : String
  title : String
  type : String
  start_time : Nat
  capacity : Int
  college_name : Option String
  registrations_count : Nat
deriving DecidableEq, Repr

/-- The row of the popularity report for an event: `COUNT(registrations.id)` over the
left join with its registered registrations. -/
def popularityRow (s : Store) (e : Event) : PopularityRow :=
  { id := e.id, title := e.title, type := e.type, start_time := e.start_time,
    capacity := e.capacity, college_name := collegeNameOf s e.college_id,
    registrations_count := (registeredRows s e.id).length }

/-- The query string of `GET /reports/popularity`. -/
structure PopularityQuery where
  college_id : Option String
  type : Option String
  limit : LimitInput
deriving DecidableEq, Repr

/-- The WHERE clause of the popularity report: a filter whose query member is absent
or empty is not applied. -/
def popularityMatches (query : PopularityQuery) (e : Event) : Bool :=
  (falsy query.college_id || decide (some e.college_id = query.college_id)) &&
  (falsy query.type || decide (some e.type = query.type))

/-- The JSON answer of `GET /reports/popularity`. -/
structure PopularityResponse where
  status : Nat
  success : Bool
  events : List PopularityRow
deriving DecidableEq, Repr

/-- The handler of `GET /reports/popularity` (lines 7-53 of `reports.js`): the events
that match, most registered registrations first, cut at the limit (10 by default). -/
def popularityReport (s : Store) (query : PopularityQuery) : PopularityResponse :=
  { status := 200, success := true,
    events := (applyLimit 10 query.limit
      (sortDesc (fun e => (registeredRows s e.id).length)
        (s.events.filter (popularityMatches query)))).map (popularityRow s) }

/-- One student of the top-active report. -/
structure TopActiveRow where
  id : String
  name : String
  email : Option String
  roll_no : Option String
  college_name : String
  events_attended : Nat
deriving DecidableEq, Repr

/-- The rows of `students JOIN registrations JOIN attendance JOIN colleges` for one
student: every registration of the student with every attendance row of that
registration and the college of the student. -/
def studentJoin (s : Store) (st : Student) : List (Registration × Attendance × College) :=
  (s.registrations.filter (fun r => decide (r.student_id = st.id))).flatMap (fun r =>
    (attendanceRows s r.id).flatMap (fun a =>
      (s.colleges.filter (fun c => decide (c.id = st.college_id))).map (fun c => (r, a, c))))

/-- The group of a student in the top-active report, with `COUNT(attendance.id)` as
events_attended; a student without joined rows has no group.  The primary keys of
`students` and `colleges` make one group per student. -/
def topActiveRow (s : Store) (st : Student) : Option TopActiveRow :=
  match studentJoin s st with
  | [] => none
  | (_, _, c) :: _ =>
    some { id := st.id, name := st.name, email := st.email, roll_no := st.roll_no,
           college_name := c.name, events_attended := (studentJoin s st).length }

/-- The JSON answer of `GET /reports/top-active`. -/
structure TopActiveResponse where
  status : Nat
  success : Bool
  students : List TopActiveRow
deriving DecidableEq, Repr

/-- The handler of `GET /reports/top-active` (lines 322-360 of `reports.js`): the
students with joined rows, of the college when `college_id` is given, most attendance
rows first, cut at the limit (3 by default). -/
def topActiveReport (s : Store) (collegeId : Option String) (limit : LimitInput) :
    TopActiveResponse :=
  { status := 200, success := true,
    students := applyLimit 3 limit
      (sortDesc (fun row => row.events_attended)
        ((s.students.filter (fun st =>
            falsy collegeId || decide (some st.college_id = collegeId))).filterMap
          (topActiveRow s))) }

/-- The attendance rows attached to the registrations of a student: those whose
registration_id is the id of a registration of the student. -/
def attendanceOfStudent (s : Store) (studentId : String) : List Attendance :=
  s.attendance.filter (fun a =>
    s.registrations.any (fun r =>
      decide (r.id = a.registration_id) && decide (r.student_id = studentId)))

/-- The primary key of `registrations`: no two rows have the same id. -/
def RegistrationIdsDistinct (s : Store) : Prop :=
  s.registrations.Pairwise (fun a b => a.id ≠ b.id)

/-- The primary key of `colleges`: no two rows have the same id. -/
def CollegeIdsDistinct (s : Store) : Prop :=
  s.colleges.Pairwise (fun a b => a.id ≠ b.id)

/-- The sample store after S1 was marked absent for registration R1. -/
def absentStore : Store :=
  (markAttendance ⟨true⟩ registeredStore 2000 "A1" "R1" (some false)).1

/-- The rows of `registrations` that the clause `ON registrations.event_id = events.id`
of the feedback reports joins to an event, whatever their status. -/
def eventRegistrations (s : Store) (eventId : String) : List Registration :=
  s.registrations.filter (fun r => decide (r.event_id = eventId))

/-- The rows of `events LEFT JOIN registrations LEFT JOIN feedback` for one event: a
registration with each of its feedback rows, or with NULL when it has none; a single
all-NULL row when the event has no registration. -/
def feedbackJoin (s : Store) (eventId : String) :
    List (Option Registration × Option Feedback) :=
  match eventRegistrations s eventId with
  | [] => [(none, none)]
  | regs => regs.flatMap (fun r =>
      match feedbackRows s r.id with
      | [] => [(some r, none)]
      | rows => rows.map (fun f => (some r, some f)))

/-- The feedback rows of the join that are not NULL: those that `COUNT(feedback.id)`
counts and whose ratings `AVG(feedback.rating)` averages. -/
def joinedFeedback (s : Store) (eventId : String) : List Feedback :=
  (feedbackJoin s eventId).filterMap (fun row => row.2)

/-- The aggregate `AVG` over the values that are not NULL, with the arithmetic taken
as exact: NULL when there is none. -/
def sqlAvg (values : List Int) : Option ℚ :=
  if values.length = 0 then none else some ((values.sum : ℚ) / (values.length : ℚ))

/-- The expression `avg_rating ? parseFloat(avg_rating).toFixed(2) : null`: NULL and 0
are falsy and give null; the rendering with two decimals is left out. -/
def reportAvgRating (avg : Option ℚ) : Option ℚ :=
  match avg with
  | none => none
  | some q => if q = 0 then none else some q

/-- One row of `feedback_details`. -/
structure FeedbackDetail where
  rating : Int
  comment : Option String
  submitted_at : Nat
  name : String
deriving DecidableEq, Repr

/-- The query `feedback JOIN registrations JOIN students WHERE registrations.event_id =
event_id ORDER BY feedback.submitted_at DESC` of the single-event feedback report. -/
def feedbackDetails (s : Store) (eventId : String) : List FeedbackDetail :=
  (sortDesc (fun row : Feedback × Student => row.1.submitted_at)
    (s.feedback.flatMap (fun f =>
      (s.registrations.filter (fun r =>
        decide (f.registration_id = r.id) && decide (r.event_id = eventId))).flatMap
        (fun r => (s.students.filter (fun st => decide (r.student_id = st.id))).map
          (fun st => (f, st)))))).map
    (fun row => { rating := row.1.rating, comment := row.1.comment,
                  submitted_at := row.1.submitted_at, name := row.2.name })

/-- One event of a feedback report; the college name and the start time are part of
the aggregate form only, the details of the single-event form only. -/
structure FeedbackReportRow where
  id : String
  title : String
  college_name : Option String
  start_time : Option Nat
  avg_rating : Option ℚ
  rating_count : Nat
  feedback_details : List FeedbackDetail
deriving DecidableEq, Repr

/-- The row of the single-event feedback report for an event. -/
def singleFeedbackRow (s : Store) (e : Event) : FeedbackReportRow :=
  { id := e.id, title := e.title, college_name := none, start_time := none,
    avg_rating := reportAvgRating (sqlAvg ((joinedFeedback s e.id).map (fun f => f.rating))),
    rating_count := (joinedFeedback s e.id).length,
    feedback_details := feedbackDetails s e.id }

/-- The row of the aggregate feedback report for an event. -/
def aggregateFeedbackRow (s : Store) (e : Event) : FeedbackReportRow :=
  { id := e.id, title := e.title, college_name := collegeNameOf s e.college_id,
    start_time := some e.start_time,
    avg_rating := reportAvgRating (sqlAvg ((joinedFeedback s e.id).map (fun f => f.rating))),
    rating_count := (joinedFeedback s e.id).length,
    feedback_details := [] }

/-- The JSON answer of `GET /reports/feedback`. -/
structure FeedbackReportResponse where
  status : Nat
  success : Bool
  text : String
  event : Option FeedbackReportRow
  events : List FeedbackReportRow
deriving DecidableEq, Repr

/-- The function `getSingleEventFeedbackReport` (lines 205-250 of `reports.js`). -/
def getSingleEventFeedbackReport (s : Store) (eventId : String) : FeedbackReportResponse :=
  match findEvent s eventId with
  | none =>
    { status := 404, success := false, text := "Event not found", event := none,
      events := [] }
  | some e =>
    { status := 200, success := true, text := "", event := some (singleFeedbackRow s e),
      events := [] }

/-- The handler of `GET /reports/feedback` (lines 155-202 of `reports.js`): the
single-event form when `event_id` is given, else one row per event, latest start
first, of the college when `college_id` is given. -/
def feedbackReport (s : Store) (eventId collegeId : Option String) :
    FeedbackReportResponse :=
  if falsy eventId then
    { status := 200, success := true, text := "", event := none,
      events := (sortDesc (fun e => e.start_time)
        (s.events.filter (fun e =>
          falsy collegeId || decide (some e.college_id = collegeId)))).map
        (aggregateFeedbackRow s) }
  else getSingleEventFeedbackReport s (eventId.getD "")

/-- The feedback rows attached to the registrations of an event: those whose
registration_id is the id of a registration for the event. -/
def feedbackOfEvent (s : Store) (eventId : String) : List Feedback :=
  s.feedback.filter (fun f =>
    s.registrations.any (fun r =>
      decide (r.id = f.registration_id) && decide (r.event_id = eventId)))

/-- The sum of the ratings of a list of feedback rows. -/
def ratingSum (rows : List Feedback) : Int :=
  (rows.map (fun f => f.rating)).sum

/-- Every stored rating is one of 1..5. -/
def RatingsInRange (s : Store) : Prop :=
  ∀ f ∈ s.feedback, 1 ≤ f.rating ∧ f.rating ≤ 5

/-! # Theorems -/

/-! ## Basic facts about the insert statements -/

theorem insertStudent_ok {cfg : DbConfig} {s s1 : Store} {st : Student}
    (h : insertStudent cfg s st = .ok s1) :
    s1 = { s with students := s.students ++ [st] } := by
  unfold insertStudent at h
  split at h
  · cases h
  · split at h
    · cases h
    · split at h
      · cases h
      · cases h; rfl

theorem insertRegistration_ok {cfg : DbConfig} {s s1 : Store} {r : Registration}
    (h : insertRegistration cfg s r = .ok s1) :
    s1 = { s with registrations := s.registrations ++ [r] } := by
  unfold insertRegistration at h
  split at h
  · cases h
  · split at h
    · cases h
    · split at h
      · cases h
      · cases h; rfl

/-- What the second half of the registration handler does to the store: nothing, or
it appends the new row, and then no row for the pair existed and the answer is 201. -/
theorem registerInsert_spec (cfg : DbConfig) (s : Store) (now : Nat) (rid : String)
    (event : Event) (eventId studentId : String) :
    ((registerInsert cfg s now rid event eventId studentId).1 = s ∧
      (registerInsert cfg s now rid event eventId studentId).2.status ≠ 201) ∨
    (findRegistrationFor s eventId studentId = none ∧
      insertRegistration cfg s
        { id := rid, event_id := eventId, student_id := studentId,
          registered_at := sqlDateTime now, status := "registered" } =
        .ok (registerInsert cfg s now rid event eventId studentId).1 ∧
      (registerInsert cfg s now rid event eventId studentId).1 =
        { s with registrations := s.registrations ++
            [{ id := rid, event_id := eventId, student_id := studentId,
               registered_at := sqlDateTime now, status := "registered" }] } ∧
      (registerInsert cfg s now rid event eventId studentId).2 =
        { status := 201, success := true, text := "Successfully registered for event",
          registration := some { id := rid, event_id := eventId, student_id := studentId,
                                 registered_at := sqlDateTime now, status := "registered" },
          event_title := some event.title }) := by
  unfold registerInsert
  split
  · left; simp
  · rename_i hnone
    dsimp only
    split
    · left; simp [RegisterResponse.failure]
    · rename_i s1 hins
      right
      refine ⟨hnone, hins, insertRegistration_ok hins, rfl⟩

theorem register_noEvent (cfg : DbConfig) (s : Store) (now : Nat) (su ru eventId : String)
    (body : RegistrationBody) (h : findEvent s eventId = none) :
    register cfg s now su ru eventId body =
      (s, RegisterResponse.failure 404 "Event not found") := by
  simp [register, h]

theorem register_cancelled (cfg : DbConfig) (s : Store) (now : Nat) (su ru eventId : String)
    (body : RegistrationBody) (ev : Event) (h : findEvent s eventId = some ev)
    (hc : ev.status = "cancelled") :
    register cfg s now su ru eventId body =
      (s, RegisterResponse.failure 400 "Event has been cancelled") := by
  simp [register, h, hc]

theorem register_started (cfg : DbConfig) (s : Store) (now : Nat) (su ru eventId : String)
    (body : RegistrationBody) (ev : Event) (h : findEvent s eventId = some ev)
    (hc : ev.status ≠ "cancelled") (ht : ev.start_time ≤ now) :
    register cfg s now su ru eventId body =
      (s, RegisterResponse.failure 400 "Registration closed - event has started") := by
  simp [register, h, hc, ht]

theorem register_full (cfg : DbConfig) (s : Store) (now : Nat) (su ru eventId : String)
    (body : RegistrationBody) (ev : Event) (h : findEvent s eventId = some ev)
    (hc : ev.status ≠ "cancelled") (ht : now < ev.start_time)
    (hf : 0 < ev.capacity ∧ ev.capacity ≤ (registeredCount s eventId : Int)) :
    register cfg s now su ru eventId body =
      (s, RegisterResponse.failure 409 "Event is full") := by
  have ht' : ¬ ev.start_time ≤ now := Nat.not_le.mpr ht
  simp [register, h, hc, ht', hf.1, hf.2]

theorem register_named (cfg : DbConfig) (s : Store) (now : Nat) (su ru eventId : String)
    (body : RegistrationBody) (ev : Event) (h : findEvent s eventId = some ev)
    (hc : ev.status ≠ "cancelled") (ht : now < ev.start_time)
    (hf : ¬ (0 < ev.capacity ∧ ev.capacity ≤ (registeredCount s eventId : Int)))
    (hn : wantsNewStudent body = false) :
    register cfg s now su ru eventId body =
      registerInsert cfg s now ru ev eventId (body.student_id.getD "") := by
  have ht' : ¬ ev.start_time ≤ now := Nat.not_le.mpr ht
  unfold wantsNewStudent at hn
  simp only [register, h, hc, ht', hf, hn, if_false]
  simp

theorem register_new_missing (cfg : DbConfig) (s : Store) (now : Nat) (su ru eventId : String)
    (body : RegistrationBody) (ev : Event) (h : findEvent s eventId = some ev)
    (hc : ev.status ≠ "cancelled") (ht : now < ev.start_time)
    (hf : ¬ (0 < ev.capacity ∧ ev.capacity ≤ (registeredCount s eventId : Int)))
    (hn : wantsNewStudent body = true)
    (hm : (falsy body.name || falsy body.email) = true) :
    register cfg s now su ru eventId body =
      (s, RegisterResponse.failure 400 "Name and email are required for new students") := by
  have ht' : ¬ ev.start_time ≤ now := Nat.not_le.mpr ht
  unfold wantsNewStudent at hn
  simp only [register, h, hc, ht', hf, hn, hm, if_false, if_true]

theorem register_new_insertFails (cfg : DbConfig) (s : Store) (now : Nat)
    (su ru eventId : String)
    (body : RegistrationBody) (ev : Event) (h : findEvent s eventId = some ev)
    (hc : ev.status ≠ "cancelled") (ht : now < ev.start_time)
    (hf : ¬ (0 < ev.capacity ∧ ev.capacity ≤ (registeredCount s eventId : Int)))
    (hn : wantsNewStudent body = true)
    (hm : (falsy body.name || falsy body.email) = false)
    (e : DbError) (hi : insertStudent cfg s (newStudent now su ev body) = .error e) :
    register cfg s now su ru eventId body =
      (s, if e.isUniqueConstraintFailed then RegisterResponse.failure 409 "Email already exists"
          else RegisterResponse.failure 500 "Failed to register for event") := by
  have ht' : ¬ ev.start_time ≤ now := Nat.not_le.mpr ht
  unfold wantsNewStudent at hn
  unfold newStudent at hi
  simp only [register, h, hc, ht', hf, hn, hm, if_false, if_true, hi, Bool.false_eq_true]
  split <;> rfl

theorem register_new_inserted (cfg : DbConfig) (s : Store) (now : Nat)
    (su ru eventId : String)
    (body : RegistrationBody) (ev : Event) (h : findEvent s eventId = some ev)
    (hc : ev.status ≠ "cancelled") (ht : now < ev.start_time)
    (hf : ¬ (0 < ev.capacity ∧ ev.capacity ≤ (registeredCount s eventId : Int)))
    (hn : wantsNewStudent body = true)
    (hm : (falsy body.name || falsy body.email) = false)
    (s1 : Store) (hi : insertStudent cfg s (newStudent now su ev body) = .ok s1) :
    register cfg s now su ru eventId body =
      registerInsert cfg s1 now ru ev eventId su := by
  have ht' : ¬ ev.start_time ≤ now := Nat.not_le.mpr ht
  unfold wantsNewStudent at hn
  unfold newStudent at hi
  simp only [register, h, hc, ht', hf, hn, hm, if_false, if_true, hi, Bool.false_eq_true]

/-- Every run of the registration handler either stops at one of its early returns
with the store untouched, or reaches the duplicate check with the student id taken
from the request, or reaches it after inserting a new student. -/
theorem register_cases (cfg : DbConfig) (s : Store) (now : Nat) (su ru eventId : String)
    (body : RegistrationBody) :
    ((register cfg s now su ru eventId body).1 = s ∧
      (register cfg s now su ru eventId body).2.success = false ∧
      (register cfg s now su ru eventId body).2.registration = none ∧
      (register cfg s now su ru eventId body).2.status ≠ 201) ∨
    (∃ ev, OpenFor s now eventId ev ∧ wantsNewStudent body = false ∧
      register cfg s now su ru eventId body =
        registerInsert cfg s now ru ev eventId (body.student_id.getD "")) ∨
    (∃ ev s1, OpenFor s now eventId ev ∧ wantsNewStudent body = true ∧
      (falsy body.name || falsy body.email) = false ∧
      insertStudent cfg s (newStudent now su ev body) = .ok s1 ∧
      register cfg s now su ru eventId body = registerInsert cfg s1 now ru ev eventId su) := by
  cases h : findEvent s eventId with
  | none => left; rw [register_noEvent cfg s now su ru eventId body h]; simp [RegisterResponse.failure]
  | some ev =>
    by_cases hc : ev.status = "cancelled"
    · left; rw [register_cancelled cfg s now su ru eventId body ev h hc]
      simp [RegisterResponse.failure]
    by_cases ht : ev.start_time ≤ now
    · left; rw [register_started cfg s now su ru eventId body ev h hc ht]
      simp [RegisterResponse.failure]
    have ht' : now < ev.start_time := Nat.not_le.mp ht
    by_cases hf : 0 < ev.capacity ∧ ev.capacity ≤ (registeredCount s eventId : Int)
    · left; rw [register_full cfg s now su ru eventId body ev h hc ht' hf]
      simp [RegisterResponse.failure]
    cases hn : wantsNewStudent body with
    | false =>
      right; left
      exact ⟨ev, ⟨h, hc, ht', hf⟩, rfl, register_named cfg s now su ru eventId body ev h hc ht' hf hn⟩
    | true =>
      cases hm : (falsy body.name || falsy body.email) with
      | true =>
        left; rw [register_new_missing cfg s now su ru eventId body ev h hc ht' hf hn hm]
        simp [RegisterResponse.failure]
      | false =>
        cases hi : insertStudent cfg s (newStudent now su ev body) with
        | error e =>
          left
          rw [register_new_insertFails cfg s now su ru eventId body ev h hc ht' hf hn hm e hi]
          cases e <;> simp [RegisterResponse.failure, DbError.isUniqueConstraintFailed]
        | ok s1 =>
          right; right
          exact ⟨ev, s1, ⟨h, hc, ht', hf⟩, rfl, rfl, hi,
            register_new_inserted cfg s now su ru eventId body ev h hc ht' hf hn hm s1 hi⟩

/-- Frame of the registration handler: it can only append student rows and
registration rows, and a registration row is appended only for an open event and a
pair that had no row. -/
theorem register_effect (cfg : DbConfig) (s : Store) (now : Nat) (su ru eventId : String)
    (body : RegistrationBody) :
    ∃ studs regs,
      (register cfg s now su ru eventId body).1 =
        { s with students := s.students ++ studs, registrations := s.registrations ++ regs } ∧
      (regs = [] ∨ ∃ ev sid, OpenFor s now eventId ev ∧
        findRegistrationFor s eventId sid = none ∧
        regs = [newRegistration now ru eventId sid]) := by
  rcases register_cases cfg s now su ru eventId body with h | ⟨ev, hop, _, heq⟩ |
    ⟨ev, s1, hop, _, _, hi, heq⟩
  · exact ⟨[], [], by simp [h.1], Or.inl rfl⟩
  · rw [heq]
    rcases registerInsert_spec cfg s now ru ev eventId (body.student_id.getD "") with
      h | ⟨hnone, _, hst, _⟩
    · exact ⟨[], [], by simp [h.1], Or.inl rfl⟩
    · exact ⟨[], [newRegistration now ru eventId (body.student_id.getD "")],
        by rw [hst]; simp [newRegistration],
        Or.inr ⟨ev, _, hop, hnone, rfl⟩⟩
  · rw [heq]
    have hs1 := insertStudent_ok hi
    rcases registerInsert_spec cfg s1 now ru ev eventId su with h | ⟨hnone, _, hst, _⟩
    · exact ⟨[newStudent now su ev body], [], by rw [h.1, hs1]; simp, Or.inl rfl⟩
    · refine ⟨[newStudent now su ev body], [newRegistration now ru eventId su], ?_,
        Or.inr ⟨ev, su, hop, ?_, rfl⟩⟩
      · rw [hst, hs1]; simp [newRegistration]
      · rw [hs1] at hnone; exact hnone

theorem registeredCount_append (s : Store) (studs : List Student) (regs : List Registration)
    (x : String) :
    registeredCount
        { s with students := s.students ++ studs, registrations := s.registrations ++ regs } x =
      registeredCount s x +
        (regs.filter (fun r => decide (r.event_id = x) && decide (r.status = "registered"))).length := by
  simp [registeredCount, List.filter_append]

/-- One registration call keeps an event within its capacity. -/
theorem register_keeps_capacity (cfg : DbConfig) (s : Store) (now : Nat)
    (su ru eventId : String) (body : RegistrationBody) (x : String) (e : Event)
    (hfind : findEvent s x = some e) (hcap : 0 < e.capacity)
    (hle : (registeredCount s x : Int) ≤ e.capacity) :
    findEvent (register cfg s now su ru eventId body).1 x = some e ∧
      (registeredCount (register cfg s now su ru eventId body).1 x : Int) ≤ e.capacity := by
  obtain ⟨studs, regs, hst, hregs⟩ := register_effect cfg s now su ru eventId body
  rw [hst]
  refine ⟨hfind, ?_⟩
  rw [registeredCount_append]
  rcases hregs with rfl | ⟨ev, sid, hop, _, rfl⟩
  · simpa using hle
  · by_cases hx : eventId = x
    · subst hx
      obtain ⟨hf, _, _, hnot⟩ := hop
      rw [hfind] at hf
      cases hf
      have : (registeredCount s eventId : Int) < e.capacity := by
        by_contra hcon
        exact hnot ⟨hcap, not_lt.mp hcon⟩
      simp [newRegistration]
      omega
    · simp [newRegistration, hx]
      exact hle

/-! ## C1: the capacity of an event is never exceeded -/

theorem runRegisters_keeps_capacity (cfg : DbConfig) (calls : List RegisterCall) :
    ∀ (s : Store) (x : String) (e : Event), findEvent s x = some e → 0 < e.capacity →
      (registeredCount s x : Int) ≤ e.capacity →
      (registeredCount (runRegisters cfg s calls) x : Int) ≤ e.capacity := by
  induction calls with
  | nil => intro s x e _ _ hle; simpa [runRegisters] using hle
  | cons c cs ih =>
    intro s x e hfind hcap hle
    have hstep := register_keeps_capacity cfg s c.now c.studentUuid c.registrationUuid
      c.eventId c.body x e hfind hcap hle
    have := ih _ x e hstep.1 hcap hstep.2
    simpa [runRegisters] using this

/-- C1: for an event of capacity N > 0 that holds at most N registered registrations,
after every call of any finite sequence of register calls (the first k calls, for
every k) the number of its registered registrations is still at most N. -/
theorem capacity_never_exceeded (cfg : DbConfig) (s : Store) (e : Event)
    (calls : List RegisterCall) (k : Nat)
    (hfind : findEvent s e.id = some e) (hcap : 0 < e.capacity)
    (hle : (registeredCount s e.id : Int) ≤ e.capacity) :
    (registeredCount (runRegisters cfg s (calls.take k)) e.id : Int) ≤ e.capacity :=
  runRegisters_keeps_capacity cfg (calls.take k) s e.id e hfind hcap hle

/-- Witness of C1: the sample event has one seat and two students ask for it. -/
theorem capacity_never_exceeded_witness :
    findEvent sampleStore sampleEvent.id = some sampleEvent ∧ 0 < sampleEvent.capacity ∧
    (registeredCount sampleStore sampleEvent.id : Int) ≤ sampleEvent.capacity ∧
    (registeredCount (runRegisters ⟨true⟩ sampleStore (sampleCalls.take 2)) sampleEvent.id : Int)
      ≤ sampleEvent.capacity :=
  ⟨by decide, by decide, by decide,
    capacity_never_exceeded ⟨true⟩ sampleStore sampleEvent sampleCalls 2
      (by decide) (by decide) (by decide)⟩

/-! ## C2: one registration per event and student -/

theorem insertCollege_ok {s s1 : Store} {c : College} (h : insertCollege s c = .ok s1) :
    s1 = { s with colleges := s.colleges ++ [c] } := by
  unfold insertCollege at h
  split at h
  · cases h
  · cases h; rfl

theorem insertEvent_ok {cfg : DbConfig} {s s1 : Store} {e : Event}
    (h : insertEvent cfg s e = .ok s1) :
    s1 = { s with events := s.events ++ [e] } := by
  unfold insertEvent at h
  split at h
  · cases h
  · split at h
    · cases h
    · cases h; rfl

theorem insertAttendance_ok {cfg : DbConfig} {s s1 : Store} {a : Attendance}
    (h : insertAttendance cfg s a = .ok s1) :
    s1 = { s with attendance := s.attendance ++ [a] } := by
  unfold insertAttendance at h
  split at h
  · cases h
  · split at h
    · cases h
    · cases h; rfl

theorem insertFeedback_ok {cfg : DbConfig} {s s1 : Store} {f : Feedback}
    (h : insertFeedback cfg s f = .ok s1) :
    s1 = { s with feedback := s.feedback ++ [f] } := by
  unfold insertFeedback at h
  split at h
  · cases h
  · split at h
    · cases h
    · split at h
      · cases h
      · cases h; rfl

theorem createEventInsert_registrations (cfg : DbConfig) (s : Store) (now : Nat)
    (eu : String) (college : College) (body : EventBody) :
    (createEventInsert cfg s now eu college body).1.registrations = s.registrations := by
  unfold createEventInsert
  dsimp only
  split
  · rfl
  · rename_i s1 h
    rw [insertEvent_ok h]

theorem createEvent_registrations (cfg : DbConfig) (s : Store) (now : Nat)
    (cu eu : String) (body : EventBody) :
    (createEvent cfg s now cu eu body).1.registrations = s.registrations := by
  unfold createEvent
  split
  · exact createEventInsert_registrations cfg s now eu _ body
  · dsimp only
    split
    · rfl
    · rename_i s1 h
      rw [createEventInsert_registrations, insertCollege_ok h]

theorem updateEvent_registrations (s : Store) (id : String) (body : EventBody) :
    (updateEvent s id body).1.registrations = s.registrations := by
  unfold updateEvent
  split <;> rfl

theorem cancelEvent_registrations (s : Store) (id : String) :
    (cancelEvent s id).1.registrations = s.registrations := by
  unfold cancelEvent
  split <;> rfl

theorem checkIn_registrations (cfg : DbConfig) (s : Store) (now : Nat) (au rid : String) :
    (checkIn cfg s now au rid).1.registrations = s.registrations := by
  unfold checkIn
  split
  · rfl
  · split
    · rfl
    · dsimp only
      split
      · rfl
      · rename_i s1 h
        rw [insertAttendance_ok h]

theorem markAttendance_registrations (cfg : DbConfig) (s : Store) (now : Nat)
    (au rid : String) (present : Option Bool) :
    (markAttendance cfg s now au rid present).1.registrations = s.registrations := by
  unfold markAttendance
  split
  · rfl
  · split
    · rfl
    · dsimp only
      split
      · rfl
      · split
        · rfl
        · rename_i s1 h
          rw [insertAttendance_ok h]

theorem submitFeedback_registrations (cfg : DbConfig) (s : Store) (now : Nat)
    (fu rid : String) (rating : Int) (comment : Option String) :
    (submitFeedback cfg s now fu rid rating comment).1.registrations = s.registrations := by
  unfold submitFeedback
  split
  · rfl
  · split
    · rfl
    · dsimp only
      split
      · rfl
      · rename_i s1 h
        rw [insertFeedback_ok h]

theorem register_keeps_pairsUnique (cfg : DbConfig) (s : Store) (now : Nat)
    (su ru eventId : String) (body : RegistrationBody) (h : RegistrationPairsUnique s) :
    RegistrationPairsUnique (register cfg s now su ru eventId body).1 := by
  obtain ⟨studs, regs, hst, hregs⟩ := register_effect cfg s now su ru eventId body
  rw [hst]
  unfold RegistrationPairsUnique at *
  rcases hregs with rfl | ⟨ev, sid, _, hnone, rfl⟩
  · simpa using h
  · rw [List.pairwise_append]
    refine ⟨h, List.pairwise_singleton _ _, ?_⟩
    intro a ha b hb
    rw [List.mem_singleton] at hb
    subst hb
    unfold findRegistrationFor at hnone
    rw [List.find?_eq_none] at hnone
    have := hnone a ha
    simpa [newRegistration] using this

theorem apply_keeps_pairsUnique (cfg : DbConfig) (s : Store) (c : Call)
    (h : RegistrationPairsUnique s) : RegistrationPairsUnique (c.apply cfg s) := by
  cases c with
  | register now su ru eventId body =>
    exact register_keeps_pairsUnique cfg s now su ru eventId body h
  | createEvent now cu eu body =>
    unfold RegistrationPairsUnique at *
    simpa [Call.apply, createEvent_registrations] using h
  | updateEvent id body =>
    unfold RegistrationPairsUnique at *
    simpa [Call.apply, updateEvent_registrations] using h
  | cancelEvent id =>
    unfold RegistrationPairsUnique at *
    simpa [Call.apply, cancelEvent_registrations] using h
  | checkIn now au rid =>
    unfold RegistrationPairsUnique at *
    simpa [Call.apply, checkIn_registrations] using h
  | markAttendance now au rid present =>
    unfold RegistrationPairsUnique at *
    simpa [Call.apply, markAttendance_registrations] using h
  | submitFeedback now fu rid rating comment =>
    unfold RegistrationPairsUnique at *
    simpa [Call.apply, submitFeedback_registrations] using h

theorem runCalls_keeps_pairsUnique (cfg : DbConfig) (calls : List Call) :
    ∀ s : Store, RegistrationPairsUnique s → RegistrationPairsUnique (runCalls cfg s calls) := by
  induction calls with
  | nil => intro s h; simpa [runCalls] using h
  | cons c cs ih =>
    intro s h
    have := ih _ (apply_keeps_pairsUnique cfg s c h)
    simpa [runCalls] using this

/-- C2: in every store reached from the empty store by a sequence of API calls
(createEvent, updateEvent, cancelEvent, register, checkIn, markAttendance,
submitFeedback, with any arguments), no two registration rows have the same
(event_id, student_id) pair. -/
theorem registration_pairs_unique (cfg : DbConfig) (calls : List Call) :
    RegistrationPairsUnique (runCalls cfg Store.empty calls) :=
  runCalls_keeps_pairsUnique cfg calls Store.empty
    (by unfold RegistrationPairsUnique; exact List.Pairwise.nil)

/-! ## C3: registering twice -/

theorem wantsNewStudent_named (body : RegistrationBody) (sid : String)
    (hb : body.student_id = some sid) (hne : sid ≠ "") (hnew : sid ≠ "new") :
    wantsNewStudent body = false := by
  simp [wantsNewStudent, falsy, hb, hne, hnew]

theorem registerInsert_existing (cfg : DbConfig) (s : Store) (now : Nat) (rid : String)
    (event : Event) (eventId studentId : String) (existing : Registration)
    (h : findRegistrationFor s eventId studentId = some existing) :
    registerInsert cfg s now rid event eventId studentId =
      (s, { status := 409, success := false, text := "Already registered for this event",
            registration := some existing, event_title := none }) := by
  simp [registerInsert, h]

/-- A successful call that names a student id appends exactly the new row. -/
theorem register_named_success (cfg : DbConfig) (s : Store) (now : Nat)
    (su ru eventId sid : String) (body : RegistrationBody)
    (hb : body.student_id = some sid) (hne : sid ≠ "") (hnew : sid ≠ "new")
    (h201 : (register cfg s now su ru eventId body).2.status = 201) :
    findRegistrationFor s eventId sid = none ∧
    (register cfg s now su ru eventId body).1 =
      { s with registrations := s.registrations ++ [newRegistration now ru eventId sid] } ∧
    (register cfg s now su ru eventId body).2.registration =
      some (newRegistration now ru eventId sid) := by
  have hw := wantsNewStudent_named body sid hb hne hnew
  rcases register_cases cfg s now su ru eventId body with h | ⟨ev, _, _, heq⟩ |
    ⟨ev, s1, _, hw', _⟩
  · exact absurd h201 h.2.2.2
  · have hget : body.student_id.getD "" = sid := by simp [hb]
    rw [hget] at heq
    rw [heq] at h201 ⊢
    rcases registerInsert_spec cfg s now ru ev eventId sid with h' | ⟨hnone, _, hst, hresp⟩
    · exact absurd h201 h'.2
    · exact ⟨hnone, hst, by rw [hresp]; rfl⟩
  · rw [hw] at hw'; cases hw'

/-- C3 as amended: when the first call for an existing student succeeded with
registration r (whose id is the one handed out for it), a second call with the same
event id and student id leaves the store as it is, so it adds no row; and when the
event is still open at the second call (not cancelled, not started, not full) it
answers 409 with the existing registration r. -/
theorem second_register_returns_existing (cfg : DbConfig) (s : Store)
    (now1 now2 : Nat) (su1 ru1 su2 ru2 eventId sid : String)
    (body1 body2 : RegistrationBody) (ev : Event) (r : Registration)
    (hb1 : body1.student_id = some sid) (hb2 : body2.student_id = some sid)
    (hne : sid ≠ "") (hnew : sid ≠ "new")
    (h201 : (register cfg s now1 su1 ru1 eventId body1).2.status = 201)
    (hr : (register cfg s now1 su1 ru1 eventId body1).2.registration = some r) :
    r.id = ru1 ∧
    (register cfg (register cfg s now1 su1 ru1 eventId body1).1 now2 su2 ru2 eventId body2).1 =
      (register cfg s now1 su1 ru1 eventId body1).1 ∧
    (OpenFor (register cfg s now1 su1 ru1 eventId body1).1 now2 eventId ev →
      (register cfg (register cfg s now1 su1 ru1 eventId body1).1 now2 su2 ru2 eventId
          body2).2.status = 409 ∧
      (register cfg (register cfg s now1 su1 ru1 eventId body1).1 now2 su2 ru2 eventId
          body2).2.registration = some r) := by
  obtain ⟨hnone, hst, hreg⟩ := register_named_success cfg s now1 su1 ru1 eventId sid body1
    hb1 hne hnew h201
  rw [hreg] at hr
  cases hr
  have hw2 := wantsNewStudent_named body2 sid hb2 hne hnew
  have hget : body2.student_id.getD "" = sid := by simp [hb2]
  have hfound : findRegistrationFor (register cfg s now1 su1 ru1 eventId body1).1 eventId sid =
      some (newRegistration now1 ru1 eventId sid) := by
    rw [hst]
    unfold findRegistrationFor at hnone ⊢
    simp only [List.find?_append, hnone]
    simp [newRegistration]
  refine ⟨rfl, ?_, ?_⟩
  · rcases register_cases cfg (register cfg s now1 su1 ru1 eventId body1).1 now2 su2 ru2
      eventId body2 with h | ⟨ev2, _, _, heq⟩ | ⟨ev2, s1, _, hw', _⟩
    · exact h.1
    · rw [heq, hget, registerInsert_existing cfg _ now2 ru2 ev2 eventId sid _ hfound]
    · rw [hw2] at hw'; cases hw'
  · intro hop
    obtain ⟨hf, hc, ht, hfull⟩ := hop
    rw [register_named cfg _ now2 su2 ru2 eventId body2 ev hf hc ht hfull hw2, hget,
      registerInsert_existing cfg _ now2 ru2 ev eventId sid _ hfound]
    exact ⟨rfl, rfl⟩

/-- Witness of C3 as amended: the first student registers twice for the event of
unlimited capacity. -/
theorem second_register_returns_existing_witness :
    (bodyFor "S1").student_id = some "S1" ∧ "S1" ≠ "" ∧ "S1" ≠ "new" ∧
    (register ⟨true⟩ sampleStore 1000 "u1" "R1" "E2" (bodyFor "S1")).2.status = 201 ∧
    (register ⟨true⟩ sampleStore 1000 "u1" "R1" "E2" (bodyFor "S1")).2.registration =
      some (newRegistration 1000 "R1" "E2" "S1") ∧
    OpenFor (register ⟨true⟩ sampleStore 1000 "u1" "R1" "E2" (bodyFor "S1")).1 2000 "E2"
      openEvent ∧
    (newRegistration 1000 "R1" "E2" "S1").id = "R1" ∧
    (register ⟨true⟩ (register ⟨true⟩ sampleStore 1000 "u1" "R1" "E2" (bodyFor "S1")).1
        2000 "u2" "R2" "E2" (bodyFor "S1")).1 =
      (register ⟨true⟩ sampleStore 1000 "u1" "R1" "E2" (bodyFor "S1")).1 ∧
    (register ⟨true⟩ (register ⟨true⟩ sampleStore 1000 "u1" "R1" "E2" (bodyFor "S1")).1
        2000 "u2" "R2" "E2" (bodyFor "S1")).2.status = 409 ∧
    (register ⟨true⟩ (register ⟨true⟩ sampleStore 1000 "u1" "R1" "E2" (bodyFor "S1")).1
        2000 "u2" "R2" "E2" (bodyFor "S1")).2.registration =
      some (newRegistration 1000 "R1" "E2" "S1") :=
  have hopen : OpenFor (register ⟨true⟩ sampleStore 1000 "u1" "R1" "E2" (bodyFor "S1")).1
      2000 "E2" openEvent := ⟨by decide, by decide, by decide, by decide⟩
  have h := second_register_returns_existing ⟨true⟩ sampleStore 1000 2000 "u1" "R1" "u2" "R2"
    "E2" "S1" (bodyFor "S1") (bodyFor "S1") openEvent (newRegistration 1000 "R1" "E2" "S1")
    rfl rfl (by decide) (by decide) (by decide) (by decide)
  ⟨rfl, by decide, by decide, by decide, by decide, hopen, h.1, h.2.1, (h.2.2 hopen).1,
    (h.2.2 hopen).2⟩

/-- Counterexample to C3 as stated: on the event with a single seat the first call of
student S1 succeeds with registration R1, and the second call of the same student
answers that the event is full and returns no registration. -/
theorem second_register_event_full_counterexample :
    (register ⟨true⟩ sampleStore 1000 "u1" "R1" "E1" (bodyFor "S1")).2.status = 201 ∧
    (register ⟨true⟩ sampleStore 1000 "u1" "R1" "E1" (bodyFor "S1")).2.registration =
      some (newRegistration 1000 "R1" "E1" "S1") ∧
    (register ⟨true⟩ (register ⟨true⟩ sampleStore 1000 "u1" "R1" "E1" (bodyFor "S1")).1
        1000 "u2" "R2" "E1" (bodyFor "S1")).2 =
      RegisterResponse.failure 409 "Event is full" ∧
    (register ⟨true⟩ (register ⟨true⟩ sampleStore 1000 "u1" "R1" "E1" (bodyFor "S1")).1
        1000 "u2" "R2" "E1" (bodyFor "S1")).2.registration = none := by
  decide

/-! ## C4: cancelled and started events take no registration -/

/-- C4: for an existing event that is cancelled or whose start time is at or before the
instant of the request, every register request is answered 400 and the store is left
as it was, whatever the capacity and the number of registrations; a cancelled event
answers that it has been cancelled (also when it is full), a started one that
registration is closed. -/
theorem register_closed_rejected (cfg : DbConfig) (s : Store) (now : Nat)
    (su ru eventId : String) (body : RegistrationBody) (ev : Event)
    (hfind : findEvent s eventId = some ev)
    (hclosed : ev.status = "cancelled" ∨ ev.start_time ≤ now) :
    (register cfg s now su ru eventId body).1 = s ∧
    (register cfg s now su ru eventId body).2.status = 400 ∧
    (register cfg s now su ru eventId body).2.success = false ∧
    (ev.status = "cancelled" →
      (register cfg s now su ru eventId body).2.text = "Event has been cancelled") ∧
    (ev.status ≠ "cancelled" →
      (register cfg s now su ru eventId body).2.text =
        "Registration closed - event has started") := by
  by_cases hc : ev.status = "cancelled"
  · rw [register_cancelled cfg s now su ru eventId body ev hfind hc]
    exact ⟨rfl, rfl, rfl, fun _ => rfl, fun h => absurd hc h⟩
  · have ht : ev.start_time ≤ now := hclosed.resolve_left hc
    rw [register_started cfg s now su ru eventId body ev hfind hc ht]
    exact ⟨rfl, rfl, rfl, fun h => absurd h hc, fun _ => rfl⟩

/-- Witness of C4: the sample event is filled by one registration and then cancelled;
a further request is answered 400 with the cancellation message. -/
theorem register_closed_rejected_witness :
    findEvent
        (cancelEvent (register ⟨true⟩ sampleStore 1000 "u1" "R1" "E1" (bodyFor "S1")).1 "E1").1
        "E1" = some { sampleEvent with status := "cancelled" } ∧
    (({ sampleEvent with status := "cancelled" } : Event).status = "cancelled" ∨
      ({ sampleEvent with status := "cancelled" } : Event).start_time ≤ 2000) ∧
    (register ⟨true⟩
        (cancelEvent (register ⟨true⟩ sampleStore 1000 "u1" "R1" "E1" (bodyFor "S1")).1 "E1").1
        2000 "u2" "R2" "E1" (bodyFor "S2")).1 =
      (cancelEvent (register ⟨true⟩ sampleStore 1000 "u1" "R1" "E1" (bodyFor "S1")).1 "E1").1 ∧
    (register ⟨true⟩
        (cancelEvent (register ⟨true⟩ sampleStore 1000 "u1" "R1" "E1" (bodyFor "S1")).1 "E1").1
        2000 "u2" "R2" "E1" (bodyFor "S2")).2.status = 400 ∧
    (register ⟨true⟩
        (cancelEvent (register ⟨true⟩ sampleStore 1000 "u1" "R1" "E1" (bodyFor "S1")).1 "E1").1
        2000 "u2" "R2" "E1" (bodyFor "S2")).2.text = "Event has been cancelled" :=
  have h := register_closed_rejected ⟨true⟩
    (cancelEvent (register ⟨true⟩ sampleStore 1000 "u1" "R1" "E1" (bodyFor "S1")).1 "E1").1
    2000 "u2" "R2" "E1" (bodyFor "S2") { sampleEvent with status := "cancelled" }
    (by decide) (Or.inl rfl)
  ⟨by decide, Or.inl rfl, h.1, h.2.1, h.2.2.2.1 rfl⟩

/-! ## Successful registrations -/

theorem insertRegistration_ok_foreignKeys {cfg : DbConfig} {s s1 : Store} {r : Registration}
    (h : insertRegistration cfg s r = .ok s1) (hfk : cfg.foreignKeys = true) :
    (∃ e ∈ s.events, e.id = r.event_id) ∧ (∃ st ∈ s.students, st.id = r.student_id) := by
  unfold insertRegistration at h
  split at h
  · cases h
  · split at h
    · cases h
    · split at h
      · cases h
      · rename_i hno
        simpa [hfk] using hno

/-- A 201 answer pins the whole run down: the event was open and either the request
named a student id and only the new registration row was appended, or a new student
row and the registration row for it were appended. -/
theorem register_success (cfg : DbConfig) (s : Store) (now : Nat) (su ru eventId : String)
    (body : RegistrationBody)
    (h201 : (register cfg s now su ru eventId body).2.status = 201) :
    ∃ ev, OpenFor s now eventId ev ∧
      ((wantsNewStudent body = false ∧
        findRegistrationFor s eventId (body.student_id.getD "") = none ∧
        (cfg.foreignKeys = true → ∃ st ∈ s.students, st.id = body.student_id.getD "") ∧
        register cfg s now su ru eventId body =
          ({ s with registrations := s.registrations ++
                [newRegistration now ru eventId (body.student_id.getD "")] },
           { status := 201, success := true, text := "Successfully registered for event",
             registration := some (newRegistration now ru eventId (body.student_id.getD "")),
             event_title := some ev.title })) ∨
       (wantsNewStudent body = true ∧
        insertStudent cfg s (newStudent now su ev body) =
          .ok { s with students := s.students ++ [newStudent now su ev body] } ∧
        register cfg s now su ru eventId body =
          ({ s with students := s.students ++ [newStudent now su ev body],
                    registrations := s.registrations ++ [newRegistration now ru eventId su] },
           { status := 201, success := true, text := "Successfully registered for event",
             registration := some (newRegistration now ru eventId su),
             event_title := some ev.title }))) := by
  rcases register_cases cfg s now su ru eventId body with h | ⟨ev, hop, hw, heq⟩ |
    ⟨ev, s1, hop, hw, _, hi, heq⟩
  · exact absurd h201 h.2.2.2
  · refine ⟨ev, hop, Or.inl ?_⟩
    rw [heq] at h201 ⊢
    rcases registerInsert_spec cfg s now ru ev eventId (body.student_id.getD "") with
      h' | ⟨hnone, hins, hst, hresp⟩
    · exact absurd h201 h'.2
    · refine ⟨hw, hnone, ?_, ?_⟩
      · intro hfk
        exact (insertRegistration_ok_foreignKeys hins hfk).2
      · exact Prod.ext hst hresp
  · refine ⟨ev, hop, Or.inr ?_⟩
    rw [heq] at h201 ⊢
    have hs1 := insertStudent_ok hi
    rcases registerInsert_spec cfg s1 now ru ev eventId su with h' | ⟨_, _, hst, hresp⟩
    · exact absurd h201 h'.2
    · refine ⟨hw, ?_, ?_⟩
      · rw [hi, hs1]
      · refine Prod.ext ?_ hresp
        rw [hst, hs1]
        rfl

/-! ## C5: when an event is full -/

theorem registerInsert_text_ne_full (cfg : DbConfig) (s : Store) (now : Nat) (rid : String)
    (event : Event) (eventId studentId : String) :
    (registerInsert cfg s now rid event eventId studentId).2.text ≠ "Event is full" := by
  unfold registerInsert
  split
  · simp
  · dsimp only
    split
    · simp [RegisterResponse.failure]
    · simp

/-- On an event that is open and not full, no answer says that the event is full. -/
theorem register_open_text_ne_full (cfg : DbConfig) (s : Store) (now : Nat)
    (su ru eventId : String) (body : RegistrationBody) (ev : Event)
    (hop : OpenFor s now eventId ev) :
    (register cfg s now su ru eventId body).2.text ≠ "Event is full" := by
  obtain ⟨h, hc, ht, hf⟩ := hop
  cases hn : wantsNewStudent body with
  | false =>
    rw [register_named cfg s now su ru eventId body ev h hc ht hf hn]
    exact registerInsert_text_ne_full cfg s now ru ev eventId _
  | true =>
    cases hm : (falsy body.name || falsy body.email) with
    | true =>
      rw [register_new_missing cfg s now su ru eventId body ev h hc ht hf hn hm]
      simp [RegisterResponse.failure]
    | false =>
      cases hi : insertStudent cfg s (newStudent now su ev body) with
      | error e =>
        rw [register_new_insertFails cfg s now su ru eventId body ev h hc ht hf hn hm e hi]
        cases e <;> simp [RegisterResponse.failure, DbError.isUniqueConstraintFailed]
      | ok s1 =>
        rw [register_new_inserted cfg s now su ru eventId body ev h hc ht hf hn hm s1 hi]
        exact registerInsert_text_ne_full cfg s1 now ru ev eventId _

/-- C5: on a scheduled event that has not started, a register call is answered
409 "Event is full" exactly when the capacity is positive and the number of registered
registrations has reached it.  So an event of capacity 0 is never reported full, and
on an event of capacity 1 every call that follows an accepted one (before the start)
is rejected as full. -/
theorem event_full_iff (cfg : DbConfig) (s : Store) (now : Nat)
    (su ru eventId : String) (body : RegistrationBody) (ev : Event)
    (hfind : findEvent s eventId = some ev) (hs : ev.status = "scheduled")
    (ht : now < ev.start_time) :
    (((register cfg s now su ru eventId body).2.status = 409 ∧
        (register cfg s now su ru eventId body).2.text = "Event is full") ↔
      (0 < ev.capacity ∧ ev.capacity ≤ (registeredCount s eventId : Int))) ∧
    (ev.capacity = 0 → (register cfg s now su ru eventId body).2.text ≠ "Event is full") ∧
    (ev.capacity = 1 → (register cfg s now su ru eventId body).2.status = 201 →
      ∀ (now2 : Nat) (su2 ru2 : String) (body2 : RegistrationBody), now2 < ev.start_time →
        (register cfg (register cfg s now su ru eventId body).1 now2 su2 ru2 eventId body2).2 =
          RegisterResponse.failure 409 "Event is full") := by
  have hc : ev.status ≠ "cancelled" := by rw [hs]; decide
  have hiff : ((register cfg s now su ru eventId body).2.status = 409 ∧
        (register cfg s now su ru eventId body).2.text = "Event is full") ↔
      (0 < ev.capacity ∧ ev.capacity ≤ (registeredCount s eventId : Int)) := by
    constructor
    · intro hfull
      by_contra hnot
      exact register_open_text_ne_full cfg s now su ru eventId body ev ⟨hfind, hc, ht, hnot⟩
        hfull.2
    · intro hfull
      rw [register_full cfg s now su ru eventId body ev hfind hc ht hfull]
      exact ⟨rfl, rfl⟩
  refine ⟨hiff, ?_, ?_⟩
  · intro h0 htext
    have hnot : ¬ (0 < ev.capacity ∧ ev.capacity ≤ (registeredCount s eventId : Int)) := by
      rw [h0]; simp
    exact register_open_text_ne_full cfg s now su ru eventId body ev ⟨hfind, hc, ht, hnot⟩ htext
  · intro h1 h201 now2 su2 ru2 body2 ht2
    obtain ⟨studs, regs, hst, _⟩ := register_effect cfg s now su ru eventId body
    obtain ⟨ev', hop', hcase⟩ := register_success cfg s now su ru eventId body h201
    have hcount : 1 ≤ registeredCount (register cfg s now su ru eventId body).1 eventId := by
      rcases hcase with ⟨_, _, _, heq⟩ | ⟨_, _, heq⟩
      · rw [heq]; simp [registeredCount, newRegistration, List.filter_append]
      · rw [heq]; simp [registeredCount, newRegistration, List.filter_append]
    have hfind2 : findEvent (register cfg s now su ru eventId body).1 eventId = some ev := by
      rw [hst]; exact hfind
    have hfull : 0 < ev.capacity ∧ ev.capacity ≤
        (registeredCount (register cfg s now su ru eventId body).1 eventId : Int) := by
      rw [h1]
      exact ⟨by decide, by exact_mod_cast hcount⟩
    rw [register_full cfg _ now2 su2 ru2 eventId body2 ev hfind2 hc ht2 hfull]

/-- Witness of C5: on the sample event of capacity 1 the first student is accepted
and the second is rejected because the event is full. -/
theorem event_full_iff_witness :
    findEvent sampleStore "E1" = some sampleEvent ∧ sampleEvent.status = "scheduled" ∧
    1000 < sampleEvent.start_time ∧ sampleEvent.capacity = 1 ∧
    (register ⟨true⟩ sampleStore 1000 "u1" "R1" "E1" (bodyFor "S1")).2.status = 201 ∧
    (register ⟨true⟩ (register ⟨true⟩ sampleStore 1000 "u1" "R1" "E1" (bodyFor "S1")).1
        1001 "u2" "R2" "E1" (bodyFor "S2")).2 =
      RegisterResponse.failure 409 "Event is full" :=
  ⟨by decide, by decide, by decide, by decide, by decide,
    (event_full_iff ⟨true⟩ sampleStore 1000 "u1" "R1" "E1" (bodyFor "S1") sampleEvent
      (by decide) (by decide) (by decide)).2.2 (by decide) (by decide) 1001 "u2" "R2"
      (bodyFor "S2") (by decide)⟩

/-! ## C6: a rejected registration writes nothing -/

theorem insertStudent_ok_newId {cfg : DbConfig} {s s1 : Store} {st : Student}
    (h : insertStudent cfg s st = .ok s1) : ∀ x ∈ s.students, x.id ≠ st.id := by
  unfold insertStudent at h
  split at h
  · cases h
  · rename_i hno
    simpa using hno

/-- After a student row was inserted under an identifier that no dangling registration
refers to, the second half of the handler answers 201 or 500. -/
theorem registerInsert_newStudent_status (cfg : DbConfig) (s : Store) (now : Nat)
    (rid : String) (event : Event) (eventId su : String)
    (hnone : findRegistrationFor s eventId su = none) :
    (registerInsert cfg s now rid event eventId su).2.status = 201 ∨
      (registerInsert cfg s now rid event eventId su).2.status = 500 := by
  unfold registerInsert
  rw [hnone]
  dsimp only
  split
  · right; rfl
  · left; rfl

/-- C6: if register answers 400, 404 or 409 then the store is the one before the call:
no student row and no registration row has been added.  The identifier that `uuidv4()`
hands out for a new student is taken to be one that no registration row refers to,
unless it is the id of a stored student (it is so when the identifier is new, and in
every store where each registration refers to a stored student). -/
theorem register_error_store_unchanged (cfg : DbConfig) (s : Store) (now : Nat)
    (su ru eventId : String) (body : RegistrationBody)
    (huuid : ∀ r ∈ s.registrations, r.student_id = su → ∃ st ∈ s.students, st.id = su)
    (herr : (register cfg s now su ru eventId body).2.status = 400 ∨
      (register cfg s now su ru eventId body).2.status = 404 ∨
      (register cfg s now su ru eventId body).2.status = 409) :
    (register cfg s now su ru eventId body).1 = s := by
  rcases register_cases cfg s now su ru eventId body with h | ⟨ev, _, _, heq⟩ |
    ⟨ev, s1, _, _, _, hi, heq⟩
  · exact h.1
  · rw [heq] at herr ⊢
    rcases registerInsert_spec cfg s now ru ev eventId (body.student_id.getD "") with
      h' | ⟨_, _, _, hresp⟩
    · exact h'.1
    · rw [hresp] at herr
      simp at herr
  · exfalso
    rw [heq] at herr
    have hs1 := insertStudent_ok hi
    have hnew := insertStudent_ok_newId hi
    have hnone : findRegistrationFor s1 eventId su = none := by
      rw [hs1]
      unfold findRegistrationFor
      rw [List.find?_eq_none]
      intro r hr hp
      simp only [Bool.and_eq_true, decide_eq_true_eq] at hp
      obtain ⟨st, hst, hid⟩ := huuid r hr hp.2
      exact hnew st hst hid
    rcases registerInsert_newStudent_status cfg s1 now ru ev eventId su hnone with h' | h' <;>
      rw [h'] at herr <;> simp at herr

/-- Witness of C6: a request for a new student with the e-mail address of a stored
student is answered 409 and the store stays as it was. -/
theorem register_error_store_unchanged_witness :
    (∀ r ∈ sampleStore.registrations, r.student_id = "u1" →
      ∃ st ∈ sampleStore.students, st.id = "u1") ∧
    (register ⟨true⟩ sampleStore 1000 "u1" "R1" "E2" (bodyNew "Ann" "ann@x.com")).2.status =
      409 ∧
    (register ⟨true⟩ sampleStore 1000 "u1" "R1" "E2" (bodyNew "Ann" "ann@x.com")).1 =
      sampleStore :=
  ⟨by simp [sampleStore], by decide,
    register_error_store_unchanged ⟨true⟩ sampleStore 1000 "u1" "R1" "E2"
      (bodyNew "Ann" "ann@x.com") (by simp [sampleStore]) (Or.inr (Or.inr (by decide)))⟩

/-! ## C7: what a successful registration writes -/

/-- C7: when register answers 201, exactly one registration row is appended; it has
status registered, the requested event id and the resolved student id, and it is the
row of the answer.  The colleges, events, attendance and feedback tables are as
before.  When the request names a student id (other than the sentinel) the students
table is as before, whatever name and e-mail the request carries, and the resolved
id is the named one, which is the id of a stored student when foreign keys are
enforced; when the student id is absent or the sentinel, exactly one student row is
appended and the resolved id is the id of that row. -/
theorem register_success_frame (cfg : DbConfig) (s : Store) (now : Nat)
    (su ru eventId : String) (body : RegistrationBody)
    (h201 : (register cfg s now su ru eventId body).2.status = 201) :
    ∃ row : Registration,
      (register cfg s now su ru eventId body).2.registration = some row ∧
      (register cfg s now su ru eventId body).1.registrations = s.registrations ++ [row] ∧
      row.status = "registered" ∧ row.event_id = eventId ∧ row.id = ru ∧
      (register cfg s now su ru eventId body).1.colleges = s.colleges ∧
      (register cfg s now su ru eventId body).1.events = s.events ∧
      (register cfg s now su ru eventId body).1.attendance = s.attendance ∧
      (register cfg s now su ru eventId body).1.feedback = s.feedback ∧
      (wantsNewStudent body = false →
        (register cfg s now su ru eventId body).1.students = s.students ∧
        body.student_id = some row.student_id ∧
        (cfg.foreignKeys = true → ∃ st ∈ s.students, st.id = row.student_id)) ∧
      (wantsNewStudent body = true →
        ∃ st : Student,
          (register cfg s now su ru eventId body).1.students = s.students ++ [st] ∧
          st.id = row.student_id ∧ st.email = body.email ∧ some st.name = body.name ∧
          (∀ x ∈ s.students, x.id ≠ st.id)) := by
  obtain ⟨ev, hop, hcase⟩ := register_success cfg s now su ru eventId body h201
  rcases hcase with ⟨hw, _, hfk, heq⟩ | ⟨hw, hi, heq⟩
  · refine ⟨newRegistration now ru eventId (body.student_id.getD ""), ?_⟩
    rw [heq]
    refine ⟨rfl, rfl, rfl, rfl, rfl, rfl, rfl, rfl, rfl, ?_, ?_⟩
    · intro _
      refine ⟨rfl, ?_, hfk⟩
      cases hsid : body.student_id with
      | none => simp [wantsNewStudent, falsy, hsid] at hw
      | some v => simp [newRegistration]
    · intro hw'; rw [hw] at hw'; cases hw'
  · refine ⟨newRegistration now ru eventId su, ?_⟩
    rw [heq]
    refine ⟨rfl, rfl, rfl, rfl, rfl, rfl, rfl, rfl, rfl, ?_, ?_⟩
    · intro hw'; rw [hw] at hw'; cases hw'
    · intro _
      refine ⟨newStudent now su ev body, rfl, rfl, rfl, ?_, insertStudent_ok_newId hi⟩
      have hname : falsy body.name = false := by
        rcases register_cases cfg s now su ru eventId body with h | ⟨_, _, hw2, _⟩ |
          ⟨_, _, _, _, hm, _, _⟩
        · exact absurd h201 h.2.2.2
        · rw [hw] at hw2; cases hw2
        · simp only [Bool.or_eq_false_iff] at hm
          exact hm.1
      cases hn : body.name with
      | none => simp [falsy, hn] at hname
      | some v => simp [newStudent, hn]

/-- Witness of C7: a new student registers for the event of unlimited capacity. -/
theorem register_success_frame_witness :
    (register ⟨true⟩ sampleStore 1000 "u1" "R1" "E2" (bodyNew "Cy" "cy@x.com")).2.status = 201 ∧
    ∃ row : Registration,
      (register ⟨true⟩ sampleStore 1000 "u1" "R1" "E2"
        (bodyNew "Cy" "cy@x.com")).2.registration = some row ∧
      (register ⟨true⟩ sampleStore 1000 "u1" "R1" "E2" (bodyNew "Cy" "cy@x.com")).1.registrations =
        sampleStore.registrations ++ [row] ∧
      row.status = "registered" ∧ row.event_id = "E2" ∧ row.id = "R1" :=
  have h := register_success_frame ⟨true⟩ sampleStore 1000 "u1" "R1" "E2"
    (bodyNew "Cy" "cy@x.com") (by decide)
  ⟨by decide, h.choose, h.choose_spec.1, h.choose_spec.2.1, h.choose_spec.2.2.1,
    h.choose_spec.2.2.2.1, h.choose_spec.2.2.2.2.1⟩

/-! ## C8: a second new student with a known e-mail address -/

theorem insertStudent_ok_email {cfg : DbConfig} {s s1 : Store} {st : Student} {e : String}
    (h : insertStudent cfg s st = .ok s1) (he : st.email = some e) :
    ∀ x ∈ s.students, x.email ≠ some e := by
  unfold insertStudent at h
  split at h
  · cases h
  · split at h
    · cases h
    · rename_i hno
      simpa [he] using hno

theorem insertStudent_email_held (cfg : DbConfig) (s : Store) (st : Student) (e : String)
    (he : st.email = some e) (hheld : ∃ x ∈ s.students, x.email = some e) :
    insertStudent cfg s st = .error .uniqueConstraint := by
  obtain ⟨x, hx, hxe⟩ := hheld
  unfold insertStudent
  split
  · rfl
  · have : (st.email.isSome && s.students.any (fun x => decide (x.email = st.email))) = true := by
      simp only [he, Option.isSome_some, Bool.true_and, List.any_eq_true, decide_eq_true_eq]
      exact ⟨x, hx, hxe⟩
    rw [if_pos this]

/-- A request for a new student whose e-mail address a stored student holds changes
nothing; on an open event, with a name given, it is answered 409 for the address. -/
theorem register_duplicate_email (cfg : DbConfig) (s : Store) (now : Nat)
    (su ru eventId : String) (body : RegistrationBody) (e : String)
    (hw : wantsNewStudent body = true) (hemail : body.email = some e)
    (hheld : ∃ st ∈ s.students, st.email = some e) :
    (register cfg s now su ru eventId body).1 = s ∧
    (∀ ev, OpenFor s now eventId ev → falsy body.name = false → e ≠ "" →
      (register cfg s now su ru eventId body).2 =
        RegisterResponse.failure 409 "Email already exists") := by
  constructor
  · rcases register_cases cfg s now su ru eventId body with h | ⟨ev, _, hw', _⟩ |
      ⟨ev, s1, _, _, _, hi, _⟩
    · exact h.1
    · rw [hw] at hw'; cases hw'
    · rw [insertStudent_email_held cfg s (newStudent now su ev body) e
        (by simp [newStudent, hemail]) hheld] at hi
      cases hi
  · intro ev hop hname he
    obtain ⟨h, hc, ht, hf⟩ := hop
    have hm : (falsy body.name || falsy body.email) = false := by
      rw [hname, hemail]
      simp [falsy, he]
    rw [register_new_insertFails cfg s now su ru eventId body ev h hc ht hf hw hm
      .uniqueConstraint (insertStudent_email_held cfg s (newStudent now su ev body) e
        (by simp [newStudent, hemail]) hheld)]
    rfl

/-- C8 as amended: on an open event, a register call for a new student (student id
absent or the sentinel) that carries a name and an e-mail address held by a stored
student is answered 409 "Email already exists"; with or without a name, on any event,
such a call leaves the store as it was, so it creates neither a student row nor a
registration row.  Hence after a successful registration of a new student with an
address, a second request for a new student with the same address leaves exactly one
student row with that address. -/
theorem duplicate_email_rejected (cfg : DbConfig) (s : Store) (now : Nat)
    (su ru eventId : String) (body : RegistrationBody) (e : String) (ev : Event)
    (hopen : OpenFor s now eventId ev)
    (hw : wantsNewStudent body = true) (hname : falsy body.name = false)
    (hemail : body.email = some e) (he : e ≠ "")
    (hheld : ∃ st ∈ s.students, st.email = some e) :
    register cfg s now su ru eventId body =
      (s, RegisterResponse.failure 409 "Email already exists") ∧
    (∀ (now2 : Nat) (su2 ru2 eventId2 : String) (body2 : RegistrationBody),
      wantsNewStudent body2 = true → body2.email = some e →
      (register cfg s now2 su2 ru2 eventId2 body2).1 = s) ∧
    (∀ (s0 : Store) (now1 now2 : Nat) (su1 ru1 su2 ru2 eventId1 eventId2 : String)
      (body1 body2 : RegistrationBody),
      wantsNewStudent body1 = true → body1.email = some e →
      (register cfg s0 now1 su1 ru1 eventId1 body1).2.status = 201 →
      wantsNewStudent body2 = true → body2.email = some e →
      studentsWithEmail
        (register cfg (register cfg s0 now1 su1 ru1 eventId1 body1).1 now2 su2 ru2 eventId2
          body2).1 e = 1) := by
  have hdup := register_duplicate_email cfg s now su ru eventId body e hw hemail hheld
  refine ⟨Prod.ext hdup.1 (hdup.2 ev hopen hname he), ?_, ?_⟩
  · intro now2 su2 ru2 eventId2 body2 hw2 he2
    exact (register_duplicate_email cfg s now2 su2 ru2 eventId2 body2 e hw2 he2 hheld).1
  · intro s0 now1 now2 su1 ru1 su2 ru2 eventId1 eventId2 body1 body2 hw1 he1 h201 hw2 he2
    obtain ⟨ev1, _, hcase⟩ := register_success cfg s0 now1 su1 ru1 eventId1 body1 h201
    rcases hcase with ⟨hw1', _⟩ | ⟨_, hi, heq⟩
    · rw [hw1] at hw1'; cases hw1'
    · have hnone := insertStudent_ok_email hi (show (newStudent now1 su1 ev1 body1).email = some e
        by simp [newStudent, he1])
      have hheld1 : ∃ st ∈ (register cfg s0 now1 su1 ru1 eventId1 body1).1.students,
          st.email = some e := by
        rw [heq]
        exact ⟨newStudent now1 su1 ev1 body1, by simp, by simp [newStudent, he1]⟩
      rw [(register_duplicate_email cfg _ now2 su2 ru2 eventId2 body2 e hw2 he2 hheld1).1, heq]
      have hzero : s0.students.filter (fun st => decide (st.email = some e)) = [] := by
        rw [List.filter_eq_nil_iff]
        intro x hx
        simpa using hnone x hx
      simp [studentsWithEmail, List.filter_append, hzero, newStudent, he1]

/-- Witness of C8 as amended: a request for a new student named Ann with the address of
the stored student Ann, on the event of unlimited capacity. -/
theorem duplicate_email_rejected_witness :
    OpenFor sampleStore 1000 "E2" openEvent ∧
    wantsNewStudent (bodyNew "Ann" "ann@x.com") = true ∧
    falsy (bodyNew "Ann" "ann@x.com").name = false ∧
    (bodyNew "Ann" "ann@x.com").email = some "ann@x.com" ∧ "ann@x.com" ≠ "" ∧
    (∃ st ∈ sampleStore.students, st.email = some "ann@x.com") ∧
    register ⟨true⟩ sampleStore 1000 "u1" "R1" "E2" (bodyNew "Ann" "ann@x.com") =
      (sampleStore, RegisterResponse.failure 409 "Email already exists") :=
  have hopen : OpenFor sampleStore 1000 "E2" openEvent :=
    ⟨by decide, by decide, by decide, by decide⟩
  have hheld : ∃ st ∈ sampleStore.students, st.email = some "ann@x.com" := by
    simp [sampleStore]
  ⟨hopen, by decide, by decide, rfl, by decide, hheld,
    (duplicate_email_rejected ⟨true⟩ sampleStore 1000 "u1" "R1" "E2"
      (bodyNew "Ann" "ann@x.com") "ann@x.com" openEvent hopen (by decide) (by decide) rfl
      (by decide) hheld).1⟩

/-- Counterexample to C8 as stated: on an open event, a request without student id and
without name that carries the address of a stored student is answered 400, not 409. -/
theorem duplicate_email_without_name_counterexample :
    OpenFor sampleStore 1000 "E2" openEvent ∧
    (∃ st ∈ sampleStore.students, st.email = some "ann@x.com") ∧
    (bodyEmailOnly "ann@x.com").student_id = none ∧
    (bodyEmailOnly "ann@x.com").email = some "ann@x.com" ∧
    register ⟨true⟩ sampleStore 1000 "u1" "R1" "E2" (bodyEmailOnly "ann@x.com") =
      (sampleStore,
        RegisterResponse.failure 400 "Name and email are required for new students") :=
  ⟨⟨by decide, by decide, by decide, by decide⟩, by simp [sampleStore], rfl, rfl, by decide⟩

/-! ## C9: a student id that no student has -/

/-- C9, the handler at the failing input: student id "ghost" names no student of the
sample store.  With foreign keys enforced the insert of the registration fails and the
answer is 500; without enforcement the answer is 201 and a registration row for the
unknown student is stored.  In neither case is the answer 404. -/
theorem register_unknown_student_evaluation :
    (∀ st ∈ sampleStore.students, st.id ≠ "ghost") ∧
    register ⟨true⟩ sampleStore 1000 "u1" "R1" "E2" (bodyFor "ghost") =
      (sampleStore, RegisterResponse.failure 500 "Failed to register for event") ∧
    (register ⟨false⟩ sampleStore 1000 "u1" "R1" "E2" (bodyFor "ghost")).2.status = 201 ∧
    (register ⟨false⟩ sampleStore 1000 "u1" "R1" "E2" (bodyFor "ghost")).1.registrations =
      [newRegistration 1000 "R1" "E2" "ghost"] ∧
    (register ⟨false⟩ sampleStore 1000 "u1" "R1" "E2" (bodyFor "ghost")).1.students =
      sampleStore.students := by
  refine ⟨by decide, by decide, by decide, by decide, by decide⟩

/-! ## C10: check-in is idempotent -/

theorem insertAttendance_fresh (cfg : DbConfig) (s : Store) (a : Attendance)
    (hreg : ∃ r ∈ s.registrations, r.id = a.registration_id)
    (hnew : ∀ x ∈ s.attendance, x.id ≠ a.id) :
    insertAttendance cfg s a = .ok { s with attendance := s.attendance ++ [a] } := by
  unfold insertAttendance
  have h1 : s.attendance.any (fun x => decide (x.id = a.id)) = false := by
    rw [List.any_eq_false]
    intro x hx
    simpa using hnew x hx
  have h2 : s.registrations.any (fun r => decide (r.id = a.registration_id)) = true := by
    rw [List.any_eq_true]
    obtain ⟨r, hr, hid⟩ := hreg
    exact ⟨r, hr, by simpa using hid⟩
  simp [h1, h2]

theorem findRegistration_some_mem {s : Store} {rid : String} {reg : Registration}
    (h : findRegistration s rid = some reg) : ∃ r ∈ s.registrations, r.id = rid := by
  unfold findRegistration at h
  exact ⟨reg, List.mem_of_find?_eq_some h, by simpa using List.find?_some h⟩

/-- C10: for an existing registration, check-in returns the stored attendance row
(present or absent alike) with status 200 and leaves the store as it is when there is
one; when there is none it appends exactly one attendance row with present = 1 and
returns it with status 201 (the identifier handed out for the row being new).  A
second check-in after a check-in that returned a row returns the same row, so the
same attendance id. -/
theorem checkIn_idempotent (cfg : DbConfig) (s : Store) (now : Nat) (au rid : String)
    (reg : Registration) (hreg : findRegistration s rid = some reg) :
    (∀ a, findAttendance s rid = some a →
      checkIn cfg s now au rid =
        (s, { status := 200, success := true, text := "Already checked in",
              attendance := some a })) ∧
    (findAttendance s rid = none → (∀ x ∈ s.attendance, x.id ≠ au) →
      checkIn cfg s now au rid =
        ({ s with attendance := s.attendance ++ [newAttendance now au rid] },
         { status := 201, success := true, text := "Checked in successfully",
           attendance := some (newAttendance now au rid) })) ∧
    (∀ a, (checkIn cfg s now au rid).2.attendance = some a →
      ∀ (now2 : Nat) (au2 : String),
        checkIn cfg (checkIn cfg s now au rid).1 now2 au2 rid =
          ((checkIn cfg s now au rid).1,
           { status := 200, success := true, text := "Already checked in",
             attendance := some a })) := by
  have hfirst : ∀ a, findAttendance s rid = some a →
      checkIn cfg s now au rid =
        (s, { status := 200, success := true, text := "Already checked in",
              attendance := some a }) := by
    intro a ha
    simp [checkIn, hreg, ha]
  refine ⟨hfirst, ?_, ?_⟩
  · intro hnone hnew
    have hins := insertAttendance_fresh cfg s (newAttendance now au rid)
      (findRegistration_some_mem hreg) hnew
    unfold newAttendance at hins
    simp [checkIn, hreg, hnone, hins, newAttendance]
  · intro a ha now2 au2
    cases hatt : findAttendance s rid with
    | some a0 =>
      rw [hfirst a0 hatt] at ha ⊢
      simp only [Option.some.injEq] at ha
      subst ha
      simp [checkIn, hreg, hatt]
    | none =>
      cases hins : insertAttendance cfg s (newAttendance now au rid) with
      | error err =>
        unfold newAttendance at hins
        simp [checkIn, hreg, hatt, hins] at ha
      | ok s1 =>
        have hs1 := insertAttendance_ok hins
        unfold newAttendance at hins
        have hck : checkIn cfg s now au rid =
            (s1, { status := 201, success := true, text := "Checked in successfully",
                   attendance := some (newAttendance now au rid) }) := by
          simp [checkIn, hreg, hatt, hins, newAttendance]
        rw [hck] at ha ⊢
        simp only [Option.some.injEq] at ha
        subst ha
        have hreg1 : findRegistration s1 rid = some reg := by rw [hs1]; exact hreg
        have hatt1 : findAttendance s1 rid = some (newAttendance now au rid) := by
          rw [hs1]
          unfold findAttendance at hatt ⊢
          simp only [List.find?_append, hatt]
          simp [newAttendance]
        simp [checkIn, hreg1, hatt1]

/-- Witness of C10: student S1 checks in twice for the registration R1. -/
theorem checkIn_idempotent_witness :
    findRegistration registeredStore "R1" = some (newRegistration 1000 "R1" "E2" "S1") ∧
    findAttendance registeredStore "R1" = none ∧
    (∀ x ∈ registeredStore.attendance, x.id ≠ "A1") ∧
    (checkIn ⟨true⟩ registeredStore 2000 "A1" "R1").2 =
      { status := 201, success := true, text := "Checked in successfully",
        attendance := some (newAttendance 2000 "A1" "R1") } ∧
    (checkIn ⟨true⟩ (checkIn ⟨true⟩ registeredStore 2000 "A1" "R1").1 3000 "A2" "R1").2 =
      { status := 200, success := true, text := "Already checked in",
        attendance := some (newAttendance 2000 "A1" "R1") } :=
  have h := checkIn_idempotent ⟨true⟩ registeredStore 2000 "A1" "R1"
    (newRegistration 1000 "R1" "E2" "S1") (by decide)
  have h1 := h.2.1 (by decide) (by decide)
  ⟨by decide, by decide, by decide, by rw [h1],
    by rw [h.2.2 (newAttendance 2000 "A1" "R1") (by rw [h1]) 3000 "A2"]⟩

/-! ## C11: at most one attendance row per registration -/

theorem attendanceRows_of_find_none {s : Store} {rid : String}
    (h : findAttendance s rid = none) : attendanceRows s rid = [] := by
  unfold findAttendance at h
  unfold attendanceRows
  rw [List.find?_eq_none] at h
  rw [List.filter_eq_nil_iff]
  exact h

theorem attendanceRows_append (s : Store) (a : Attendance) (x : String) :
    attendanceRows { s with attendance := s.attendance ++ [a] } x =
      attendanceRows s x ++ (if a.registration_id = x then [a] else []) := by
  unfold attendanceRows
  by_cases h : a.registration_id = x <;> simp [List.filter_append, h]

theorem attendanceRows_update (s : Store) (rid x : String) (p t : Nat) :
    attendanceRows (updateAttendance s rid p t) x =
      (attendanceRows s x).map (fun a => if a.registration_id = rid then
        { a with present := p, checked_in_at := t } else a) := by
  unfold attendanceRows updateAttendance
  rw [List.filter_map]
  congr 1
  apply List.filter_congr
  intro a _
  by_cases h : a.registration_id = rid <;> simp [h]

theorem attendanceRows_update_length (s : Store) (rid x : String) (p t : Nat) :
    (attendanceRows (updateAttendance s rid p t) x).length = (attendanceRows s x).length := by
  rw [attendanceRows_update, List.length_map]

/-- What check-in does to the store: nothing, or it appends the new row for a
registration that had none. -/
theorem checkIn_effect (cfg : DbConfig) (s : Store) (now : Nat) (au rid : String) :
    (checkIn cfg s now au rid).1 = s ∨
    (findAttendance s rid = none ∧
      (checkIn cfg s now au rid).1 =
        { s with attendance := s.attendance ++ [newAttendance now au rid] }) := by
  unfold checkIn
  split
  · left; rfl
  · split
    · left; rfl
    · rename_i hnone
      dsimp only
      split
      · left; rfl
      · rename_i s1 h
        right
        exact ⟨hnone, insertAttendance_ok h⟩

/-- What marking does to the store: nothing, an update in place of the rows of the
registration, or a new row for a registration that had none. -/
theorem markAttendance_effect (cfg : DbConfig) (s : Store) (now : Nat) (au rid : String)
    (present : Option Bool) :
    (markAttendance cfg s now au rid present).1 = s ∨
    (∃ p, present = some p ∧ (findAttendance s rid).isSome = true ∧
      (markAttendance cfg s now au rid present).1 =
        updateAttendance s rid (presentValue p) (sqlDateTime now)) ∨
    (∃ p, present = some p ∧ findAttendance s rid = none ∧
      (markAttendance cfg s now au rid present).1 =
        { s with attendance := s.attendance ++
            [{ id := au, registration_id := rid, checked_in_at := sqlDateTime now,
               present := presentValue p }] }) := by
  unfold markAttendance
  split
  · left; rfl
  · rename_i p
    split
    · left; rfl
    · dsimp only
      split
      · rename_i a ha
        right; left
        exact ⟨p, rfl, by simp [ha], rfl⟩
      · rename_i hnone
        split
        · left; rfl
        · rename_i s1 h
          right; right
          exact ⟨p, rfl, hnone, insertAttendance_ok h⟩

theorem checkIn_rows_le_one (cfg : DbConfig) (s : Store) (now : Nat) (au rid x : String)
    (h : (attendanceRows s x).length ≤ 1) :
    (attendanceRows (checkIn cfg s now au rid).1 x).length ≤ 1 := by
  rcases checkIn_effect cfg s now au rid with h1 | ⟨hnone, h1⟩
  · rw [h1]; exact h
  · rw [h1, attendanceRows_append]
    by_cases hx : rid = x
    · subst hx
      simp [attendanceRows_of_find_none hnone, newAttendance]
    · simpa [newAttendance, hx] using h

theorem markAttendance_rows_le_one (cfg : DbConfig) (s : Store) (now : Nat)
    (au rid x : String) (present : Option Bool) (h : (attendanceRows s x).length ≤ 1) :
    (attendanceRows (markAttendance cfg s now au rid present).1 x).length ≤ 1 := by
  rcases markAttendance_effect cfg s now au rid present with h1 | ⟨p, _, _, h1⟩ |
    ⟨p, _, hnone, h1⟩
  · rw [h1]; exact h
  · rw [h1, attendanceRows_update_length]; exact h
  · rw [h1, attendanceRows_append]
    by_cases hx : rid = x
    · subst hx
      simp [attendanceRows_of_find_none hnone]
    · simpa [hx] using h

theorem attendanceCall_keeps (cfg : DbConfig) (s : Store) (c : AttendanceCall)
    (h : AttendanceAtMostOne s) : AttendanceAtMostOne (c.apply cfg s) := by
  cases c with
  | checkIn now au rid =>
    intro r hr
    simp only [AttendanceCall.apply, checkIn_registrations] at hr ⊢
    exact checkIn_rows_le_one cfg s now au rid r.id (h r hr)
  | markAttendance now au rid present =>
    intro r hr
    simp only [AttendanceCall.apply, markAttendance_registrations] at hr ⊢
    exact markAttendance_rows_le_one cfg s now au rid r.id present (h r hr)

/-- C11: from a store in which each registration has at most one attendance row, every
sequence of checkIn and markAttendance calls, in any order and with any arguments,
leads to a store in which each registration still has at most one attendance row. -/
theorem attendance_at_most_one_preserved (cfg : DbConfig) (s : Store)
    (calls : List AttendanceCall) (h : AttendanceAtMostOne s) :
    AttendanceAtMostOne (runAttendanceCalls cfg s calls) := by
  induction calls generalizing s with
  | nil => simpa [runAttendanceCalls] using h
  | cons c cs ih =>
    have := ih (c.apply cfg s) (attendanceCall_keeps cfg s c h)
    simpa [runAttendanceCalls] using this

/-- Witness of C11: on the store with registration R1, a check-in, a marking as absent
and a second check-in leave R1 with one attendance row. -/
theorem attendance_at_most_one_preserved_witness :
    AttendanceAtMostOne registeredStore ∧
    AttendanceAtMostOne (runAttendanceCalls ⟨true⟩ registeredStore
      [.checkIn 2000 "A1" "R1", .markAttendance 2500 "A2" "R1" (some false),
       .checkIn 3000 "A3" "R1"]) ∧
    (attendanceRows (runAttendanceCalls ⟨true⟩ registeredStore
      [.checkIn 2000 "A1" "R1", .markAttendance 2500 "A2" "R1" (some false),
       .checkIn 3000 "A3" "R1"]) "R1").length = 1 :=
  have h0 : AttendanceAtMostOne registeredStore := by
    intro r _
    have ha : registeredStore.attendance = [] := by decide
    simp [attendanceRows, ha]
  ⟨h0, attendance_at_most_one_preserved ⟨true⟩ registeredStore _ h0, by decide⟩

/-! ## C12: marking attendance is an upsert in place -/

theorem findAttendance_eq_head (s : Store) (rid : String) :
    findAttendance s rid = (attendanceRows s rid).head? := by
  unfold findAttendance attendanceRows
  rw [List.filter_head?]

theorem attendanceRows_of_find_some {s : Store} {rid : String} {a0 : Attendance}
    (h : findAttendance s rid = some a0) (hone : (attendanceRows s rid).length ≤ 1) :
    attendanceRows s rid = [a0] ∧ a0.registration_id = rid := by
  have hid : a0.registration_id = rid := by
    unfold findAttendance at h
    simpa using List.find?_some h
  rw [findAttendance_eq_head] at h
  cases hrows : attendanceRows s rid with
  | nil => rw [hrows] at h; simp at h
  | cons b tl =>
    rw [hrows] at h hone
    simp only [List.head?_cons, Option.some.injEq] at h
    subst h
    cases tl with
    | nil => exact ⟨rfl, hid⟩
    | cons c tl2 => simp at hone

/-- Marking a registration that has the single attendance row a0 rewrites that row in
place. -/
theorem markAttendance_existing (cfg : DbConfig) (s : Store) (now : Nat) (au rid : String)
    (reg : Registration) (p : Bool) (a0 : Attendance)
    (hreg : findRegistration s rid = some reg)
    (hfind : findAttendance s rid = some a0)
    (hone : (attendanceRows s rid).length ≤ 1) :
    markAttendance cfg s now au rid (some p) =
      (updateAttendance s rid (presentValue p) (sqlDateTime now),
       { status := 200, success := true,
         text := if p then "Student marked as present" else "Student marked as absent",
         attendance := some { a0 with present := presentValue p,
                                      checked_in_at := sqlDateTime now } }) ∧
    attendanceRows (updateAttendance s rid (presentValue p) (sqlDateTime now)) rid =
      [{ a0 with present := presentValue p, checked_in_at := sqlDateTime now }] := by
  obtain ⟨hrows, hid⟩ := attendanceRows_of_find_some hfind hone
  constructor
  · simp only [markAttendance, hreg, hfind, presentValue]
    rw [← hid]
  · rw [attendanceRows_update, hrows]
    simp [hid]

/-- Marking a registration that has no attendance row appends one. -/
theorem markAttendance_new (cfg : DbConfig) (s : Store) (now : Nat) (au rid : String)
    (reg : Registration) (p : Bool)
    (hreg : findRegistration s rid = some reg)
    (hnone : findAttendance s rid = none)
    (hfresh : ∀ x ∈ s.attendance, x.id ≠ au) :
    markAttendance cfg s now au rid (some p) =
      ({ s with attendance := s.attendance ++
           [{ id := au, registration_id := rid, checked_in_at := sqlDateTime now,
              present := presentValue p }] },
       { status := 200, success := true,
         text := if p then "Student marked as present" else "Student marked as absent",
         attendance := some { id := au, registration_id := rid,
                              checked_in_at := sqlDateTime now,
                              present := presentValue p } }) := by
  have hins := insertAttendance_fresh cfg s
    { id := au, registration_id := rid, checked_in_at := sqlDateTime now,
      present := presentValue p } (findRegistration_some_mem hreg) hfresh
  unfold presentValue at hins
  simp only [markAttendance, hreg, hnone, presentValue, hins]

/-- One marking of an existing registration: afterwards the registration has exactly
one attendance row, with the requested flag, and that row is the answer. -/
theorem markAttendance_single_row (cfg : DbConfig) (s : Store) (now : Nat) (au rid : String)
    (reg : Registration) (p : Bool)
    (hreg : findRegistration s rid = some reg)
    (hone : (attendanceRows s rid).length ≤ 1)
    (hfresh : findAttendance s rid = none → ∀ x ∈ s.attendance, x.id ≠ au) :
    ∃ a : Attendance,
      attendanceRows (markAttendance cfg s now au rid (some p)).1 rid = [a] ∧
      a.present = presentValue p ∧ a.checked_in_at = sqlDateTime now ∧
      (markAttendance cfg s now au rid (some p)).2.status = 200 ∧
      (markAttendance cfg s now au rid (some p)).2.attendance = some a ∧
      (∀ a0, findAttendance s rid = some a0 → a.id = a0.id) := by
  cases hfind : findAttendance s rid with
  | some a0 =>
    obtain ⟨heq, hrows⟩ := markAttendance_existing cfg s now au rid reg p a0 hreg hfind hone
    refine ⟨{ a0 with present := presentValue p, checked_in_at := sqlDateTime now }, ?_⟩
    rw [heq]
    refine ⟨hrows, rfl, rfl, rfl, rfl, ?_⟩
    intro a1 h1
    cases h1
    rfl
  | none =>
    have heq := markAttendance_new cfg s now au rid reg p hreg hfind (hfresh hfind)
    refine ⟨{ id := au, registration_id := rid, checked_in_at := sqlDateTime now,
              present := presentValue p }, ?_⟩
    rw [heq]
    refine ⟨?_, rfl, rfl, rfl, rfl, ?_⟩
    · rw [attendanceRows_append, attendanceRows_of_find_none hfind]
      simp
    · intro a1 h1
      cases h1

/-- C12: for an existing registration with at most one attendance row, after
markAttendance with the boolean p the registration has exactly one attendance row, its
present column holds p (1 or 0), the row is the answer (status 200), and its id is the
id of the row that existed before, if one did (a new row needs the identifier handed
out for it to be new).  A second marking, with any flag q, rewrites that same row: a
single row, the same id, present = q; so present and then absent leaves one row with
the original id and present = 0. -/
theorem markAttendance_upsert (cfg : DbConfig) (s : Store) (now : Nat) (au rid : String)
    (reg : Registration) (p : Bool)
    (hreg : findRegistration s rid = some reg)
    (hone : (attendanceRows s rid).length ≤ 1)
    (hfresh : findAttendance s rid = none → ∀ x ∈ s.attendance, x.id ≠ au) :
    ∃ a : Attendance,
      attendanceRows (markAttendance cfg s now au rid (some p)).1 rid = [a] ∧
      a.present = presentValue p ∧
      (markAttendance cfg s now au rid (some p)).2.status = 200 ∧
      (markAttendance cfg s now au rid (some p)).2.attendance = some a ∧
      (∀ a0, findAttendance s rid = some a0 → a.id = a0.id) ∧
      (∀ (now2 : Nat) (au2 : String) (q : Bool),
        attendanceRows
            (markAttendance cfg (markAttendance cfg s now au rid (some p)).1 now2 au2 rid
              (some q)).1 rid =
          [{ a with present := presentValue q, checked_in_at := sqlDateTime now2 }]) := by
  obtain ⟨a, hrows, hp, _, hstatus, hresp, hid⟩ :=
    markAttendance_single_row cfg s now au rid reg p hreg hone hfresh
  refine ⟨a, hrows, hp, hstatus, hresp, hid, ?_⟩
  intro now2 au2 q
  have hreg1 : findRegistration (markAttendance cfg s now au rid (some p)).1 rid = some reg := by
    unfold findRegistration at hreg ⊢
    rw [markAttendance_registrations]
    exact hreg
  have hfind1 : findAttendance (markAttendance cfg s now au rid (some p)).1 rid = some a := by
    rw [findAttendance_eq_head, hrows]
    rfl
  have hone1 : (attendanceRows (markAttendance cfg s now au rid (some p)).1 rid).length ≤ 1 := by
    rw [hrows]
    exact Nat.le_refl 1
  obtain ⟨heq, hrows2⟩ := markAttendance_existing cfg _ now2 au2 rid reg q a hreg1 hfind1 hone1
  rw [heq]
  exact hrows2

/-- Witness of C12: registration R1 of the sample store is marked present and then
absent; one row remains, with the id handed out at the first marking and present = 0. -/
theorem markAttendance_upsert_witness :
    findRegistration registeredStore "R1" = some (newRegistration 1000 "R1" "E2" "S1") ∧
    (attendanceRows registeredStore "R1").length ≤ 1 ∧
    attendanceRows (markAttendance ⟨true⟩ registeredStore 2000 "A1" "R1" (some true)).1 "R1" =
      [{ id := "A1", registration_id := "R1", checked_in_at := 2000, present := 1 }] ∧
    attendanceRows
        (markAttendance ⟨true⟩
          (markAttendance ⟨true⟩ registeredStore 2000 "A1" "R1" (some true)).1 3000 "A2" "R1"
          (some false)).1 "R1" =
      [{ id := "A1", registration_id := "R1", checked_in_at := 3000, present := 0 }] ∧
    ∃ a : Attendance,
      attendanceRows (markAttendance ⟨true⟩ registeredStore 2000 "A1" "R1" (some true)).1 "R1" =
        [a] ∧ a.present = presentValue true :=
  have h := markAttendance_upsert ⟨true⟩ registeredStore 2000 "A1" "R1"
    (newRegistration 1000 "R1" "E2" "S1") true (by decide) (by decide)
    (fun _ => by decide)
  ⟨by decide, by decide, by decide, by decide, h.choose, h.choose_spec.1, h.choose_spec.2.1⟩

/-! ## C13: attendance for a registration that does not exist -/

/-- C13: for a registration id that names no registration, checkIn and markAttendance
(with a boolean present) both answer 404 "Registration not found" and leave the store
as it was, so no attendance row is created. -/
theorem attendance_unknown_registration (cfg : DbConfig) (s : Store) (now : Nat)
    (au rid : String) (p : Bool) (hnone : findRegistration s rid = none) :
    checkIn cfg s now au rid =
      (s, { status := 404, success := false, text := "Registration not found",
            attendance := none }) ∧
    markAttendance cfg s now au rid (some p) =
      (s, { status := 404, success := false, text := "Registration not found",
            attendance := none }) := by
  constructor
  · simp [checkIn, hnone]
  · simp [markAttendance, hnone]

/-- Witness of C13: the sample store has no registration R9. -/
theorem attendance_unknown_registration_witness :
    findRegistration sampleStore "R9" = none ∧
    (checkIn ⟨true⟩ sampleStore 2000 "A1" "R9").2.status = 404 ∧
    (checkIn ⟨true⟩ sampleStore 2000 "A1" "R9").1 = sampleStore ∧
    (markAttendance ⟨true⟩ sampleStore 2000 "A1" "R9" (some true)).2.status = 404 ∧
    (markAttendance ⟨true⟩ sampleStore 2000 "A1" "R9" (some true)).1 = sampleStore :=
  have h := attendance_unknown_registration ⟨true⟩ sampleStore 2000 "A1" "R9" true (by decide)
  ⟨by decide, by rw [h.1], by rw [h.1], by rw [h.2], by rw [h.2]⟩

/-! ## C14: a second feedback for the same registration -/

/-- C14: for a registration that has a feedback row, a further submitFeedback call is
answered 409 with the stored feedback record and leaves the store as it was, so the
stored rating and comment stay; this holds for the handler with any rating and
comment, and so for the route with every body that passes validateFeedback. -/
theorem duplicate_feedback_rejected (cfg : DbConfig) (s : Store) (now : Nat)
    (fu rid : String) (reg : Registration) (f : Feedback)
    (hreg : findRegistration s rid = some reg) (hf : findFeedback s rid = some f) :
    (∀ (rating : Int) (comment : Option String),
      submitFeedback cfg s now fu rid rating comment =
        (s, { status := 409, success := false, text := "Feedback already submitted",
              feedback := some f })) ∧
    (∀ (req : FeedbackRequest) (body : FeedbackBody), validateFeedback req = .ok body →
      submitFeedbackRequest cfg s now fu rid req =
        (s, { status := 409, success := false, text := "Feedback already submitted",
              feedback := some f }) ∧
      findFeedback (submitFeedbackRequest cfg s now fu rid req).1 rid = some f) := by
  have h1 : ∀ (rating : Int) (comment : Option String),
      submitFeedback cfg s now fu rid rating comment =
        (s, { status := 409, success := false, text := "Feedback already submitted",
              feedback := some f }) := by
    intro rating comment
    simp [submitFeedback, hreg, hf]
  refine ⟨h1, ?_⟩
  intro req body hv
  have heq : submitFeedbackRequest cfg s now fu rid req =
      (s, { status := 409, success := false, text := "Feedback already submitted",
            feedback := some f }) := by
    simp only [submitFeedbackRequest, hv]
    exact h1 _ _
  exact ⟨heq, by rw [heq]; exact hf⟩

/-- Witness of C14: S1 rated the event with 5 and now sends the rating 4. -/
theorem duplicate_feedback_rejected_witness :
    findRegistration feedbackStore "R1" = some (newRegistration 1000 "R1" "E2" "S1") ∧
    findFeedback feedbackStore "R1" = some sampleFeedback ∧
    validateFeedback (feedbackRequest 4 "Another feedback") =
      .ok { rating := 4, comment := some "Another feedback" } ∧
    submitFeedbackRequest ⟨true⟩ feedbackStore 5000 "F2" "R1"
        (feedbackRequest 4 "Another feedback") =
      (feedbackStore, { status := 409, success := false, text := "Feedback already submitted",
                        feedback := some sampleFeedback }) :=
  ⟨by decide, by decide, rfl,
    ((duplicate_feedback_rejected ⟨true⟩ feedbackStore 5000 "F2" "R1"
      (newRegistration 1000 "R1" "E2" "S1") sampleFeedback (by decide) (by decide)).2
      (feedbackRequest 4 "Another feedback")
      { rating := 4, comment := some "Another feedback" } rfl).1⟩

/-! ## C15: feedback is written once and never touched again -/

theorem createEventInsert_feedback (cfg : DbConfig) (s : Store) (now : Nat)
    (eu : String) (college : College) (body : EventBody) :
    (createEventInsert cfg s now eu college body).1.feedback = s.feedback := by
  unfold createEventInsert
  dsimp only
  split
  · rfl
  · rename_i s1 h
    rw [insertEvent_ok h]

theorem createEvent_feedback (cfg : DbConfig) (s : Store) (now : Nat)
    (cu eu : String) (body : EventBody) :
    (createEvent cfg s now cu eu body).1.feedback = s.feedback := by
  unfold createEvent
  split
  · exact createEventInsert_feedback cfg s now eu _ body
  · dsimp only
    split
    · rfl
    · rename_i s1 h
      rw [createEventInsert_feedback, insertCollege_ok h]

theorem updateEvent_feedback (s : Store) (id : String) (body : EventBody) :
    (updateEvent s id body).1.feedback = s.feedback := by
  unfold updateEvent
  split <;> rfl

theorem cancelEvent_feedback (s : Store) (id : String) :
    (cancelEvent s id).1.feedback = s.feedback := by
  unfold cancelEvent
  split <;> rfl

theorem register_feedback (cfg : DbConfig) (s : Store) (now : Nat) (su ru eventId : String)
    (body : RegistrationBody) :
    (register cfg s now su ru eventId body).1.feedback = s.feedback := by
  obtain ⟨studs, regs, hst, _⟩ := register_effect cfg s now su ru eventId body
  rw [hst]

theorem checkIn_feedback (cfg : DbConfig) (s : Store) (now : Nat) (au rid : String) :
    (checkIn cfg s now au rid).1.feedback = s.feedback := by
  rcases checkIn_effect cfg s now au rid with h | ⟨_, h⟩ <;> rw [h]

theorem markAttendance_feedback (cfg : DbConfig) (s : Store) (now : Nat) (au rid : String)
    (present : Option Bool) :
    (markAttendance cfg s now au rid present).1.feedback = s.feedback := by
  rcases markAttendance_effect cfg s now au rid present with h | ⟨_, _, _, h⟩ |
    ⟨_, _, _, h⟩
  · rw [h]
  · rw [h]; rfl
  · rw [h]

/-- What the feedback handler does to the store: nothing, or it appends one row for a
registration that had none. -/
theorem submitFeedback_effect (cfg : DbConfig) (s : Store) (now : Nat) (fu rid : String)
    (rating : Int) (comment : Option String) :
    (submitFeedback cfg s now fu rid rating comment).1 = s ∨
    (findFeedback s rid = none ∧
      (submitFeedback cfg s now fu rid rating comment).1 =
        { s with feedback := s.feedback ++
            [{ id := fu, registration_id := rid, rating := rating,
               comment := if falsy comment then none else comment,
               submitted_at := sqlDateTime now }] }) := by
  unfold submitFeedback
  split
  · left; rfl
  · split
    · left; rfl
    · rename_i hnone
      dsimp only
      split
      · left; rfl
      · rename_i s1 h
        right
        exact ⟨hnone, insertFeedback_ok h⟩

theorem feedbackRows_of_find_none {s : Store} {rid : String}
    (h : findFeedback s rid = none) : feedbackRows s rid = [] := by
  unfold findFeedback at h
  unfold feedbackRows
  rw [List.find?_eq_none] at h
  rw [List.filter_eq_nil_iff]
  exact h

/-- One call appends at most one feedback row, for a registration that had none, and
leaves the rows that are there in place. -/
theorem apply_feedback (cfg : DbConfig) (s : Store) (c : Call) :
    (c.apply cfg s).feedback = s.feedback ∨
    ∃ row : Feedback, feedbackRows s row.registration_id = [] ∧
      (c.apply cfg s).feedback = s.feedback ++ [row] := by
  cases c with
  | createEvent now cu eu body => left; exact createEvent_feedback cfg s now cu eu body
  | updateEvent id body => left; exact updateEvent_feedback s id body
  | cancelEvent id => left; exact cancelEvent_feedback s id
  | register now su ru eventId body => left; exact register_feedback cfg s now su ru eventId body
  | checkIn now au rid => left; exact checkIn_feedback cfg s now au rid
  | markAttendance now au rid present =>
    left; exact markAttendance_feedback cfg s now au rid present
  | submitFeedback now fu rid rating comment =>
    rcases submitFeedback_effect cfg s now fu rid rating comment with h | ⟨hnone, h⟩
    · left
      simp only [Call.apply]
      rw [h]
    · right
      refine ⟨_, ?_, by simp only [Call.apply]; rw [h]⟩
      exact feedbackRows_of_find_none hnone

theorem apply_keeps_feedbackRows (cfg : DbConfig) (s : Store) (c : Call) (x : String)
    (h : (feedbackRows s x).length ≤ 1) : (feedbackRows (c.apply cfg s) x).length ≤ 1 := by
  rcases apply_feedback cfg s c with heq | ⟨row, hnone, heq⟩
  · unfold feedbackRows at h ⊢
    rw [heq]
    exact h
  · unfold feedbackRows at h hnone ⊢
    rw [heq, List.filter_append]
    by_cases hx : row.registration_id = x
    · subst hx
      simp [hnone]
    · simpa [hx] using h

theorem runCalls_keeps_feedbackRows (cfg : DbConfig) (calls : List Call) (x : String) :
    ∀ s : Store, (feedbackRows s x).length ≤ 1 →
      (feedbackRows (runCalls cfg s calls) x).length ≤ 1 := by
  induction calls with
  | nil => intro s h; simpa [runCalls] using h
  | cons c cs ih =>
    intro s h
    have := ih _ (apply_keeps_feedbackRows cfg s c x h)
    simpa [runCalls] using this

theorem runCalls_feedback_prefix (cfg : DbConfig) (calls : List Call) :
    ∀ s : Store, s.feedback <+: (runCalls cfg s calls).feedback := by
  induction calls with
  | nil => intro s; simp [runCalls]
  | cons c cs ih =>
    intro s
    have h1 : s.feedback <+: (c.apply cfg s).feedback := by
      rcases apply_feedback cfg s c with heq | ⟨row, _, heq⟩
      · rw [heq]
      · rw [heq]; exact List.prefix_append _ _
    have h2 := ih (c.apply cfg s)
    have : s.feedback <+: (runCalls cfg (c.apply cfg s) cs).feedback := h1.trans h2
    simpa [runCalls] using this

/-- C15: in every store reached from the empty store by a sequence of API calls, each
registration has at most one feedback row; and the feedback rows of that store stay,
unchanged and in place, at the head of the feedback table after any further sequence
of API calls: no call changes or removes a feedback row. -/
theorem feedback_once_and_immutable (cfg : DbConfig) (calls more : List Call) :
    (∀ r ∈ (runCalls cfg Store.empty calls).registrations,
      (feedbackRows (runCalls cfg Store.empty calls) r.id).length ≤ 1) ∧
    (runCalls cfg Store.empty calls).feedback <+:
      (runCalls cfg Store.empty (calls ++ more)).feedback := by
  constructor
  · intro r _
    exact runCalls_keeps_feedbackRows cfg calls r.id Store.empty (by simp [feedbackRows, Store.empty])
  · have : runCalls cfg Store.empty (calls ++ more) =
        runCalls cfg (runCalls cfg Store.empty calls) more := by
      simp [runCalls, List.foldl_append]
    rw [this]
    exact runCalls_feedback_prefix cfg more _

/-! ## C16: the rating must be an integer from 1 to 5 -/

theorem submitFeedbackRequest_invalid (cfg : DbConfig) (s : Store) (now : Nat)
    (fu rid : String) (req : FeedbackRequest) (h : feedbackErrors req ≠ []) :
    submitFeedbackRequest cfg s now fu rid req =
      (s, { status := 400, success := false, text := "Validation failed", feedback := none,
            details := feedbackErrors req }) := by
  simp [submitFeedbackRequest, validateFeedback, h]

theorem submitFeedbackRequest_valid (cfg : DbConfig) (s : Store) (now : Nat)
    (fu rid : String) (req : FeedbackRequest) (h : feedbackErrors req = []) :
    submitFeedbackRequest cfg s now fu rid req =
      submitFeedback cfg s now fu rid (feedbackValue req).rating (feedbackValue req).comment := by
  simp [submitFeedbackRequest, validateFeedback, h]

theorem feedbackErrors_of_rating (req : FeedbackRequest)
    (h : requiredErrors "rating" (integerRangeErrors "rating" 1 5) req.rating ≠ []) :
    feedbackErrors req ≠ [] := by
  unfold feedbackErrors
  intro hnil
  rw [List.append_eq_nil, List.append_eq_nil] at hnil
  exact h hnil.1.1

/-- C16: the feedback route answers 400 and writes nothing when the rating is an
integer below 1 or above 5, for every registration id (known or not) and whatever
else the body holds; likewise when the rating is missing, is not a number or is not
an integer.  validateFeedback accepts every integer rating from 1 to 5 (with a valid
or absent comment and no other member) and hands exactly that rating to the handler.
In particular 0 and 6 are rejected, 1 and 5 accepted. -/
theorem rating_range_validated (cfg : DbConfig) (s : Store) (now : Nat) (fu rid : String) :
    (∀ (req : FeedbackRequest) (r : Int), req.rating = some (.integer r) → (r < 1 ∨ 5 < r) →
      (submitFeedbackRequest cfg s now fu rid req).2.status = 400 ∧
      (submitFeedbackRequest cfg s now fu rid req).1 = s) ∧
    (∀ (req : FeedbackRequest),
      (req.rating = none ∨ req.rating = some .notNumber ∨
        ∃ fl, req.rating = some (.fraction fl)) →
      (submitFeedbackRequest cfg s now fu rid req).2.status = 400 ∧
      (submitFeedbackRequest cfg s now fu rid req).1 = s) ∧
    (∀ (r : Int) (comment : Option TextInput), 1 ≤ r → r ≤ 5 →
      optionalErrors (stringErrors "comment" 0 500) comment = [] →
      validateFeedback { rating := some (.integer r), comment := comment, unknownKeys := [] } =
        .ok { rating := r, comment := comment.map TextInput.toString }) ∧
    (∀ (comment : Option TextInput),
      (submitFeedbackRequest cfg s now fu rid
        { rating := some (.integer 0), comment := comment, unknownKeys := [] }).2.status = 400 ∧
      (submitFeedbackRequest cfg s now fu rid
        { rating := some (.integer 6), comment := comment, unknownKeys := [] }).2.status = 400) ∧
    validateFeedback { rating := some (.integer 1), comment := none, unknownKeys := [] } =
      .ok { rating := 1, comment := none } ∧
    validateFeedback { rating := some (.integer 5), comment := none, unknownKeys := [] } =
      .ok { rating := 5, comment := none } := by
  have hout : ∀ (req : FeedbackRequest) (r : Int), req.rating = some (.integer r) →
      (r < 1 ∨ 5 < r) →
      (submitFeedbackRequest cfg s now fu rid req).2.status = 400 ∧
      (submitFeedbackRequest cfg s now fu rid req).1 = s := by
    intro req r hr hrange
    have herr : feedbackErrors req ≠ [] := by
      apply feedbackErrors_of_rating
      rw [hr]
      rcases hrange with h | h
      · simp [requiredErrors, integerRangeErrors, h]
      · simp [requiredErrors, integerRangeErrors, h]
    rw [submitFeedbackRequest_invalid cfg s now fu rid req herr]
    exact ⟨rfl, rfl⟩
  refine ⟨hout, ?_, ?_, ?_, rfl, rfl⟩
  · intro req hr
    have herr : feedbackErrors req ≠ [] := by
      apply feedbackErrors_of_rating
      rcases hr with h | h | ⟨fl, h⟩ <;> rw [h] <;> simp [requiredErrors, integerRangeErrors]
    rw [submitFeedbackRequest_invalid cfg s now fu rid req herr]
    exact ⟨rfl, rfl⟩
  · intro r comment h1 h5 hc
    have h1' : ¬ r < 1 := not_lt.mpr h1
    have h5' : ¬ 5 < r := not_lt.mpr h5
    have herr : feedbackErrors
        { rating := some (.integer r), comment := comment, unknownKeys := [] } = [] := by
      simp [feedbackErrors, requiredErrors, integerRangeErrors, h1', h5', hc, unknownKeyErrors]
    simp [validateFeedback, herr, feedbackValue, NumberInput.toInt]
  · intro comment
    exact ⟨(hout _ 0 rfl (Or.inl (by decide))).1, (hout _ 6 rfl (Or.inr (by decide))).1⟩

/-- Witness of C16: the rating 6 of the test suite is answered 400 on the sample store,
where registration R1 exists, and the store stays as it was. -/
theorem rating_range_validated_witness :
    (feedbackRequest 6 "Invalid rating test").rating = some (.integer 6) ∧ ((6 : Int) < 1 ∨ 5 < 6) ∧
    (submitFeedbackRequest ⟨true⟩ checkedInStore 4000 "F1" "R1"
      (feedbackRequest 6 "Invalid rating test")).2.status = 400 ∧
    (submitFeedbackRequest ⟨true⟩ checkedInStore 4000 "F1" "R1"
      (feedbackRequest 6 "Invalid rating test")).1 = checkedInStore :=
  ⟨rfl, Or.inr (by decide),
    (rating_range_validated ⟨true⟩ checkedInStore 4000 "F1" "R1").1
      (feedbackRequest 6 "Invalid rating test") 6 rfl (Or.inr (by decide))⟩

/-! ## C17: the comment of a feedback -/

theorem insertFeedback_fresh (cfg : DbConfig) (s : Store) (f : Feedback)
    (hreg : ∃ r ∈ s.registrations, r.id = f.registration_id)
    (hnew : ∀ x ∈ s.feedback, x.id ≠ f.id) (h1 : 1 ≤ f.rating) (h5 : f.rating ≤ 5) :
    insertFeedback cfg s f = .ok { s with feedback := s.feedback ++ [f] } := by
  unfold insertFeedback
  have hpk : s.feedback.any (fun x => decide (x.id = f.id)) = false := by
    rw [List.any_eq_false]
    intro x hx
    simpa using hnew x hx
  have hfk : s.registrations.any (fun r => decide (r.id = f.registration_id)) = true := by
    rw [List.any_eq_true]
    obtain ⟨r, hr, hid⟩ := hreg
    exact ⟨r, hr, by simpa using hid⟩
  simp [hpk, hfk, h1, h5]

/-- A first feedback with a valid rating is stored as handed to the handler. -/
theorem submitFeedback_first (cfg : DbConfig) (s : Store) (now : Nat) (fu rid : String)
    (reg : Registration) (r : Int) (comment : Option String)
    (hreg : findRegistration s rid = some reg) (hnone : findFeedback s rid = none)
    (hfresh : ∀ x ∈ s.feedback, x.id ≠ fu) (h1 : 1 ≤ r) (h5 : r ≤ 5) :
    submitFeedback cfg s now fu rid r comment =
      ({ s with feedback := s.feedback ++
           [newFeedback now fu rid r (if falsy comment then none else comment)] },
       { status := 201, success := true, text := "Feedback submitted successfully",
         feedback := some (newFeedback now fu rid r (if falsy comment then none else comment)) }) := by
  have hins := insertFeedback_fresh cfg s
    (newFeedback now fu rid r (if falsy comment then none else comment))
    (findRegistration_some_mem hreg) hfresh h1 h5
  unfold newFeedback at hins ⊢
  simp only [submitFeedback, hreg, hnone, hins]

theorem jsLength_empty : jsLength "" = 0 := by decide

theorem jsLength_replicate (n : Nat) : jsLength (String.mk (List.replicate n 'a')) = n := by
  have ha : ('a'.toNat < 65536) = True := by decide
  simp [jsLength, List.map_replicate, List.sum_replicate, ha]

theorem jsLength_longComment : jsLength longComment = 501 :=
  jsLength_replicate 501

/-- C17: for a feedback request with a valid rating (an integer from 1 to 5): a comment
of more than 500 characters is answered 400 and the store stays as it was, so nothing
is stored and nothing is truncated; on a registration without feedback (the identifier
handed out for the row being new), a comment of 1 to 500 characters is stored exactly
as given and an absent comment is stored as NULL, both with status 201. -/
theorem comment_length_validated (cfg : DbConfig) (s : Store) (now : Nat) (fu rid : String)
    (r : Int) (h1 : 1 ≤ r) (h5 : r ≤ 5) :
    (∀ (c : String) (keys : List String), 500 < jsLength c →
      (submitFeedbackRequest cfg s now fu rid
        { rating := some (.integer r), comment := some (.text c), unknownKeys := keys }).2.status
        = 400 ∧
      (submitFeedbackRequest cfg s now fu rid
        { rating := some (.integer r), comment := some (.text c), unknownKeys := keys }).1 = s) ∧
    (∀ reg : Registration, findRegistration s rid = some reg → findFeedback s rid = none →
      (∀ x ∈ s.feedback, x.id ≠ fu) →
      (∀ c : String, 1 ≤ jsLength c → jsLength c ≤ 500 →
        submitFeedbackRequest cfg s now fu rid
            { rating := some (.integer r), comment := some (.text c), unknownKeys := [] } =
          ({ s with feedback := s.feedback ++ [newFeedback now fu rid r (some c)] },
           { status := 201, success := true, text := "Feedback submitted successfully",
             feedback := some (newFeedback now fu rid r (some c)) })) ∧
      submitFeedbackRequest cfg s now fu rid
          { rating := some (.integer r), comment := none, unknownKeys := [] } =
        ({ s with feedback := s.feedback ++ [newFeedback now fu rid r none] },
         { status := 201, success := true, text := "Feedback submitted successfully",
           feedback := some (newFeedback now fu rid r none) })) := by
  have h1' : ¬ r < 1 := not_lt.mpr h1
  have h5' : ¬ 5 < r := not_lt.mpr h5
  constructor
  · intro c keys hlong
    have hne : c ≠ "" := by
      intro h
      rw [h, jsLength_empty] at hlong
      exact absurd hlong (by decide)
    have herr : feedbackErrors
        { rating := some (.integer r), comment := some (.text c), unknownKeys := keys } ≠ [] := by
      simp [feedbackErrors, requiredErrors, integerRangeErrors, h1', h5', optionalErrors,
        stringErrors, hne, hlong]
    rw [submitFeedbackRequest_invalid cfg s now fu rid _ herr]
    exact ⟨rfl, rfl⟩
  · intro reg hreg hnone hfresh
    constructor
    · intro c hpos hle
      have hne : c ≠ "" := by
        intro h
        rw [h, jsLength_empty] at hpos
        exact absurd hpos (by decide)
      have hle' : ¬ 500 < jsLength c := not_lt.mpr hle
      have herr : feedbackErrors
          { rating := some (.integer r), comment := some (.text c), unknownKeys := [] } = [] := by
        simp [feedbackErrors, requiredErrors, integerRangeErrors, h1', h5', optionalErrors,
          stringErrors, hne, hle', unknownKeyErrors]
      rw [submitFeedbackRequest_valid cfg s now fu rid _ herr]
      have hval : feedbackValue
          { rating := some (.integer r), comment := some (.text c), unknownKeys := [] } =
          { rating := r, comment := some c } := by
        simp [feedbackValue, NumberInput.toInt, TextInput.toString]
      rw [hval, submitFeedback_first cfg s now fu rid reg r (some c) hreg hnone hfresh h1 h5]
      simp [falsy, hne]
    · have herr : feedbackErrors
          { rating := some (.integer r), comment := none, unknownKeys := [] } = [] := by
        simp [feedbackErrors, requiredErrors, integerRangeErrors, h1', h5', optionalErrors,
          unknownKeyErrors]
      rw [submitFeedbackRequest_valid cfg s now fu rid _ herr]
      have hval : feedbackValue
          { rating := some (.integer r), comment := none, unknownKeys := [] } =
          { rating := r, comment := none } := by
        simp [feedbackValue, NumberInput.toInt]
      rw [hval, submitFeedback_first cfg s now fu rid reg r none hreg hnone hfresh h1 h5]
      simp [falsy]

/-- Witness of C17: on registration R1 of the sample store, a comment of 501 characters
with rating 5 is answered 400, and the comment of the test suite is stored as given. -/
theorem comment_length_validated_witness :
    (1 : Int) ≤ 5 ∧ (5 : Int) ≤ 5 ∧ 500 < jsLength longComment ∧
    (submitFeedbackRequest ⟨true⟩ checkedInStore 4000 "F1" "R1"
      { rating := some (.integer 5), comment := some (.text longComment),
        unknownKeys := [] }).2.status = 400 ∧
    (submitFeedbackRequest ⟨true⟩ checkedInStore 4000 "F1" "R1"
      { rating := some (.integer 5), comment := some (.text "Great workshop! Learned a lot."),
        unknownKeys := [] }).2.feedback =
      some (newFeedback 4000 "F1" "R1" 5 (some "Great workshop! Learned a lot.")) :=
  have h := comment_length_validated ⟨true⟩ checkedInStore 4000 "F1" "R1" 5 (by decide)
    (by decide)
  have hlong : 500 < jsLength longComment := by rw [jsLength_longComment]; decide
  ⟨by decide, by decide, hlong, (h.1 longComment [] hlong).1,
    by rw [(h.2 (newRegistration 1000 "R1" "E2" "S1") (by decide) (by decide) (by decide)).1
      "Great workshop! Learned a lot." (by decide) (by decide)]⟩

/-! ## C18: end time and start time of an event -/

theorem createEventRequest_invalid (cfg : DbConfig) (s : Store) (now : Nat)
    (cu eu : String) (req : EventRequest) (h : eventErrors req ≠ []) :
    createEventRequest cfg s now cu eu req =
      (s, { status := 400, success := false, text := "Validation failed", event := none,
            details := eventErrors req }) := by
  simp [createEventRequest, validateEvent, h]

theorem createEventRequest_valid (cfg : DbConfig) (s : Store) (now : Nat)
    (cu eu : String) (req : EventRequest) (h : eventErrors req = []) :
    createEventRequest cfg s now cu eu req = createEvent cfg s now cu eu (eventValue req) := by
  simp [createEventRequest, validateEvent, h]

theorem updateEventRequest_invalid (s : Store) (id : String) (req : EventRequest)
    (h : eventErrors req ≠ []) :
    updateEventRequest s id req =
      (s, { status := 400, success := false, text := "Validation failed", event := none,
            details := eventErrors req }) := by
  simp [updateEventRequest, validateEvent, h]

theorem updateEventRequest_valid (s : Store) (id : String) (req : EventRequest)
    (h : eventErrors req = []) :
    updateEventRequest s id req = updateEvent s id (eventValue req) := by
  simp [updateEventRequest, validateEvent, h]

/-- A body whose end time is before its start time fails `eventSchema`. -/
theorem eventErrors_end_before_start (req : EventRequest) (st e : Nat)
    (hs : req.start_time = some (.instant st)) (he : req.end_time = some (.instant e))
    (hlt : e < st) : eventErrors req ≠ [] := by
  unfold eventErrors
  intro hnil
  simp only [List.append_eq_nil] at hnil
  have := hnil.1.1.1.2
  rw [he, hs] at this
  simp [requiredErrors, endTimeErrors, hlt] at this

/-- C18, the routes at the failing inputs.  A body whose end time is before its start
time is answered 400 by both routes and nothing is written.  But the body whose end
time equals its start time (instant 7000) passes validateEvent: the create route
answers 201 and stores an event whose end_time equals its start_time, and the update
route answers 200 and leaves event E1 with end_time equal to start_time.  The same
happens when the end time is later by less than a second (7999), because the stored
dates keep whole seconds. -/
theorem end_time_not_after_start_evaluation :
    (∀ (cfg : DbConfig) (s : Store) (now : Nat) (cu eu id : String) (req : EventRequest)
      (st e : Nat), req.start_time = some (.instant st) → req.end_time = some (.instant e) →
      e < st →
      ((createEventRequest cfg s now cu eu req).2.status = 400 ∧
        (createEventRequest cfg s now cu eu req).1 = s) ∧
      ((updateEventRequest s id req).2.status = 400 ∧ (updateEventRequest s id req).1 = s)) ∧
    validateEvent (eventRequest 7000 7000 (some (.integer 10))) =
      .ok (eventValue (eventRequest 7000 7000 (some (.integer 10)))) ∧
    (createEventRequest ⟨true⟩ sampleStore 1000 "c9" "E9"
      (eventRequest 7000 7000 (some (.integer 10)))).2.status = 201 ∧
    (findEvent (createEventRequest ⟨true⟩ sampleStore 1000 "c9" "E9"
      (eventRequest 7000 7000 (some (.integer 10)))).1 "E9").map
        (fun ev => (ev.start_time, ev.end_time)) = some (7000, 7000) ∧
    (updateEventRequest sampleStore "E1" (eventRequest 7000 7000 (some (.integer 10)))).2.status
      = 200 ∧
    (findEvent (updateEventRequest sampleStore "E1"
      (eventRequest 7000 7000 (some (.integer 10)))).1 "E1").map
        (fun ev => (ev.start_time, ev.end_time)) = some (7000, 7000) ∧
    (findEvent (createEventRequest ⟨true⟩ sampleStore 1000 "c9" "E9"
      (eventRequest 7000 7999 (some (.integer 10)))).1 "E9").map
        (fun ev => (ev.start_time, ev.end_time)) = some (7000, 7000) := by
  refine ⟨?_, rfl, by decide, by decide, by decide, by decide, by decide⟩
  intro cfg s now cu eu id req st e hs he hlt
  have herr := eventErrors_end_before_start req st e hs he hlt
  rw [createEventRequest_invalid cfg s now cu eu req herr, updateEventRequest_invalid s id req herr]
  exact ⟨⟨rfl, rfl⟩, rfl, rfl⟩

/-! ## C19: the capacity of a new event -/

/-- The capacity member is checked on its own: a body is valid exactly when it is
valid without the member and the member passes its rule. -/
theorem eventErrors_capacity (req : EventRequest) (capacity : Option NumberInput) :
    eventErrors { req with capacity := capacity } = [] ↔
      eventErrors { req with capacity := none } = [] ∧
      optionalErrors (integerRangeErrors "capacity" 1 1000) capacity = [] := by
  simp only [eventErrors, List.append_eq_nil, optionalErrors]
  constructor
  · rintro ⟨⟨⟨⟨⟨⟨⟨⟨h1, h2⟩, h3⟩, h4⟩, h5⟩, h6⟩, h7⟩, h8⟩, h9⟩
    exact ⟨⟨⟨⟨⟨⟨⟨⟨⟨h1, h2⟩, h3⟩, h4⟩, h5⟩, h6⟩, trivial⟩, h8⟩, h9⟩, h7⟩
  · rintro ⟨⟨⟨⟨⟨⟨⟨⟨⟨h1, h2⟩, h3⟩, h4⟩, h5⟩, h6⟩, _⟩, h8⟩, h9⟩, h7⟩
    exact ⟨⟨⟨⟨⟨⟨⟨⟨h1, h2⟩, h3⟩, h4⟩, h5⟩, h6⟩, h7⟩, h8⟩, h9⟩

theorem capacityErrors_integer (c : Int) :
    optionalErrors (integerRangeErrors "capacity" 1 1000) (some (.integer c)) = [] ↔
      1 ≤ c ∧ c ≤ 1000 := by
  simp only [optionalErrors, integerRangeErrors, List.append_eq_nil]
  constructor
  · rintro ⟨h1, h2⟩
    constructor
    · by_contra h
      rw [if_pos (not_le.mp h)] at h1
      cases h1
    · by_contra h
      rw [if_pos (not_le.mp h)] at h2
      cases h2
  · rintro ⟨h1, h2⟩
    exact ⟨if_neg (not_lt.mpr h1), if_neg (not_lt.mpr h2)⟩

/-- A 201 of the create handler returns the stored event row, whose capacity is
`capacity || 100` of the body. -/
theorem createEvent_success (cfg : DbConfig) (s : Store) (now : Nat) (cu eu : String)
    (body : EventBody) (h201 : (createEvent cfg s now cu eu body).2.status = 201) :
    ∃ ev : Event, (createEvent cfg s now cu eu body).2.event = some ev ∧
      ev ∈ (createEvent cfg s now cu eu body).1.events ∧
      ev.id = eu ∧ ev.capacity = capacityOrDefault body.capacity ∧
      ev.title = body.title ∧ ev.type = body.type := by
  have hins : ∀ (s0 : Store) (college : College),
      (createEventInsert cfg s0 now eu college body).2.status = 201 →
      ∃ ev : Event, (createEventInsert cfg s0 now eu college body).2.event = some ev ∧
        ev ∈ (createEventInsert cfg s0 now eu college body).1.events ∧
        ev.id = eu ∧ ev.capacity = capacityOrDefault body.capacity ∧
        ev.title = body.title ∧ ev.type = body.type := by
    intro s0 college
    unfold createEventInsert
    dsimp only
    split
    · intro h; simp at h
    · rename_i s1 hok
      intro _
      refine ⟨_, rfl, ?_, rfl, rfl, rfl, rfl⟩
      rw [insertEvent_ok hok]
      simp
  cases hc : findCollegeByName s body.college_name with
  | some college =>
    simp only [createEvent, hc] at h201 ⊢
    exact hins s college h201
  | none =>
    cases hok : insertCollege s
        { id := cu, name := body.college_name, created_at := sqlDateTime now } with
    | error e =>
      simp [createEvent, hc, hok] at h201
    | ok s1 =>
      simp only [createEvent, hc, hok] at h201 ⊢
      exact hins s1 _ h201

/-- C19 as amended: a create-event request whose other members are valid and whose
capacity is the integer c passes validateEvent exactly when 1 <= c <= 1000; the event
that the route then creates (status 201) has capacity c.  Capacity 0 is answered 400,
like every integer outside 1..1000, and nothing is written; a body without capacity
creates an event of capacity 100. -/
theorem capacity_accepted_iff (req : EventRequest) (c : Int)
    (hvalid : eventErrors { req with capacity := none } = []) :
    ((∃ body, validateEvent { req with capacity := some (.integer c) } = .ok body) ↔
      (1 ≤ c ∧ c ≤ 1000)) ∧
    (∀ (cfg : DbConfig) (s : Store) (now : Nat) (cu eu : String),
      (createEventRequest cfg s now cu eu { req with capacity := some (.integer c) }).2.status
        = 201 →
      1 ≤ c ∧ c ≤ 1000 ∧
      ∃ ev : Event,
        (createEventRequest cfg s now cu eu
          { req with capacity := some (.integer c) }).2.event = some ev ∧
        ev ∈ (createEventRequest cfg s now cu eu
          { req with capacity := some (.integer c) }).1.events ∧
        ev.capacity = c) ∧
    (∀ (cfg : DbConfig) (s : Store) (now : Nat) (cu eu : String), ¬ (1 ≤ c ∧ c ≤ 1000) →
      (createEventRequest cfg s now cu eu { req with capacity := some (.integer c) }).2.status
        = 400 ∧
      (createEventRequest cfg s now cu eu { req with capacity := some (.integer c) }).1 = s) ∧
    (∀ (cfg : DbConfig) (s : Store) (now : Nat) (cu eu : String),
      (createEventRequest cfg s now cu eu { req with capacity := none }).2.status = 201 →
      ∃ ev : Event,
        (createEventRequest cfg s now cu eu { req with capacity := none }).2.event = some ev ∧
        ev.capacity = 100) := by
  have herrs : eventErrors { req with capacity := some (.integer c) } = [] ↔
      (1 ≤ c ∧ c ≤ 1000) := by
    rw [eventErrors_capacity, capacityErrors_integer]
    exact ⟨fun h => h.2, fun h => ⟨hvalid, h⟩⟩
  refine ⟨?_, ?_, ?_, ?_⟩
  · constructor
    · rintro ⟨body, hb⟩
      by_contra hnot
      have hne : eventErrors { req with capacity := some (.integer c) } ≠ [] :=
        fun h => hnot (herrs.mp h)
      simp [validateEvent, hne] at hb
    · intro hc
      exact ⟨eventValue { req with capacity := some (.integer c) },
        by simp [validateEvent, herrs.mpr hc]⟩
  · intro cfg s now cu eu h201
    by_cases hc : 1 ≤ c ∧ c ≤ 1000
    · refine ⟨hc.1, hc.2, ?_⟩
      rw [createEventRequest_valid cfg s now cu eu _ (herrs.mpr hc)] at h201 ⊢
      obtain ⟨ev, hev, hmem, _, hcap, _⟩ := createEvent_success cfg s now cu eu _ h201
      refine ⟨ev, hev, hmem, ?_⟩
      rw [hcap]
      have hne : c ≠ 0 := by omega
      simp [eventValue, NumberInput.toInt, capacityOrDefault, hne]
    · have hne : eventErrors { req with capacity := some (.integer c) } ≠ [] :=
        fun h => hc (herrs.mp h)
      rw [createEventRequest_invalid cfg s now cu eu _ hne] at h201
      simp at h201
  · intro cfg s now cu eu hc
    have hne : eventErrors { req with capacity := some (.integer c) } ≠ [] :=
      fun h => hc (herrs.mp h)
    rw [createEventRequest_invalid cfg s now cu eu _ hne]
    exact ⟨rfl, rfl⟩
  · intro cfg s now cu eu h201
    rw [createEventRequest_valid cfg s now cu eu _ hvalid] at h201 ⊢
    obtain ⟨ev, hev, _, _, hcap, _⟩ := createEvent_success cfg s now cu eu _ h201
    refine ⟨ev, hev, ?_⟩
    rw [hcap]
    simp [eventValue, capacityOrDefault]

/-- Witness of C19 as amended: the sample body with capacity 50 is accepted and the
event created has capacity 50. -/
theorem capacity_accepted_iff_witness :
    eventErrors { eventRequest 7000 8000 none with capacity := none } = [] ∧
    (∃ body, validateEvent
      { eventRequest 7000 8000 none with capacity := some (.integer 50) } = .ok body) ∧
    (createEventRequest ⟨true⟩ sampleStore 1000 "c9" "E9"
      { eventRequest 7000 8000 none with capacity := some (.integer 50) }).2.status = 201 ∧
    ∃ ev : Event,
      (createEventRequest ⟨true⟩ sampleStore 1000 "c9" "E9"
        { eventRequest 7000 8000 none with capacity := some (.integer 50) }).2.event = some ev ∧
      ev.capacity = 50 :=
  have h := capacity_accepted_iff (eventRequest 7000 8000 none) 50 (by decide)
  have h2 := h.2.1 ⟨true⟩ sampleStore 1000 "c9" "E9" (by decide)
  ⟨by decide, h.1.mpr (by decide), by decide, h2.2.2.choose, h2.2.2.choose_spec.1,
    h2.2.2.choose_spec.2.2⟩

/-- Counterexample to C19 as stated: the sample body with capacity 0 is answered 400 and
no event is created. -/
theorem capacity_zero_rejected_counterexample :
    eventErrors { eventRequest 7000 8000 none with capacity := none } = [] ∧
    createEventRequest ⟨true⟩ sampleStore 1000 "c9" "E9"
        (eventRequest 7000 8000 (some (.integer 0))) =
      (sampleStore, { status := 400, success := false, text := "Validation failed",
                      event := none,
                      details := [{ path := "capacity", type := "number.min" }] }) := by
  decide

/-! ## C20: available spots and fullness in the public routes -/

theorem availability_rule (capacity : Int) (n : Nat) :
    AvailabilityRule capacity n (availableSpots capacity n) (isFull capacity n) := by
  unfold AvailabilityRule availableSpots isFull
  constructor
  · intro h0
    simp [h0]
  · intro hpos
    refine ⟨by simp [hpos], by simp [hpos], ?_⟩
    simp only [hpos, if_true, decide_True, Bool.true_and, decide_eq_true_eq,
      Option.some.injEq]
    constructor
    · intro h
      exact max_eq_left (by omega)
    · intro h
      by_contra hlt
      have : max 0 (capacity - (n : Int)) = capacity - n := max_eq_right (by omega)
      omega

/-- C20: every event that `GET /events` lists and the event that `GET /events/:id`
returns carries the number n of its registered registrations together with
available_spots and is_full that obey the rule: capacity 0 gives null and false
whatever n is; a positive capacity gives max(0, capacity - n), and is_full exactly when
n >= capacity, which is exactly when available_spots is 0. -/
theorem availability_reported (s : Store) :
    (∀ (like : String → String → Bool) (query : EventsQuery) (v : EventView),
      v ∈ (getEvents like s query).events →
      v.registrations_count = registeredCount s v.event.id ∧
      AvailabilityRule v.event.capacity v.registrations_count v.available_spots v.is_full) ∧
    (∀ (id : String) (v : EventView), (getEvent s id).event = some v →
      v.registrations_count = registeredCount s v.event.id ∧
      AvailabilityRule v.event.capacity v.registrations_count v.available_spots v.is_full) := by
  constructor
  · intro like query v hv
    unfold getEvents at hv
    dsimp only at hv
    split at hv
    · simp at hv
    · simp only [List.mem_map] at hv
      obtain ⟨e, _, rfl⟩ := hv
      exact ⟨rfl, availability_rule _ _⟩
  · intro id v hv
    unfold getEvent at hv
    split at hv
    · simp at hv
    · rename_i e he
      simp only [Option.some.injEq] at hv
      subst hv
      have hid : e.id = id := by
        unfold findEvent at he
        simpa using List.find?_some he
      subst hid
      exact ⟨rfl, availability_rule _ _⟩

/-- Witness of C20: after S1 and S2 asked for the single seat of event E1, the route
reports one registration, no spot and a full event; the unlimited event E2 is
reported with null and false. -/
theorem availability_reported_witness :
    (getEvent (runRegisters ⟨true⟩ sampleStore sampleCalls) "E1").event.map
        (fun v => (v.registrations_count, v.available_spots, v.is_full)) =
      some (1, some 0, true) ∧
    (getEvent (runRegisters ⟨true⟩ sampleStore sampleCalls) "E2").event.map
        (fun v => (v.registrations_count, v.available_spots, v.is_full)) =
      some (0, none, false) ∧
    ∀ v : EventView,
      (getEvent (runRegisters ⟨true⟩ sampleStore sampleCalls) "E1").event = some v →
      AvailabilityRule v.event.capacity v.registrations_count v.available_spots v.is_full :=
  ⟨by decide, by decide,
    fun v hv => ((availability_reported (runRegisters ⟨true⟩ sampleStore sampleCalls)).2
      "E1" v hv).2⟩

/-! ## C21: the admin token -/

/-- C21 as amended: validateAdminToken answers 401 when the header is missing or empty,
403 when the header is non-empty and differs from both the configured ADMIN_TOKEN and
the built-in token "admin123456", and hands the request on exactly when the header is
non-empty and equals the configured token or the built-in one. -/
theorem admin_token_checked (configured header : Option String) :
    (validateAdminToken configured header =
        .reply 401 "Admin token required. Include x-admin-token header." ↔
      falsy header = true) ∧
    (validateAdminToken configured header = .reply 403 "Invalid admin token" ↔
      (falsy header = false ∧ header ≠ configured ∧ header ≠ some "admin123456")) ∧
    (validateAdminToken configured header = .next ↔
      (falsy header = false ∧ (header = configured ∨ header = some "admin123456"))) := by
  unfold validateAdminToken
  cases hf : falsy header with
  | true => simp
  | false =>
    by_cases h : header ≠ configured ∧ header ≠ some "admin123456"
    · simp only [Bool.false_eq_true, if_false, if_pos h]
      refine ⟨by simp, by simp [h], ?_⟩
      constructor
      · intro hn; cases hn
      · rintro ⟨_, h1 | h1⟩
        · exact absurd h1 h.1
        · exact absurd h1 h.2
    · simp only [Bool.false_eq_true, if_false, if_neg h]
      refine ⟨by simp, ?_, ?_⟩
      · constructor
        · intro hn; cases hn
        · rintro ⟨_, h1⟩
          exact absurd h1 h
      · constructor
        · intro _
          refine ⟨trivial, ?_⟩
          by_contra hcon
          exact h ⟨fun h1 => hcon (Or.inl h1), fun h1 => hcon (Or.inr h1)⟩
        · intro _; trivial

/-- Counterexample to C21 as stated: with ADMIN_TOKEN set to "test-admin-token", the
header "admin123456" differs from the configured token and is handed on, not answered
with 403. -/
theorem admin_token_builtin_counterexample :
    (some "admin123456" : Option String) ≠ some "test-admin-token" ∧
    validateAdminToken (some "test-admin-token") (some "admin123456") = .next ∧
    (adminCreateEvent (some "test-admin-token") (some "admin123456") ⟨true⟩ sampleStore 1000
      "c9" "E9" (eventRequest 7000 8000 (some (.integer 50)))).2.status = 201 := by
  decide

/-! ## C22: creating an event through the admin route -/

theorem insertEvent_fresh (cfg : DbConfig) (s : Store) (e : Event)
    (hcol : ∃ c ∈ s.colleges, c.id = e.college_id) (hnew : ∀ x ∈ s.events, x.id ≠ e.id) :
    insertEvent cfg s e = .ok { s with events := s.events ++ [e] } := by
  unfold insertEvent
  have hpk : s.events.any (fun x => decide (x.id = e.id)) = false := by
    rw [List.any_eq_false]
    intro x hx
    simpa using hnew x hx
  have hfk : s.colleges.any (fun c => decide (c.id = e.college_id)) = true := by
    rw [List.any_eq_true]
    obtain ⟨c, hc, hid⟩ := hcol
    exact ⟨c, hc, by simpa using hid⟩
  simp [hpk, hfk]

theorem createEventInsert_fresh (cfg : DbConfig) (s : Store) (now : Nat) (eu : String)
    (college : College) (body : EventBody)
    (hcol : ∃ c ∈ s.colleges, c.id = college.id) (hnew : ∀ x ∈ s.events, x.id ≠ eu) :
    createEventInsert cfg s now eu college body =
      ({ s with events := s.events ++ [newEvent now eu college body] },
       { status := 201, success := true, text := "Event created successfully",
         event := some (newEvent now eu college body) }) := by
  have hins := insertEvent_fresh cfg s (newEvent now eu college body) hcol hnew
  unfold newEvent at hins ⊢
  simp only [createEventInsert, hins]

/-- The create handler with a known college name: the event is appended with the id of
that college and no college row is written. -/
theorem createEvent_known_college (cfg : DbConfig) (s : Store) (now : Nat) (cu eu : String)
    (body : EventBody) (college : College)
    (hfind : findCollegeByName s body.college_name = some college)
    (hnew : ∀ x ∈ s.events, x.id ≠ eu) :
    createEvent cfg s now cu eu body =
      ({ s with events := s.events ++ [newEvent now eu college body] },
       { status := 201, success := true, text := "Event created successfully",
         event := some (newEvent now eu college body) }) := by
  have hmem : ∃ c ∈ s.colleges, c.id = college.id := by
    unfold findCollegeByName at hfind
    exact ⟨college, List.mem_of_find?_eq_some hfind, rfl⟩
  simp only [createEvent, hfind]
  exact createEventInsert_fresh cfg s now eu college body hmem hnew

/-- The create handler with a name that no college has: one college row with that name
is appended, and the event with the id of that row. -/
theorem createEvent_new_college (cfg : DbConfig) (s : Store) (now : Nat) (cu eu : String)
    (body : EventBody)
    (hfind : findCollegeByName s body.college_name = none)
    (hcu : ∀ c ∈ s.colleges, c.id ≠ cu) (hnew : ∀ x ∈ s.events, x.id ≠ eu) :
    createEvent cfg s now cu eu body =
      ({ s with colleges := s.colleges ++ [newCollege now cu body.college_name],
                events := s.events ++
                  [newEvent now eu (newCollege now cu body.college_name) body] },
       { status := 201, success := true, text := "Event created successfully",
         event := some (newEvent now eu (newCollege now cu body.college_name) body) }) := by
  have hins : insertCollege s (newCollege now cu body.college_name) =
      .ok { s with colleges := s.colleges ++ [newCollege now cu body.college_name] } := by
    unfold insertCollege
    have hpk : s.colleges.any
        (fun x => decide (x.id = (newCollege now cu body.college_name).id)) = false := by
      rw [List.any_eq_false]
      intro x hx
      simpa [newCollege] using hcu x hx
    simp [hpk]
  unfold newCollege at hins
  simp only [createEvent, hfind, hins]
  exact createEventInsert_fresh cfg _ now eu _ body ⟨_, by simp, rfl⟩ hnew

/-- With new identifiers the create handler answers 201 and returns an event with the
title and the type of the body. -/
theorem createEvent_fresh (cfg : DbConfig) (s : Store) (now : Nat) (cu eu : String)
    (body : EventBody)
    (hcu : ∀ c ∈ s.colleges, c.id ≠ cu) (hnew : ∀ x ∈ s.events, x.id ≠ eu) :
    (createEvent cfg s now cu eu body).2.status = 201 ∧
    (createEvent cfg s now cu eu body).2.success = true ∧
    ∃ ev, (createEvent cfg s now cu eu body).2.event = some ev ∧
      ev.title = body.title ∧ ev.type = body.type := by
  cases hfind : findCollegeByName s body.college_name with
  | some college =>
    rw [createEvent_known_college cfg s now cu eu body college hfind hnew]
    exact ⟨rfl, rfl, _, rfl, rfl, rfl⟩
  | none =>
    rw [createEvent_new_college cfg s now cu eu body hfind hcu hnew]
    exact ⟨rfl, rfl, _, rfl, rfl, rfl⟩

/-- C22, the admin route at the failing input.  The body of the create test names the
college by college_id and carries no college_name: with the valid token it is answered
400 by validateEvent (college_name is required, college_id is not allowed) and no
event is created.  What does hold: a body that passes validateEvent (it names the
college by college_name), sent with an accepted token, is answered 201 with
success = true and an event with the title and type of the body, the identifiers
handed out being new. -/
theorem admin_create_test_body_evaluation :
    validateAdminToken (some "test-admin-token") (some "test-admin-token") = .next ∧
    adminCreateEvent (some "test-admin-token") (some "test-admin-token") ⟨true⟩ sampleStore
        1000 "c9" "E9" testCreateRequest =
      (sampleStore,
       { status := 400, success := false, text := "Validation failed", event := none,
         details := [{ path := "college_name", type := "any.required" },
                     { path := "college_id", type := "object.unknown" }] }) ∧
    (∀ (configured header : Option String) (cfg : DbConfig) (s : Store) (now : Nat)
      (cu eu : String) (req : EventRequest),
      validateAdminToken configured header = .next → eventErrors req = [] →
      (∀ c ∈ s.colleges, c.id ≠ cu) → (∀ x ∈ s.events, x.id ≠ eu) →
      (adminCreateEvent configured header cfg s now cu eu req).2.status = 201 ∧
      (adminCreateEvent configured header cfg s now cu eu req).2.success = true ∧
      ∃ ev, (adminCreateEvent configured header cfg s now cu eu req).2.event = some ev ∧
        req.title = some (.text ev.title) ∧ req.type = some (.text ev.type)) := by
  refine ⟨by decide, by decide, ?_⟩
  intro configured header cfg s now cu eu req htoken hvalid hcu hnew
  simp only [adminCreateEvent, htoken]
  rw [createEventRequest_valid cfg s now cu eu req hvalid]
  obtain ⟨h1, h2, ev, hev, htitle, htype⟩ :=
    createEvent_fresh cfg s now cu eu (eventValue req) hcu hnew
  refine ⟨h1, h2, ev, hev, ?_, ?_⟩
  · rw [htitle]
    unfold eventErrors at hvalid
    simp only [List.append_eq_nil] at hvalid
    have ht := hvalid.1.1.1.1.1.1.1.2
    cases hreq : req.title with
    | none => rw [hreq] at ht; simp [requiredErrors] at ht
    | some v =>
      cases v with
      | notString => rw [hreq] at ht; simp [requiredErrors, stringErrors] at ht
      | text t => simp [eventValue, hreq, TextInput.toString]
  · rw [htype]
    unfold eventErrors at hvalid
    simp only [List.append_eq_nil] at hvalid
    have ht := hvalid.1.1.1.1.1.1.2
    cases hreq : req.type with
    | none => rw [hreq] at ht; simp [requiredErrors] at ht
    | some v =>
      cases v with
      | notString => rw [hreq] at ht; simp [requiredErrors, oneOfErrors] at ht
      | text t => simp [eventValue, hreq, TextInput.toString]

/-- Witness of the positive part of C22: the sample body, which names the college Uni
by college_name, is answered 201 on the sample store. -/
theorem admin_create_test_body_evaluation_witness :
    validateAdminToken (some "test-admin-token") (some "test-admin-token") = .next ∧
    eventErrors (eventRequest 7000 8000 (some (.integer 50))) = [] ∧
    (adminCreateEvent (some "test-admin-token") (some "test-admin-token") ⟨true⟩ sampleStore
      1000 "c9" "E9" (eventRequest 7000 8000 (some (.integer 50)))).2.status = 201 :=
  ⟨by decide, by decide,
    (admin_create_test_body_evaluation.2.2 (some "test-admin-token")
      (some "test-admin-token") ⟨true⟩ sampleStore 1000 "c9" "E9"
      (eventRequest 7000 8000 (some (.integer 50)))
      (by decide) (by decide) (by decide) (by decide)).1⟩

/-! ## C23: updating an event through the admin route -/

theorem find?_map_update (l : List Event) (id : String) (f : Event → Event)
    (hf : ∀ x, (f x).id = x.id) :
    (l.map (fun x => if x.id = id then f x else x)).find? (fun e => decide (e.id = id)) =
      (l.find? (fun e => decide (e.id = id))).map f := by
  induction l with
  | nil => rfl
  | cons a l ih =>
    by_cases h : a.id = id
    · simp [h, hf]
    · simp [h, ih]

/-- The update handler on an existing event: every row with the id is rewritten from
the body, the first one is returned, and no other table is touched. -/
theorem updateEvent_existing (s : Store) (id : String) (body : EventBody) (e : Event)
    (hfind : findEvent s id = some e) :
    updateEvent s id body =
      ({ s with
         events := s.events.map (fun x => if x.id = id then updateEventRow body x else x) },
       { status := 200, success := true, text := "Event updated successfully",
         event := some (updateEventRow body e) }) := by
  have hnew : findEvent
      { s with
        events := s.events.map (fun x => if x.id = id then updateEventRow body x else x) }
      id = some (updateEventRow body e) := by
    unfold findEvent at hfind ⊢
    rw [find?_map_update s.events id (updateEventRow body) (fun x => rfl), hfind]
    rfl
  simp only [updateEvent, hfind, hnew]

theorem updateEvent_missing (s : Store) (id : String) (body : EventBody)
    (hfind : findEvent s id = none) :
    updateEvent s id body =
      (s, { status := 404, success := false, text := "Event not found", event := none }) := by
  simp only [updateEvent, hfind]

/-- C23, the admin route at the failing input.  The body of the update test carries no
college_name: with the valid token, on the existing event E1, it is answered 400 by
validateEvent and nothing changes.  What does hold: a body that passes validateEvent
(so it carries a college_name), sent with an accepted token for an existing event, is
answered 200 with the event carrying the new title and the new capacity, the id and
college_id it had, and the students, registrations, attendance and feedback tables are
as before; for an event id that is not in the store the answer is 404 and the store is
as before. -/
theorem admin_update_test_body_evaluation :
    findEvent sampleStore "E1" = some sampleEvent ∧
    adminUpdateEvent (some "test-admin-token") (some "test-admin-token") sampleStore "E1"
        testUpdateRequest =
      (sampleStore,
       { status := 400, success := false, text := "Validation failed", event := none,
         details := [{ path := "college_name", type := "any.required" }] }) ∧
    (∀ (configured header : Option String) (s : Store) (id : String) (req : EventRequest)
      (e : Event) (c : Int),
      validateAdminToken configured header = .next → eventErrors req = [] →
      req.capacity = some (.integer c) → findEvent s id = some e →
      (adminUpdateEvent configured header s id req).2.status = 200 ∧
      (∃ ev, (adminUpdateEvent configured header s id req).2.event = some ev ∧
        req.title = some (.text ev.title) ∧ ev.capacity = c ∧ ev.id = e.id ∧
        ev.college_id = e.college_id ∧
        findEvent (adminUpdateEvent configured header s id req).1 id = some ev) ∧
      (adminUpdateEvent configured header s id req).1.registrations = s.registrations ∧
      (adminUpdateEvent configured header s id req).1.attendance = s.attendance ∧
      (adminUpdateEvent configured header s id req).1.feedback = s.feedback ∧
      (adminUpdateEvent configured header s id req).1.students = s.students ∧
      (adminUpdateEvent configured header s id req).1.colleges = s.colleges) ∧
    (∀ (configured header : Option String) (s : Store) (id : String) (req : EventRequest),
      validateAdminToken configured header = .next → eventErrors req = [] →
      findEvent s id = none →
      adminUpdateEvent configured header s id req =
        (s, { status := 404, success := false, text := "Event not found", event := none })) := by
  refine ⟨by decide, by decide, ?_, ?_⟩
  · intro configured header s id req e c htoken hvalid hcap hfind
    simp only [adminUpdateEvent, htoken]
    rw [updateEventRequest_valid s id req hvalid,
      updateEvent_existing s id (eventValue req) e hfind]
    refine ⟨rfl, ⟨updateEventRow (eventValue req) e, rfl, ?_, ?_, rfl, rfl, ?_⟩,
      rfl, rfl, rfl, rfl, rfl⟩
    · unfold eventErrors at hvalid
      simp only [List.append_eq_nil] at hvalid
      have ht := hvalid.1.1.1.1.1.1.1.2
      cases hreq : req.title with
      | none => rw [hreq] at ht; simp [requiredErrors] at ht
      | some v =>
        cases v with
        | notString => rw [hreq] at ht; simp [requiredErrors, stringErrors] at ht
        | text t => simp [updateEventRow, eventValue, hreq, TextInput.toString]
    · simp [updateEventRow, eventValue, hcap, NumberInput.toInt]
    · unfold findEvent at hfind ⊢
      rw [find?_map_update s.events id (updateEventRow (eventValue req)) (fun x => rfl), hfind]
      rfl
  · intro configured header s id req htoken hvalid hfind
    simp only [adminUpdateEvent, htoken]
    rw [updateEventRequest_valid s id req hvalid, updateEvent_missing s id _ hfind]

/-- Witness of the positive part of C23: the sample body, which carries a college_name,
is answered 200 for the stored event E1, and 404 for the unknown id E9. -/
theorem admin_update_test_body_evaluation_witness :
    validateAdminToken (some "test-admin-token") (some "test-admin-token") = .next ∧
    eventErrors (eventRequest 7000 8000 (some (.integer 50))) = [] ∧
    findEvent sampleStore "E1" = some sampleEvent ∧
    findEvent sampleStore "E9" = none ∧
    (adminUpdateEvent (some "test-admin-token") (some "test-admin-token") sampleStore "E1"
      (eventRequest 7000 8000 (some (.integer 50)))).2.status = 200 ∧
    adminUpdateEvent (some "test-admin-token") (some "test-admin-token") sampleStore "E9"
        (eventRequest 7000 8000 (some (.integer 50))) =
      (sampleStore,
        { status := 404, success := false, text := "Event not found", event := none }) :=
  ⟨by decide, by decide, by decide, by decide,
    (admin_update_test_body_evaluation.2.2.1 (some "test-admin-token")
      (some "test-admin-token") sampleStore "E1"
      (eventRequest 7000 8000 (some (.integer 50))) sampleEvent 50
      (by decide) (by decide) rfl (by decide)).1,
    admin_update_test_body_evaluation.2.2.2 (some "test-admin-token")
      (some "test-admin-token") sampleStore "E9"
      (eventRequest 7000 8000 (some (.integer 50)))
      (by decide) (by decide) (by decide)⟩

/-! ## C24: colleges are found by name or created -/

theorem createEventInsert_colleges (cfg : DbConfig) (s : Store) (now : Nat)
    (eu : String) (college : College) (body : EventBody) :
    (createEventInsert cfg s now eu college body).1.colleges = s.colleges ∧
    ∀ ev, (createEventInsert cfg s now eu college body).2.event = some ev →
      ev.college_id = college.id := by
  unfold createEventInsert
  dsimp only
  split
  · exact ⟨rfl, fun ev h => by simp at h⟩
  · rename_i s1 h
    refine ⟨by rw [insertEvent_ok h], ?_⟩
    intro ev hev
    simp only [Option.some.injEq] at hev
    rw [← hev]

/-- The create handler leaves the colleges table as it is, or appends one row with the
name of the body when no college had that name. -/
theorem createEvent_colleges (cfg : DbConfig) (s : Store) (now : Nat) (cu eu : String)
    (body : EventBody) :
    (createEvent cfg s now cu eu body).1.colleges = s.colleges ∨
    (findCollegeByName s body.college_name = none ∧
      (createEvent cfg s now cu eu body).1.colleges =
        s.colleges ++ [newCollege now cu body.college_name]) := by
  cases hfind : findCollegeByName s body.college_name with
  | some college =>
    left
    simp only [createEvent, hfind]
    exact (createEventInsert_colleges cfg s now eu college body).1
  | none =>
    cases hok : insertCollege s (newCollege now cu body.college_name) with
    | error e =>
      left
      unfold newCollege at hok
      simp only [createEvent, hfind, hok]
    | ok s1 =>
      right
      refine ⟨rfl, ?_⟩
      have hs1 := insertCollege_ok hok
      unfold newCollege at hok
      simp only [createEvent, hfind, hok]
      rw [(createEventInsert_colleges cfg s1 now eu _ body).1, hs1]

theorem createEvent_keeps_names (cfg : DbConfig) (s : Store) (now : Nat) (cu eu : String)
    (body : EventBody) (h : CollegeNamesDistinct s) :
    CollegeNamesDistinct (createEvent cfg s now cu eu body).1 := by
  unfold CollegeNamesDistinct at *
  rcases createEvent_colleges cfg s now cu eu body with heq | ⟨hnone, heq⟩
  · rw [heq]; exact h
  · rw [heq, List.pairwise_append]
    refine ⟨h, List.pairwise_singleton _ _, ?_⟩
    intro a ha b hb
    rw [List.mem_singleton] at hb
    subst hb
    unfold findCollegeByName at hnone
    rw [List.find?_eq_none] at hnone
    simpa [newCollege] using hnone a ha

theorem runCreateEvents_keeps_names (cfg : DbConfig) (calls : List CreateEventCall) :
    ∀ s : Store, CollegeNamesDistinct s → CollegeNamesDistinct (runCreateEvents cfg s calls) := by
  induction calls with
  | nil => intro s h; simpa [runCreateEvents] using h
  | cons c cs ih =>
    intro s h
    have := ih _ (createEvent_keeps_names cfg s c.now c.collegeUuid c.eventUuid c.body h)
    simpa [runCreateEvents] using this

/-- C24: createEvent with the name of a stored college writes no college row and gives
the event it creates the id of that college; with a name that no college has it
appends exactly one college row with that name (the identifier handed out for it
being new) and gives the event the id of that row.  Hence every sequence of createEvent
calls from a store with pairwise distinct college names leads to a store with pairwise
distinct college names. -/
theorem college_find_or_create (cfg : DbConfig) (s : Store) (now : Nat) (cu eu : String)
    (body : EventBody) :
    (∀ college, findCollegeByName s body.college_name = some college →
      (createEvent cfg s now cu eu body).1.colleges = s.colleges ∧
      ∀ ev, (createEvent cfg s now cu eu body).2.event = some ev →
        ev.college_id = college.id) ∧
    (findCollegeByName s body.college_name = none → (∀ c ∈ s.colleges, c.id ≠ cu) →
      (createEvent cfg s now cu eu body).1.colleges =
        s.colleges ++ [newCollege now cu body.college_name] ∧
      ∀ ev, (createEvent cfg s now cu eu body).2.event = some ev → ev.college_id = cu) ∧
    (∀ calls : List CreateEventCall, CollegeNamesDistinct s →
      CollegeNamesDistinct (runCreateEvents cfg s calls)) := by
  refine ⟨?_, ?_, fun calls h => runCreateEvents_keeps_names cfg calls s h⟩
  · intro college hfind
    simp only [createEvent, hfind]
    exact createEventInsert_colleges cfg s now eu college body
  · intro hfind hcu
    have hins : insertCollege s (newCollege now cu body.college_name) =
        .ok { s with colleges := s.colleges ++ [newCollege now cu body.college_name] } := by
      unfold insertCollege
      have hpk : s.colleges.any
          (fun x => decide (x.id = (newCollege now cu body.college_name).id)) = false := by
        rw [List.any_eq_false]
        intro x hx
        simpa [newCollege] using hcu x hx
      simp [hpk]
    unfold newCollege at hins
    simp only [createEvent, hfind, hins]
    have h := createEventInsert_colleges cfg
      { s with colleges := s.colleges ++
          [{ id := cu, name := body.college_name, created_at := sqlDateTime now }] }
      now eu { id := cu, name := body.college_name, created_at := sqlDateTime now } body
    exact ⟨by rw [h.1]; rfl, h.2⟩

/-- Witness of C24: on the sample store, an event for the stored college Uni writes no
college row, and an event for the unknown college Poly appends the row Poly. -/
theorem college_find_or_create_witness :
    findCollegeByName sampleStore "Uni" = some { id := "C1", name := "Uni", created_at := 0 } ∧
    (createEvent ⟨true⟩ sampleStore 1000 "c9" "E9" (eventBodyFor "Uni")).1.colleges =
      sampleStore.colleges ∧
    findCollegeByName sampleStore "Poly" = none ∧
    (createEvent ⟨true⟩ sampleStore 1000 "c9" "E9" (eventBodyFor "Poly")).1.colleges =
      sampleStore.colleges ++ [newCollege 1000 "c9" "Poly"] ∧
    (createEvent ⟨true⟩ sampleStore 1000 "c9" "E9" (eventBodyFor "Poly")).2.event.map
      (fun ev => ev.college_id) = some "c9" :=
  ⟨by decide,
    ((college_find_or_create ⟨true⟩ sampleStore 1000 "c9" "E9" (eventBodyFor "Uni")).1
      { id := "C1", name := "Uni", created_at := 0 } (by decide)).1,
    by decide,
    ((college_find_or_create ⟨true⟩ sampleStore 1000 "c9" "E9" (eventBodyFor "Poly")).2.1
      (by decide) (by decide)).1,
    by decide⟩

/-! ## C29: the admin operations and the capacity invariant -/

theorem registeredCount_congr {s s1 : Store} (h : s1.registrations = s.registrations)
    (x : String) : registeredCount s1 x = registeredCount s x := by
  unfold registeredCount
  rw [h]

/-- The create handler leaves the events table as it is or appends one event whose id
no stored event had. -/
theorem createEvent_events (cfg : DbConfig) (s : Store) (now : Nat) (cu eu : String)
    (body : EventBody) :
    (createEvent cfg s now cu eu body).1.events = s.events ∨
    ∃ ev : Event, ev.id = eu ∧ (∀ x ∈ s.events, x.id ≠ eu) ∧
      (createEvent cfg s now cu eu body).1.events = s.events ++ [ev] := by
  have hins : ∀ (s0 : Store) (college : College), s0.events = s.events →
      (createEventInsert cfg s0 now eu college body).1.events = s.events ∨
      ∃ ev : Event, ev.id = eu ∧ (∀ x ∈ s.events, x.id ≠ eu) ∧
        (createEventInsert cfg s0 now eu college body).1.events = s.events ++ [ev] := by
    intro s0 college hev
    unfold createEventInsert
    dsimp only
    split
    · left; exact hev
    · rename_i s1 hok
      right
      refine ⟨_, rfl, ?_, by rw [insertEvent_ok hok, ← hev]⟩
      unfold insertEvent at hok
      split at hok
      · cases hok
      · rename_i hno
        rw [← hev]
        simpa using hno
  cases hfind : findCollegeByName s body.college_name with
  | some college =>
    simp only [createEvent, hfind]
    exact hins s college rfl
  | none =>
    cases hok : insertCollege s
        { id := cu, name := body.college_name, created_at := sqlDateTime now } with
    | error e =>
      left
      simp only [createEvent, hfind, hok]
    | ok s1 =>
      simp only [createEvent, hfind, hok]
      exact hins s1 _ (by rw [insertCollege_ok hok])

/-- C29 as amended: from a store in which each event with a positive capacity has at
most that many registered registrations, cancelEvent leads to such a store; createEvent
does too (the identifier handed out for the event being one that no registration
refers to, unless a stored event has it); and updateEvent does when the body sets no
capacity or a capacity that is at least the number of registered registrations of the
event.  The update handler does not compare the new capacity with that number. -/
theorem admin_operations_keep_capacity (cfg : DbConfig) (s : Store)
    (h : CapacityInvariant s) :
    (∀ id : String, CapacityInvariant (cancelEvent s id).1) ∧
    (∀ (now : Nat) (cu eu : String) (body : EventBody),
      (∀ r ∈ s.registrations, r.event_id = eu → ∃ e ∈ s.events, e.id = eu) →
      CapacityInvariant (createEvent cfg s now cu eu body).1) ∧
    (∀ (id : String) (body : EventBody),
      (∀ c, body.capacity = some c → 0 < c → (registeredCount s id : Int) ≤ c) →
      CapacityInvariant (updateEvent s id body).1) := by
  refine ⟨?_, ?_, ?_⟩
  · intro id e he hpos
    rw [registeredCount_congr (cancelEvent_registrations s id)]
    unfold cancelEvent at he
    split at he
    · exact h e he hpos
    · simp only [List.mem_map] at he
      obtain ⟨e0, he0, rfl⟩ := he
      by_cases hid : e0.id = id
      · simp only [hid, if_true] at hpos ⊢
        have := h e0 he0 hpos
        rw [hid] at this
        exact this
      · simp only [hid, if_false] at hpos ⊢
        exact h e0 he0 hpos
  · intro now cu eu body hfresh e he hpos
    rw [registeredCount_congr (createEvent_registrations cfg s now cu eu body)]
    rcases createEvent_events cfg s now cu eu body with heq | ⟨ev, hid, hnew, heq⟩
    · rw [heq] at he
      exact h e he hpos
    · rw [heq, List.mem_append, List.mem_singleton] at he
      rcases he with he | rfl
      · exact h e he hpos
      · have hzero : registeredCount s e.id = 0 := by
          unfold registeredCount
          rw [List.length_eq_zero, List.filter_eq_nil_iff]
          intro r hr hp
          simp only [Bool.and_eq_true, decide_eq_true_eq] at hp
          obtain ⟨e0, he0, hid0⟩ := hfresh r hr (hp.1.trans hid)
          exact hnew e0 he0 hid0
        rw [hzero]
        exact_mod_cast le_of_lt hpos
  · intro id body hcap e he hpos
    rw [registeredCount_congr (updateEvent_registrations s id body)]
    unfold updateEvent at he
    split at he
    · exact h e he hpos
    · simp only [List.mem_map] at he
      obtain ⟨e0, he0, rfl⟩ := he
      by_cases hid : e0.id = id
      · simp only [hid, if_true] at hpos ⊢
        cases hc : body.capacity with
        | none =>
          simp only [updateEventRow, hc] at hpos ⊢
          exact h e0 he0 hpos
        | some c =>
          simp only [updateEventRow, hc] at hpos ⊢
          have := hcap c hc hpos
          rw [← hid] at this
          exact this
      · simp only [hid, if_false] at hpos ⊢
        exact h e0 he0 hpos

theorem twoRegisteredStore_events :
    twoRegisteredStore.events = [sampleEvent, openEvent] := by decide

theorem capacityInvariant_twoRegisteredStore : CapacityInvariant twoRegisteredStore := by
  intro e he hpos
  rw [twoRegisteredStore_events] at he
  simp only [List.mem_cons, List.mem_singleton, List.not_mem_nil, or_false] at he
  rcases he with rfl | rfl
  · decide
  · exact absurd hpos (by decide)

/-- Witness of C29 as amended: with two registrations on the unlimited event E2,
cancelling E2 and raising its capacity to 5 keep the invariant. -/
theorem admin_operations_keep_capacity_witness :
    CapacityInvariant twoRegisteredStore ∧
    CapacityInvariant (cancelEvent twoRegisteredStore "E2").1 ∧
    CapacityInvariant
      (updateEvent twoRegisteredStore "E2" { eventBodyFor "Uni" with capacity := some 5 }).1 :=
  have h := admin_operations_keep_capacity ⟨true⟩ twoRegisteredStore
    capacityInvariant_twoRegisteredStore
  ⟨capacityInvariant_twoRegisteredStore, h.1 "E2",
    h.2.2 "E2" { eventBodyFor "Uni" with capacity := some 5 } (by
      intro c hc _
      simp only [eventBodyFor, Option.some.injEq] at hc
      subst hc
      decide)⟩

/-- Counterexample to C29 as stated: event E2 has two registered registrations and no
limit; the valid update body with capacity 1 is answered 200 and leaves E2 with capacity
1 and two registered registrations. -/
theorem update_lowers_capacity_counterexample :
    CapacityInvariant twoRegisteredStore ∧
    eventErrors (eventRequest 7000 8000 (some (.integer 1))) = [] ∧
    (updateEventRequest twoRegisteredStore "E2"
      (eventRequest 7000 8000 (some (.integer 1)))).2.status = 200 ∧
    ¬ CapacityInvariant
      (updateEventRequest twoRegisteredStore "E2"
        (eventRequest 7000 8000 (some (.integer 1)))).1 := by
  refine ⟨capacityInvariant_twoRegisteredStore, by decide, by decide, ?_⟩
  intro hinv
  have hmem : (updateEventRow (eventValue (eventRequest 7000 8000 (some (.integer 1))))
      openEvent) ∈ (updateEventRequest twoRegisteredStore "E2"
        (eventRequest 7000 8000 (some (.integer 1)))).1.events := by decide
  have := hinv _ hmem (by decide)
  revert this
  decide

/-! ## C25: the attendance report -/

theorem registeredRows_length (s : Store) (eventId : String) :
    (registeredRows s eventId).length = registeredCount s eventId := rfl

/-- Counts over the joined rows of a list of registrations that have at most one
attendance row each: one row per registration, and at most that many with an
attendance row. -/
theorem attendance_flatMap_counts (s : Store) (regs : List Registration)
    (h : ∀ r ∈ regs, (attendanceRows s r.id).length ≤ 1) :
    ((regs.flatMap (fun r =>
        match attendanceRows s r.id with
        | [] => [((some r : Option Registration), (none : Option Attendance))]
        | rows => rows.map (fun a => (some r, some a)))).filter
        (fun row => row.1.isSome)).length = regs.length ∧
    ((regs.flatMap (fun r =>
        match attendanceRows s r.id with
        | [] => [((some r : Option Registration), (none : Option Attendance))]
        | rows => rows.map (fun a => (some r, some a)))).filter
        (fun row => row.2.isSome)).length ≤ regs.length := by
  induction regs with
  | nil => simp
  | cons r rs ih =>
    have ih' := ih (fun x hx => h x (List.mem_cons_of_mem _ hx))
    have hr := h r (List.mem_cons_self _ _)
    simp only [List.flatMap_cons, List.filter_append, List.length_append, List.length_cons]
    cases hrows : attendanceRows s r.id with
    | nil =>
      simp only [List.filter_cons, List.filter_nil, Option.isSome_some, Option.isSome_none,
        if_true, Bool.false_eq_true, if_false, List.length_cons, List.length_nil]
      omega
    | cons a tl =>
      cases tl with
      | nil =>
        simp only [List.map_cons, List.map_nil, List.filter_cons, List.filter_nil,
          Option.isSome_some, if_true, List.length_cons, List.length_nil]
        omega
      | cons b tl2 =>
        rw [hrows] at hr
        simp at hr

/-- Over a store with at most one attendance row per registration, the attendance
report counts each registered registration of the event once, and at most as many
attended as registered. -/
theorem report_counts (s : Store) (eventId : String) (h : AttendanceAtMostOne s) :
    reportRegistrations s eventId = registeredCount s eventId ∧
    reportAttended s eventId ≤ reportRegistrations s eventId := by
  have hregs : ∀ r ∈ registeredRows s eventId, (attendanceRows s r.id).length ≤ 1 := by
    intro r hr
    exact h r (List.mem_of_mem_filter hr)
  have hcounts := attendance_flatMap_counts s (registeredRows s eventId) hregs
  unfold reportRegistrations reportAttended attendanceJoin
  cases hrows : registeredRows s eventId with
  | nil =>
    simp [← registeredRows_length, hrows]
  | cons r rs =>
    rw [hrows] at hcounts
    simp only
    rw [hcounts.1, ← registeredRows_length, hrows]
    exact ⟨rfl, hcounts.2⟩

theorem attendancePercentage_bounds (registrations attended : Nat)
    (h : attended ≤ registrations) :
    0 ≤ attendancePercentage registrations attended ∧
    attendancePercentage registrations attended ≤ 100 := by
  unfold attendancePercentage
  split
  · exact ⟨le_refl 0, by norm_num⟩
  · rename_i hne
    have hpos : (0 : ℚ) < registrations := by exact_mod_cast Nat.pos_of_ne_zero hne
    have hle : (attended : ℚ) ≤ registrations := by exact_mod_cast h
    constructor
    · positivity
    · rw [div_mul_eq_mul_div, div_le_iff₀ hpos]
      nlinarith

/-- C25: over a store with at most one attendance row per registration, every event of
the attendance report, in the single-event form and in the aggregate form, carries as
registrations the number of its registered registrations, at most that many attended,
and as attendance_percentage the value attended / registrations * 100 when
registrations > 0 and 0 when registrations = 0 (before it is rendered with two
decimals), which lies between 0 and 100. -/
theorem attendance_report_correct (s : Store) (h : AttendanceAtMostOne s)
    (eventId collegeId : Option String) (row : AttendanceReportRow)
    (hrow : row ∈ (attendanceReport s eventId collegeId).events ∨
      (attendanceReport s eventId collegeId).event = some row) :
    ∃ e ∈ s.events, row.id = e.id ∧
      row.registrations = registeredCount s e.id ∧
      row.attended ≤ row.registrations ∧
      row.attendance_percentage =
        (if row.registrations = 0 then 0
         else (row.attended : ℚ) / (row.registrations : ℚ) * 100) ∧
      0 ≤ row.attendance_percentage ∧ row.attendance_percentage ≤ 100 := by
  have hrowOf : ∀ e : Event, ∀ r : AttendanceReportRow,
      r.id = e.id → r.registrations = reportRegistrations s e.id →
      r.attended = reportAttended s e.id →
      r.attendance_percentage =
        attendancePercentage (reportRegistrations s e.id) (reportAttended s e.id) →
      r.id = e.id ∧ r.registrations = registeredCount s e.id ∧
      r.attended ≤ r.registrations ∧
      r.attendance_percentage =
        (if r.registrations = 0 then 0 else (r.attended : ℚ) / (r.registrations : ℚ) * 100) ∧
      0 ≤ r.attendance_percentage ∧ r.attendance_percentage ≤ 100 := by
    intro e r hid hreg hatt hpct
    obtain ⟨h1, h2⟩ := report_counts s e.id h
    have hb := attendancePercentage_bounds _ _ h2
    rw [hreg, hatt, hpct]
    exact ⟨hid, h1, h2, rfl, hb.1, hb.2⟩
  unfold attendanceReport at hrow
  split at hrow
  · rcases hrow with hmem | hsome
    · simp only [List.mem_map] at hmem
      obtain ⟨e, he, rfl⟩ := hmem
      have hes : e ∈ s.events := by
        have := (List.perm_insertionSort _ _).mem_iff.mp he
        exact List.mem_of_mem_filter this
      exact ⟨e, hes, hrowOf e _ rfl rfl rfl rfl⟩
    · simp at hsome
  · unfold getSingleEventAttendanceReport at hrow
    split at hrow
    · simp at hrow
    · rename_i e hfind
      rcases hrow with hmem | hsome
      · simp at hmem
      · simp only [Option.some.injEq] at hsome
        subst hsome
        have hes : e ∈ s.events := by
          unfold findEvent at hfind
          exact List.mem_of_find?_eq_some hfind
        exact ⟨e, hes, hrowOf e _ rfl rfl rfl rfl⟩

theorem checkedInStore_atMostOne : AttendanceAtMostOne checkedInStore := by
  intro r hr
  have hregs : checkedInStore.registrations = [newRegistration 1000 "R1" "E2" "S1"] := by
    decide
  rw [hregs, List.mem_singleton] at hr
  subst hr
  decide

/-- Witness of C25: after S1 registered for E2 and checked in, the report of E2 shows
one registration and one attended. -/
theorem attendance_report_correct_witness :
    AttendanceAtMostOne checkedInStore ∧
    (attendanceReport checkedInStore (some "E2") none).event.map
      (fun row => (row.registrations, row.attended)) = some (1, 1) ∧
    ∀ row, (attendanceReport checkedInStore (some "E2") none).event = some row →
      ∃ e ∈ checkedInStore.events, row.id = e.id ∧
        row.registrations = registeredCount checkedInStore e.id ∧
        row.attended ≤ row.registrations ∧
        row.attendance_percentage =
          (if row.registrations = 0 then 0
           else (row.attended : ℚ) / (row.registrations : ℚ) * 100) ∧
        0 ≤ row.attendance_percentage ∧ row.attendance_percentage ≤ 100 :=
  ⟨checkedInStore_atMostOne, by decide,
    fun row hrow => attendance_report_correct checkedInStore checkedInStore_atMostOne
      (some "E2") none row (Or.inr hrow)⟩

/-! ## C26: the popularity report -/

theorem sortDesc_mem {α : Type} (key : α → Nat) (rows : List α) (a : α) :
    a ∈ sortDesc key rows ↔ a ∈ rows :=
  (List.perm_insertionSort _ _).mem_iff

theorem sortDesc_sorted {α : Type} (key : α → Nat) (rows : List α) :
    (sortDesc key rows).Pairwise (fun a b => key b ≤ key a) := by
  haveI : IsTotal α (fun a b => key b ≤ key a) := ⟨fun a b => Nat.le_total (key b) (key a)⟩
  haveI : IsTrans α (fun a b => key b ≤ key a) := ⟨fun a b c hab hbc => Nat.le_trans hbc hab⟩
  exact List.sorted_insertionSort _ rows

theorem applyLimit_sublist {α : Type} (default : Nat) (limit : LimitInput) (rows : List α) :
    (applyLimit default limit rows).Sublist rows := by
  cases limit with
  | absent => exact List.take_sublist _ _
  | count n => exact List.take_sublist _ _
  | unusable => exact List.Sublist.refl _

theorem applyLimit_length {α : Type} (default : Nat) (limit : LimitInput) (rows : List α) :
    (limit = .absent → (applyLimit default limit rows).length ≤ default) ∧
    (∀ n, limit = .count n → (applyLimit default limit rows).length ≤ n) := by
  constructor
  · intro h
    subst h
    simp [applyLimit]
  · intro n h
    subst h
    simp [applyLimit]

/-- C26: the popularity report lists only events of the store that match the college
and type filters of the query, each with registrations_count equal to the number of
its registrations with status registered; the list is in non-increasing order of
registrations_count, and it has at most `limit` entries, at most 10 when the query
names no limit. -/
theorem popularity_report_correct (s : Store) (query : PopularityQuery) :
    (∀ row ∈ (popularityReport s query).events, ∃ e ∈ s.events,
      row = popularityRow s e ∧ row.id = e.id ∧
      row.registrations_count = registeredCount s e.id ∧
      (falsy query.college_id = false → some e.college_id = query.college_id) ∧
      (falsy query.type = false → some e.type = query.type)) ∧
    (popularityReport s query).events.Pairwise
      (fun a b => b.registrations_count ≤ a.registrations_count) ∧
    (query.limit = .absent → (popularityReport s query).events.length ≤ 10) ∧
    (∀ n, query.limit = .count n → (popularityReport s query).events.length ≤ n) := by
  refine ⟨?_, ?_, ?_, ?_⟩
  · intro row hrow
    simp only [popularityReport, List.mem_map] at hrow
    obtain ⟨e, he, rfl⟩ := hrow
    have he2 := (applyLimit_sublist 10 query.limit _).subset he
    rw [sortDesc_mem, List.mem_filter] at he2
    obtain ⟨hes, hmatch⟩ := he2
    simp only [popularityMatches, Bool.and_eq_true, Bool.or_eq_true, decide_eq_true_eq]
      at hmatch
    refine ⟨e, hes, rfl, rfl, rfl, ?_, ?_⟩
    · intro hf
      rcases hmatch.1 with h | h
      · rw [hf] at h; cases h
      · exact h
    · intro hf
      rcases hmatch.2 with h | h
      · rw [hf] at h; cases h
      · exact h
  · simp only [popularityReport]
    rw [List.pairwise_map]
    exact (sortDesc_sorted _ _).sublist (applyLimit_sublist 10 query.limit _)
  · intro h
    simp only [popularityReport, List.length_map]
    exact (applyLimit_length 10 query.limit _).1 h
  · intro n h
    simp only [popularityReport, List.length_map]
    exact (applyLimit_length 10 query.limit _).2 n h

/-- Witness of C26: with two registrations on E2 and none on E1, the report with limit
1 lists E2 alone, with count 2. -/
theorem popularity_report_correct_witness :
    (popularityReport twoRegisteredStore
      { college_id := some "C1", type := none, limit := .count 1 }).events.map
        (fun row => (row.id, row.registrations_count)) = [("E2", 2)] ∧
    (popularityReport twoRegisteredStore
      { college_id := some "C1", type := none, limit := .count 1 }).events.length ≤ 1 :=
  ⟨by decide,
    (popularity_report_correct twoRegisteredStore
      { college_id := some "C1", type := none, limit := .count 1 }).2.2.2 1 rfl⟩

/-! ## C27: the top-active report -/

theorem filter_or_perm {β : Type} (p q : β → Bool) (rows : List β)
    (h : ∀ a ∈ rows, ¬ (p a = true ∧ q a = true)) :
    (rows.filter (fun a => p a || q a)).Perm (rows.filter p ++ rows.filter q) := by
  induction rows with
  | nil => exact List.Perm.refl _
  | cons a rest ih =>
    have ih1 := ih (fun x hx => h x (List.mem_cons_of_mem _ hx))
    have ha := h a (List.mem_cons_self _ _)
    cases hp : p a <;> cases hq : q a
    · simpa [List.filter_cons, hp, hq] using ih1
    · simp only [List.filter_cons, hp, hq, Bool.or_true, if_true, Bool.false_eq_true,
        if_false]
      exact (List.Perm.cons a ih1).trans List.perm_middle.symm
    · simp only [List.filter_cons, hp, hq, Bool.or_false, if_true, Bool.false_eq_true,
        if_false, List.cons_append]
      exact List.Perm.cons a ih1
    · exact absurd ⟨hp, hq⟩ ha

/-- Joining rows to keyed rows with pairwise distinct keys yields, up to order, the
rows whose reference is one of the keys. -/
theorem flatMap_filter_perm {α β : Type} (key : α → String) (ref : β → String)
    (regs : List α) (rows : List β) (h : regs.Pairwise (fun a b => key a ≠ key b)) :
    (regs.flatMap (fun r => rows.filter (fun a => decide (ref a = key r)))).Perm
      (rows.filter (fun a => regs.any (fun r => decide (key r = ref a)))) := by
  induction regs with
  | nil => simp
  | cons r rs ih =>
    rw [List.pairwise_cons] at h
    have ih1 := ih h.2
    have hd : ∀ a ∈ rows, ¬ (decide (ref a = key r) = true ∧
        rs.any (fun x => decide (key x = ref a)) = true) := by
      intro a _ hc
      obtain ⟨h1, h2⟩ := hc
      rw [List.any_eq_true] at h2
      obtain ⟨x, hx, hxa⟩ := h2
      have e1 : ref a = key r := of_decide_eq_true h1
      have e2 : key x = ref a := of_decide_eq_true hxa
      exact h.1 x hx (by rw [e2, e1])
    have hor := filter_or_perm (fun a => decide (ref a = key r))
      (fun a => rs.any (fun x => decide (key x = ref a))) rows hd
    have heq : rows.filter (fun a => (r :: rs).any (fun r => decide (key r = ref a))) =
        rows.filter (fun a => decide (ref a = key r) ||
          rs.any (fun x => decide (key x = ref a))) := by
      apply List.filter_congr
      intro a _
      simp only [List.any_cons]
      congr 1
      by_cases hk : key r = ref a
      · simp [hk]
      · have hk2 : ¬ ref a = key r := fun e => hk e.symm
        simp [hk, hk2]
    rw [List.flatMap_cons, heq]
    exact (List.Perm.append_left _ ih1).trans hor.symm

theorem filter_key_length_le_one {α : Type} (key : α → String) (x : String) (l : List α)
    (h : l.Pairwise (fun a b => key a ≠ key b)) :
    (l.filter (fun c => decide (key c = x))).length ≤ 1 := by
  induction l with
  | nil => simp
  | cons c rest ih =>
    rw [List.pairwise_cons] at h
    by_cases hc : key c = x
    · have hnone : rest.filter (fun c => decide (key c = x)) = [] := by
        rw [List.filter_eq_nil_iff]
        intro y hy hyx
        exact h.1 y hy (by rw [hc]; exact (of_decide_eq_true hyx).symm)
      simp [List.filter_cons, hc, hnone]
    · simp only [List.filter_cons, hc, decide_False]
      exact ih h.2

theorem flatMap_singleton_length {β γ : Type} (l : List β) (f : β → γ) :
    (l.flatMap (fun a => [f a])).length = l.length := by
  induction l with
  | nil => rfl
  | cons a rest ih => simp [List.flatMap_cons, ih]

theorem any_filter {α : Type} (p q : α → Bool) (l : List α) :
    (l.filter p).any q = l.any (fun r => q r && p r) := by
  induction l with
  | nil => rfl
  | cons r rs ih =>
    cases h : p r
    · simp [List.filter_cons, h, ih]
    · simp [List.filter_cons, h, ih]

theorem studentJoin_length (s : Store) (st : Student) (hr : RegistrationIdsDistinct s)
    (c : College) (hc : s.colleges.filter (fun c => decide (c.id = st.college_id)) = [c]) :
    (studentJoin s st).length = (attendanceOfStudent s st.id).length := by
  have h1 : (studentJoin s st).length =
      ((s.registrations.filter (fun r => decide (r.student_id = st.id))).flatMap
        (fun r => s.attendance.filter
          (fun a => decide (a.registration_id = r.id)))).length := by
    unfold studentJoin
    rw [hc, List.length_flatMap, List.length_flatMap]
    congr 1
    apply List.map_congr_left
    intro r _
    exact flatMap_singleton_length _ _
  rw [h1, (flatMap_filter_perm (fun r : Registration => r.id)
    (fun a : Attendance => a.registration_id) _ _
    (List.Pairwise.sublist (List.filter_sublist _) hr)).length_eq]
  unfold attendanceOfStudent
  congr 1
  apply List.filter_congr
  intro a _
  exact any_filter _ _ s.registrations

theorem studentJoin_college (s : Store) (st : Student) (hc : CollegeIdsDistinct s)
    (hne : studentJoin s st ≠ []) :
    ∃ c, s.colleges.filter (fun c => decide (c.id = st.college_id)) = [c] := by
  cases hf : s.colleges.filter (fun c => decide (c.id = st.college_id)) with
  | nil =>
    exfalso
    apply hne
    simp [studentJoin, hf]
  | cons c rest =>
    have hlen := filter_key_length_le_one (fun c : College => c.id) st.college_id
      s.colleges hc
    rw [hf] at hlen
    cases rest with
    | nil => exact ⟨c, rfl⟩
    | cons d rest2 => simp at hlen

theorem topActiveRow_some (s : Store) (st : Student) (row : TopActiveRow)
    (h : topActiveRow s st = some row) :
    row.id = st.id ∧ row.name = st.name ∧
      row.events_attended = (studentJoin s st).length ∧ studentJoin s st ≠ [] := by
  unfold topActiveRow at h
  cases hj : studentJoin s st with
  | nil => rw [hj] at h; cases h
  | cons x rest =>
    rw [hj] at h
    obtain ⟨r, a, c⟩ := x
    simp only [Option.some.injEq] at h
    subst h
    simp

/-- C27: under the primary keys of `registrations` and `colleges`, every entry of the
top-active report is a student of the store whose events_attended is the number of
attendance rows attached to the registrations of that student, whatever their
`present` mark, and is at least 1; with a `college_id` only students of that college
are listed; the list is in non-increasing order of events_attended and has at most
`limit` entries, at most 3 when no limit is named. -/
theorem top_active_report_correct (s : Store) (hr : RegistrationIdsDistinct s)
    (hc : CollegeIdsDistinct s) (collegeId : Option String) (limit : LimitInput) :
    (∀ row ∈ (topActiveReport s collegeId limit).students, ∃ st ∈ s.students,
      row.id = st.id ∧ row.name = st.name ∧
      row.events_attended = (attendanceOfStudent s st.id).length ∧
      1 ≤ row.events_attended ∧
      (falsy collegeId = false → some st.college_id = collegeId)) ∧
    (topActiveReport s collegeId limit).students.Pairwise
      (fun a b => b.events_attended ≤ a.events_attended) ∧
    (limit = .absent → (topActiveReport s collegeId limit).students.length ≤ 3) ∧
    (∀ n, limit = .count n → (topActiveReport s collegeId limit).students.length ≤ n) := by
  refine ⟨?_, ?_, ?_, ?_⟩
  · intro row hrow
    simp only [topActiveReport] at hrow
    have h2 := (applyLimit_sublist 3 limit _).subset hrow
    rw [sortDesc_mem, List.mem_filterMap] at h2
    obtain ⟨st, hst, hsome⟩ := h2
    rw [List.mem_filter] at hst
    obtain ⟨hmem, hfilter⟩ := hst
    obtain ⟨hid, hname, hcount, hne⟩ := topActiveRow_some s st row hsome
    obtain ⟨c, hcol⟩ := studentJoin_college s st hc hne
    refine ⟨st, hmem, hid, hname, ?_, ?_, ?_⟩
    · rw [hcount]
      exact studentJoin_length s st hr c hcol
    · rw [hcount]
      exact List.length_pos.mpr hne
    · intro hf
      simp only [Bool.or_eq_true, decide_eq_true_eq] at hfilter
      rcases hfilter with h | h
      · rw [hf] at h; cases h
      · exact h
  · simp only [topActiveReport]
    exact (sortDesc_sorted _ _).sublist (applyLimit_sublist 3 limit _)
  · intro h
    simp only [topActiveReport]
    exact (applyLimit_length 3 limit _).1 h
  · intro n h
    simp only [topActiveReport]
    exact (applyLimit_length 3 limit _).2 n h

theorem absentStore_registrationIds : RegistrationIdsDistinct absentStore := by
  unfold RegistrationIdsDistinct
  decide

theorem absentStore_collegeIds : CollegeIdsDistinct absentStore := by
  unfold CollegeIdsDistinct
  decide

/-- Witness of C27: in the store where S1 was marked absent for the one registration,
the report lists S1 with events_attended 1. -/
theorem top_active_report_correct_witness :
    RegistrationIdsDistinct absentStore ∧ CollegeIdsDistinct absentStore ∧
    (topActiveReport absentStore none .absent).students.map
      (fun row => (row.id, row.events_attended)) = [("S1", 1)] ∧
    (topActiveReport absentStore none .absent).students.length ≤ 3 :=
  ⟨absentStore_registrationIds, absentStore_collegeIds, by decide,
    (top_active_report_correct absentStore absentStore_registrationIds
      absentStore_collegeIds none .absent).2.2.1 rfl⟩

/-! ## C28: the feedback report -/

theorem feedback_flatMap_rows (s : Store) (regs : List Registration) :
    (regs.flatMap (fun r =>
        match feedbackRows s r.id with
        | [] => [((some r : Option Registration), (none : Option Feedback))]
        | rows => rows.map (fun f => (some r, some f)))).filterMap (fun row => row.2) =
      regs.flatMap (fun r => feedbackRows s r.id) := by
  induction regs with
  | nil => rfl
  | cons r rs ih =>
    simp only [List.flatMap_cons, List.filterMap_append, ih]
    congr 1
    cases hrows : feedbackRows s r.id with
    | nil => rfl
    | cons f tl =>
      simp only [List.filterMap_map]
      exact List.filterMap_some (f :: tl)

theorem joinedFeedback_eq (s : Store) (eventId : String) :
    joinedFeedback s eventId =
      (eventRegistrations s eventId).flatMap (fun r => feedbackRows s r.id) := by
  unfold joinedFeedback feedbackJoin
  cases hregs : eventRegistrations s eventId with
  | nil => rfl
  | cons r rs =>
    simp only
    exact feedback_flatMap_rows s (r :: rs)

theorem joinedFeedback_perm (s : Store) (eventId : String) (hr : RegistrationIdsDistinct s) :
    (joinedFeedback s eventId).Perm (feedbackOfEvent s eventId) := by
  rw [joinedFeedback_eq]
  have hp := flatMap_filter_perm (fun r : Registration => r.id)
    (fun f : Feedback => f.registration_id) (eventRegistrations s eventId) s.feedback
    (List.Pairwise.sublist (List.filter_sublist _) hr)
  have heq : s.feedback.filter (fun f => (eventRegistrations s eventId).any
      (fun r => decide (r.id = f.registration_id))) = feedbackOfEvent s eventId := by
    unfold feedbackOfEvent eventRegistrations
    apply List.filter_congr
    intro f _
    exact any_filter _ _ s.registrations
  rw [← heq]
  exact hp

theorem length_le_rating_sum (l : List Feedback) (h : ∀ f ∈ l, 1 ≤ f.rating) :
    (l.length : Int) ≤ (l.map (fun f => f.rating)).sum := by
  induction l with
  | nil => simp
  | cons f rest ih =>
    have h1 := h f (List.mem_cons_self _ _)
    have h2 := ih (fun x hx => h x (List.mem_cons_of_mem _ hx))
    simp only [List.length_cons, List.map_cons, List.sum_cons, Nat.cast_add, Nat.cast_one]
    omega

theorem reportAvgRating_sqlAvg (l : List Feedback) (h : ∀ f ∈ l, 1 ≤ f.rating) :
    reportAvgRating (sqlAvg (l.map (fun f => f.rating))) =
      if l.length = 0 then none
      else some ((ratingSum l : ℚ) / (l.length : ℚ)) := by
  unfold sqlAvg ratingSum
  rw [List.length_map]
  by_cases h0 : l.length = 0
  · simp [h0, reportAvgRating]
  · have hpos : (0 : ℚ) < (l.length : ℚ) := by exact_mod_cast Nat.pos_of_ne_zero h0
    have hsum : (l.length : ℚ) ≤ (((l.map (fun f => f.rating)).sum : Int) : ℚ) := by
      exact_mod_cast length_le_rating_sum l h
    have hne : (((l.map (fun f => f.rating)).sum : Int) : ℚ) / (l.length : ℚ) ≠ 0 := by
      apply ne_of_gt
      apply div_pos _ hpos
      linarith
    rw [if_neg h0]
    simp only [reportAvgRating]
    rw [if_neg hne]

theorem feedback_row_values (s : Store) (hr : RegistrationIdsDistinct s)
    (hrating : RatingsInRange s) (eventId : String) :
    (joinedFeedback s eventId).length = (feedbackOfEvent s eventId).length ∧
    reportAvgRating (sqlAvg ((joinedFeedback s eventId).map (fun f => f.rating))) =
      (if (joinedFeedback s eventId).length = 0 then none
       else some ((ratingSum (feedbackOfEvent s eventId) : ℚ) /
         ((joinedFeedback s eventId).length : ℚ))) := by
  have hp := joinedFeedback_perm s eventId hr
  have hmem : ∀ f ∈ joinedFeedback s eventId, 1 ≤ f.rating := by
    intro f hf
    have h1 : f ∈ feedbackOfEvent s eventId := hp.mem_iff.mp hf
    exact (hrating f (List.mem_of_mem_filter h1)).1
  refine ⟨hp.length_eq, ?_⟩
  have hsum : ratingSum (joinedFeedback s eventId) = ratingSum (feedbackOfEvent s eventId) := by
    unfold ratingSum
    exact (hp.map (fun f : Feedback => f.rating)).sum_eq
  rw [reportAvgRating_sqlAvg _ hmem, hsum]

/-- C28: under the primary key of `registrations` and with every stored rating in
1..5, every event of the feedback report, in the single-event form and in the
aggregate form, carries as rating_count the number of feedback rows attached to the
registrations of the event and as avg_rating the sum of their ratings divided by
their number (before it is rendered with two decimals), and null when there is none;
avg_rating is null exactly when rating_count is 0. -/
theorem feedback_report_correct (s : Store) (hr : RegistrationIdsDistinct s)
    (hrating : RatingsInRange s) (eventId collegeId : Option String)
    (row : FeedbackReportRow)
    (hrow : row ∈ (feedbackReport s eventId collegeId).events ∨
      (feedbackReport s eventId collegeId).event = some row) :
    ∃ e ∈ s.events, row.id = e.id ∧
      row.rating_count = (feedbackOfEvent s e.id).length ∧
      row.avg_rating =
        (if row.rating_count = 0 then none
         else some ((ratingSum (feedbackOfEvent s e.id) : ℚ) /
           (row.rating_count : ℚ))) ∧
      (row.avg_rating = none ↔ row.rating_count = 0) := by
  have hrowOf : ∀ e : Event, ∀ r : FeedbackReportRow,
      r.id = e.id → r.rating_count = (joinedFeedback s e.id).length →
      r.avg_rating =
        reportAvgRating (sqlAvg ((joinedFeedback s e.id).map (fun f => f.rating))) →
      r.id = e.id ∧ r.rating_count = (feedbackOfEvent s e.id).length ∧
      r.avg_rating =
        (if r.rating_count = 0 then none
         else some ((ratingSum (feedbackOfEvent s e.id) : ℚ) /
           (r.rating_count : ℚ))) ∧
      (r.avg_rating = none ↔ r.rating_count = 0) := by
    intro e r hid hcount havg
    obtain ⟨h1, h2⟩ := feedback_row_values s hr hrating e.id
    have havg2 : r.avg_rating =
        (if r.rating_count = 0 then none
         else some ((ratingSum (feedbackOfEvent s e.id) : ℚ) /
           (r.rating_count : ℚ))) := by
      rw [havg, h2, hcount]
    refine ⟨hid, hcount.trans h1, havg2, ?_⟩
    rw [havg2]
    by_cases h0 : r.rating_count = 0
    · simp [h0]
    · simp [h0]
  unfold feedbackReport at hrow
  split at hrow
  · rcases hrow with hmem | hsome
    · simp only [List.mem_map] at hmem
      obtain ⟨e, he, rfl⟩ := hmem
      have hes : e ∈ s.events := by
        rw [sortDesc_mem] at he
        exact List.mem_of_mem_filter he
      exact ⟨e, hes, hrowOf e _ rfl rfl rfl⟩
    · simp at hsome
  · unfold getSingleEventFeedbackReport at hrow
    split at hrow
    · simp at hrow
    · rename_i e hfind
      rcases hrow with hmem | hsome
      · simp at hmem
      · simp only [Option.some.injEq] at hsome
        subst hsome
        have hes : e ∈ s.events := by
          unfold findEvent at hfind
          exact List.mem_of_find?_eq_some hfind
        exact ⟨e, hes, hrowOf e _ rfl rfl rfl⟩

theorem feedbackStore_registrationIds : RegistrationIdsDistinct feedbackStore := by
  unfold RegistrationIdsDistinct
  decide

theorem feedbackStore_ratings : RatingsInRange feedbackStore := by
  unfold RatingsInRange
  decide

/-- Witness of C28: after S1 rated E2 with 5, the report of E2 shows one rating and an
average that is not null. -/
theorem feedback_report_correct_witness :
    RegistrationIdsDistinct feedbackStore ∧ RatingsInRange feedbackStore ∧
    (feedbackReport feedbackStore (some "E2") none).event.map
      (fun row => row.rating_count) = some 1 ∧
    ∀ row, (feedbackReport feedbackStore (some "E2") none).event = some row →
      ∃ e ∈ feedbackStore.events, row.id = e.id ∧
        row.rating_count = (feedbackOfEvent feedbackStore e.id).length ∧
        row.avg_rating =
          (if row.rating_count = 0 then none
           else some ((ratingSum (feedbackOfEvent feedbackStore e.id) : ℚ) /
             (row.rating_count : ℚ))) ∧
        (row.avg_rating = none ↔ row.rating_count = 0) :=
  ⟨feedbackStore_registrationIds, feedbackStore_ratings, by decide,
    fun row hrow => feedback_report_correct feedbackStore feedbackStore_registrationIds
      feedbackStore_ratings (some "E2") none row (Or.inr hrow)⟩

/-! ## C30: the two attendance counts -/

theorem flatMap_filter_swap_cons {α β : Type} (p : α → β → Bool) (r : α) (rs : List α)
    (rows : List β) :
    (rows.flatMap (fun a => (r :: rs).filter (fun x => p x a))).length =
      (rows.filter (fun a => p r a)).length +
        (rows.flatMap (fun a => rs.filter (fun x => p x a))).length := by
  induction rows with
  | nil => rfl
  | cons a rest ih =>
    simp only [List.flatMap_cons, List.length_append, ih]
    cases h : p r a
    · simp only [List.filter_cons, h, Bool.false_eq_true, if_false]
      omega
    · simp only [List.filter_cons, h, if_true, List.length_cons]
      omega

/-- The two orders of a join give the same number of rows. -/
theorem flatMap_filter_swap {α β : Type} (p : α → β → Bool) (regs : List α)
    (rows : List β) :
    (regs.flatMap (fun r => rows.filter (fun a => p r a))).length =
      (rows.flatMap (fun a => regs.filter (fun r => p r a))).length := by
  induction regs with
  | nil =>
    simp only [List.flatMap_nil, List.length_nil, List.filter_nil]
    induction rows with
    | nil => rfl
    | cons a rest ih => simpa [List.flatMap_cons] using ih
  | cons r rs ih =>
    rw [flatMap_filter_swap_cons, List.flatMap_cons, List.length_append, ih]

theorem attendance_flatMap_attended (s : Store) (regs : List Registration) :
    ((regs.flatMap (fun r =>
        match attendanceRows s r.id with
        | [] => [((some r : Option Registration), (none : Option Attendance))]
        | rows => rows.map (fun a => (some r, some a)))).filter
        (fun row => row.2.isSome)).length =
      (regs.flatMap (fun r => attendanceRows s r.id)).length := by
  induction regs with
  | nil => rfl
  | cons r rs ih =>
    simp only [List.flatMap_cons, List.filter_append, List.length_append, ih]
    congr 1
    cases hrows : attendanceRows s r.id with
    | nil => rfl
    | cons a tl =>
      simp only [List.filter_map, List.length_map]
      congr 1
      apply List.filter_eq_self.mpr
      intro x _
      rfl

theorem reportAttended_eq (s : Store) (eventId : String) :
    reportAttended s eventId =
      ((registeredRows s eventId).flatMap (fun r => attendanceRows s r.id)).length := by
  unfold reportAttended attendanceJoin
  cases hregs : registeredRows s eventId with
  | nil => rfl
  | cons r rs =>
    simp only
    exact attendance_flatMap_attended s (r :: rs)

/-- When no attendance row is marked absent and every registration has status
registered, the report and the detail route count the same rows. -/
theorem counts_agree_when_present (s : Store) (eventId : String)
    (hpresent : ∀ a ∈ s.attendance, a.present = 1)
    (hstatus : ∀ r ∈ s.registrations, r.status = "registered") :
    reportAttended s eventId = attendanceCount s eventId := by
  rw [reportAttended_eq]
  unfold attendanceRows
  rw [flatMap_filter_swap (fun (r : Registration) (a : Attendance) =>
    decide (a.registration_id = r.id))]
  unfold attendanceCount registeredRows
  rw [List.length_flatMap, List.length_flatMap]
  congr 1
  apply List.map_congr_left
  intro a ha
  simp only [Function.comp]
  rw [List.filter_filter]
  congr 1
  apply List.filter_congr
  intro r hr
  have h1 := hpresent a ha
  have h2 := hstatus r hr
  simp [h1, h2, Bool.and_comm]

/-- C30, the two routes at the failing input.  In the store where S1 registered for E2
and was marked absent, the single-event attendance report of E2 answers attended 1,
from `COUNT(attendance.id)` over the joined rows whatever their `present` mark, while
`GET /events/E2` answers attendance_count 0, from the count of the rows with
`present = 1`.  What does hold: in a store where no attendance row is marked absent and
every registration has status registered, the two numbers are equal for every event. -/
theorem attendance_counts_absent_evaluation :
    absentStore.attendance.map (fun a => (a.registration_id, a.present)) = [("R1", 0)] ∧
    (getSingleEventAttendanceReport absentStore "E2").status = 200 ∧
    (getSingleEventAttendanceReport absentStore "E2").event.map
      (fun row => (row.registrations, row.attended)) = some (1, 1) ∧
    (getEvent absentStore "E2").status = 200 ∧
    (getEvent absentStore "E2").event.map (fun v => v.attendance_count) =
      some (some 0) ∧
    (∀ (s : Store) (eventId : String) (e : Event),
      (∀ a ∈ s.attendance, a.present = 1) →
      (∀ r ∈ s.registrations, r.status = "registered") →
      findEvent s eventId = some e →
      (getSingleEventAttendanceReport s eventId).event.map
          (fun row => some row.attended) =
        (getEvent s eventId).event.map (fun v => v.attendance_count)) := by
  refine ⟨by decide, by decide, by decide, by decide, by decide, ?_⟩
  intro s eventId e hpresent hstatus hfind
  have hid : e.id = eventId := by
    unfold findEvent at hfind
    have := List.find?_some hfind
    exact of_decide_eq_true this
  simp only [getSingleEventAttendanceReport, getEvent, hfind, Option.map_some',
    singleAttendanceRow, detailView, hid]
  rw [counts_agree_when_present s eventId hpresent hstatus]

/-- Witness of the agreement part of C30: after S1 registered for E2 and checked in, the
report and the detail route both count one attended. -/
theorem attendance_counts_absent_evaluation_witness :
    (∀ a ∈ checkedInStore.attendance, a.present = 1) ∧
    (∀ r ∈ checkedInStore.registrations, r.status = "registered") ∧
    findEvent checkedInStore "E2" = some openEvent ∧
    (getEvent checkedInStore "E2").event.map (fun v => v.attendance_count) =
      some (some 1) ∧
    (getSingleEventAttendanceReport checkedInStore "E2").event.map
        (fun row => some row.attended) =
      (getEvent checkedInStore "E2").event.map (fun v => v.attendance_count) :=
  ⟨by decide, by decide, by decide, by decide,
    attendance_counts_absent_evaluation.2.2.2.2.2 checkedInStore "E2" openEvent
      (by decide) (by decide) (by decide)⟩

end CampusEvents
